import Mathlib

/-!
JniCpp11: a shallow embedding of the JNI convenience layer.

The embedding follows `src/JniCpp11.h` and `src/JniCpp11.cpp`.

* A JNI reference (`jobject`, `jclass`, `jstring`, ...) and a JNI identifier
  (`jmethodID`, `jfieldID`) is a natural number; `0` is `nullptr`.
* A `std::string` is a `String`.
* The managed runtime is external to the repository.  It is a parameter of
  every definition: a state type `σ` and one transition function that answers
  each JNI entry point (`Runtime.step`).  The pending-exception flag of the
  `JNIEnv` is kept explicitly in `World`, because `ExceptionCheck`,
  `ExceptionDescribe` and `ExceptionClear` are what the exception bridge of
  the library is about.
* A C++ function that can throw `JniException` returns an `Except`; the state
  is threaded explicitly, so what happened before the throw is kept.
* The wrappers cache lazily through `const_cast`; a member function therefore
  returns the updated wrapper next to its result.
* The deleters that `std::shared_ptr` runs when a wrapper goes out of scope
  only release references; they are not part of the embedding.
* `Jni.getEnv rt` is the environment `Jni::getEnv()` returns on the calling
  thread during the run.  What `Jni::getEnv()` asks the virtual machine in
  order to obtain it (`JavaVM::GetEnv`, `JavaVM::AttachCurrentThread`, the
  slot `g_key`) is embedded on its own as `Jni.getEnv_full`.
-/

namespace jnicpp11

/-! ## Handles and wrappers (JniCpp11.h) -/

/-- The null pointer. -/
def nullptr : Nat := 0

abbrev jobject := Nat
abbrev jclass := Nat
abbrev jstring := Nat
abbrev jmethodID := Nat
abbrev jfieldID := Nat

/-- Class `JavaClass`: the data members `_classPath` and `_jclazz`. -/
structure JavaClass where
  _classPath : String
  _jclazz : jclass
deriving DecidableEq

/-- Class `JavaObject`: the data members `_jobject` and `_javaClass`. -/
structure JavaObject where
  _jobject : jobject
  _javaClass : JavaClass
deriving DecidableEq

/-- Class `JavaArray<JavaObject>`: a `JavaObject` with `_elementClassPath`. -/
structure JavaArray extends JavaObject where
  _elementClassPath : String
deriving DecidableEq

/-! ## The types the templates are instantiated with -/

/-- The types `T` for which `TypeSignature::get<T>()` is specialised
(JniCpp11.cpp, lines 352-378). -/
inductive NativeType
  | string | jstring | jobject
  | bool | jboolean | jbyte | jchar | jshort | jint | unsigned_int
  | jlong | long | jfloat | jdouble | void
  | jbooleanArray | jbyteArray | jcharArray | jshortArray
  | jintArray | jlongArray | jfloatArray | jdoubleArray
deriving DecidableEq

/-- The primitive return types of `TEMPLATE_SPEC` besides `bool`
(JniCpp11.cpp, lines 476-484). -/
inductive PrimType
  | jboolean | jbyte | jchar | jshort | jint | long | jlong | jfloat | jdouble
deriving DecidableEq

/-- The primitive-array reference types of `jni.h`. -/
inductive ArrayType
  | jbooleanArray | jbyteArray | jcharArray | jshortArray
  | jintArray | jlongArray | jfloatArray | jdoubleArray
deriving DecidableEq

/-- The return types for which `__call`, `_field`, `__staticCall` and
`_staticField` are specialised (JniCpp11.cpp, lines 472-526). -/
inductive ReturnType
  | JavaObject | JavaArray | jobject | bool
  | prim (t : PrimType)
  | string
deriving DecidableEq

/-- A value of one of the return types.  A primitive is carried as an integer
(for `jfloat` and `jdouble`: the bit pattern; the library never computes with
it). -/
inductive Value
  | JavaObject (o : JavaObject)
  | JavaArray (a : JavaArray)
  | jobject (h : jobject)
  | bool (b : Bool)
  | prim (t : PrimType) (v : Int)
  | string (s : String)
deriving DecidableEq

/-- An element of an argument pack `Args... args`: a value of a return type,
or a value of one of the other types `TypeSignature::get<T>` knows. -/
inductive Arg
  | value (v : Value)
  | jstring (h : jstring)
  | unsigned_int (v : Int)
  | primArray (t : ArrayType) (h : jobject)
deriving DecidableEq

def Value.type : Value → ReturnType
  | .JavaObject _ => .JavaObject
  | .JavaArray _ => .JavaArray
  | .jobject _ => .jobject
  | .bool _ => .bool
  | .prim t _ => .prim t
  | .string _ => .string

def PrimType.toNative : PrimType → NativeType
  | .jboolean => .jboolean
  | .jbyte => .jbyte
  | .jchar => .jchar
  | .jshort => .jshort
  | .jint => .jint
  | .long => .long
  | .jlong => .jlong
  | .jfloat => .jfloat
  | .jdouble => .jdouble

def ArrayType.toNative : ArrayType → NativeType
  | .jbooleanArray => .jbooleanArray
  | .jbyteArray => .jbyteArray
  | .jcharArray => .jcharArray
  | .jshortArray => .jshortArray
  | .jintArray => .jintArray
  | .jlongArray => .jlongArray
  | .jfloatArray => .jfloatArray
  | .jdoubleArray => .jdoubleArray

/-! ## TypeSignature::get<T>() (JniCpp11.cpp, lines 352-378) -/

/-- The explicit specialisations of `template <typename T> TypeSignature::get()`. -/
def TypeSignature.get_T : NativeType → String
  | .string => "Ljava/lang/String;"
  | .jstring => "Ljava/lang/String;"
  | .jobject => "Ljava/lang/Object;"
  | .bool => "Z"
  | .jboolean => "Z"
  | .jbyte => "B"
  | .jchar => "C"
  | .jshort => "S"
  | .jint => "I"
  | .unsigned_int => "I"
  | .jlong => "J"
  | .long => "J"
  | .jfloat => "F"
  | .jdouble => "D"
  | .void => "V"
  | .jbooleanArray => "[Z"
  | .jbyteArray => "[B"
  | .jcharArray => "[C"
  | .jshortArray => "[S"
  | .jintArray => "[I"
  | .jlongArray => "[J"
  | .jfloatArray => "[F"
  | .jdoubleArray => "[D"

/-- The kinds of section 6 of the specification ("recognized descriptor
kinds"): this enumeration follows the specification, not the code. -/
inductive SpecKind
  | boolean | byte | char | short | int | long | float | double | void
  | genericObject | genericText
  | booleanArray | byteArray | charArray | shortArray
  | intArray | longArray | floatArray | doubleArray
deriving DecidableEq

/-- The kind of the specification that a native type is a spelling of. -/
def NativeType.specKind : NativeType → SpecKind
  | .string => .genericText
  | .jstring => .genericText
  | .jobject => .genericObject
  | .bool => .boolean
  | .jboolean => .boolean
  | .jbyte => .byte
  | .jchar => .char
  | .jshort => .short
  | .jint => .int
  | .unsigned_int => .int
  | .jlong => .long
  | .long => .long
  | .jfloat => .float
  | .jdouble => .double
  | .void => .void
  | .jbooleanArray => .booleanArray
  | .jbyteArray => .byteArray
  | .jcharArray => .charArray
  | .jshortArray => .shortArray
  | .jintArray => .intArray
  | .jlongArray => .longArray
  | .jfloatArray => .floatArray
  | .jdoubleArray => .doubleArray

/-- The element type of a primitive-array type. -/
def ArrayType.element : ArrayType → NativeType
  | .jbooleanArray => .jboolean
  | .jbyteArray => .jbyte
  | .jcharArray => .jchar
  | .jshortArray => .jshort
  | .jintArray => .jint
  | .jlongArray => .jlong
  | .jfloatArray => .jfloat
  | .jdoubleArray => .jdouble

/-! ## Jni: obtaining the environment (JniCpp11.cpp, lines 46-103)

`Jni::getEnv()` as the library is built without cocos2d-x.  The virtual
machine behind the invocation interface is external to the repository, like
the runtime behind `JNIEnv`: it is a parameter. -/

/-- `JNI_OK` of `jni.h`. -/
def JNI_OK : Int := 0

/-- `JNI_EDETACHED` of `jni.h`. -/
def JNI_EDETACHED : Int := -2

/-- `JNI_VERSION_1_4` of `jni.h` (`0x00010004`). -/
def JNI_VERSION_1_4 : Int := 65540

/-- The functions of the invocation interface (`JavaVM`) the library calls. -/
inductive JavaVMCall
  | GetEnv (version : Int)
  | AttachCurrentThread
  | DetachCurrentThread
deriving DecidableEq

/-- What a function of `JavaVM` answers: the `jint` it returns and the
environment pointer it stores through its first argument. -/
structure JavaVMReply where
  ret : Int
  env : Nat
deriving DecidableEq

/-- The virtual machine as the invocation interface shows it: how it answers
a call in a given state. -/
structure JavaVM (τ : Type) where
  step : τ → JavaVMCall → JavaVMReply × τ

/-- Class `Jni` as the calling thread sees it: the data member `_jvm`, the
value of the thread-local key `g_key` on this thread
(`pthread_getspecific(g_key)`), the state of the virtual machine, and the
calls of the invocation interface issued so far, oldest first. -/
structure Jni (τ : Type) where
  _jvm : Nat
  g_key : Nat
  vm : τ
  vmCalls : List JavaVMCall
deriving DecidableEq

/-- A call `jvm->F(...)` of the invocation interface. -/
def JavaVM.invoke {τ : Type} (vm : JavaVM τ) (j : Jni τ) (c : JavaVMCall) : JavaVMReply × Jni τ :=
  let r := vm.step j.vm c
  (r.1, { j with vm := r.2, vmCalls := j.vmCalls ++ [c] })

/-- `Jni::getJvm`. -/
def Jni.getJvm {τ : Type} (j : Jni τ) : Nat := j._jvm

/-- `Jni::setJvm`: `pthread_key_create` gives a key whose value is `NULL` on
every thread. -/
def Jni.setJvm {τ : Type} (j : Jni τ) (jvm : Nat) : Jni τ :=
  { j with _jvm := jvm, g_key := nullptr }

/-- `detachCurrentThread`, the destructor of `g_key`, run when the thread
ends. -/
def detachCurrentThread {τ : Type} (vm : JavaVM τ) (j : Jni τ) : Jni τ :=
  if Jni.getJvm j ≠ nullptr then (JavaVM.invoke vm j .DetachCurrentThread).2 else j

/-- `Jni::getEnv` with what it does to obtain the environment: the pointer
held under `g_key` when there is one; otherwise `JavaVM::GetEnv` and, for a
thread the virtual machine does not know, `JavaVM::AttachCurrentThread`, the
pointer obtained being stored under `g_key`. -/
def Jni.getEnv_full {τ : Type} (vm : JavaVM τ) (j : Jni τ) : Nat × Jni τ :=
  let env := j.g_key
  if env = nullptr then
    let jvm := Jni.getJvm j
    if jvm = nullptr then
      (nullptr, j)
    else
      let (r, j) := JavaVM.invoke vm j (.GetEnv JNI_VERSION_1_4)
      if r.ret = JNI_OK then
        (r.env, { j with g_key := r.env })
      else if r.ret = JNI_EDETACHED then
        let (a, j) := JavaVM.invoke vm j .AttachCurrentThread
        if a.ret < 0 then
          (nullptr, j)
        else
          (a.env, { j with g_key := a.env })
      else
        (nullptr, j)
  else
    (env, j)

/-! ## The managed runtime and the JNI environment -/

/-- The `TYPE_NAME` of the macros `CALL_METHOD`, `GET_FIELD`,
`CALL_STATIC_METHOD` and `GET_STATIC_FIELD`: which member of the JNI function
family is called. -/
inductive TypeName
  | Object | Boolean | Byte | Char | Short | Int | Long | Float | Double | Void
deriving DecidableEq

/-- What is passed through a C variadic argument list: a reference, a
primitive, or a C++ object handed over as it is (the generic `adaptArg`). -/
inductive VaArg
  | ref (h : jobject)
  | prim (v : Int)
  | object (v : Value)
deriving DecidableEq

/-- The JNI entry points the library calls through `JNIEnv`. -/
inductive JniCall
  | FindClass (name : String)
  | NewGlobalRef (ref : jobject)
  | NewLocalRef (ref : jobject)
  | DeleteLocalRef (ref : jobject)
  | GetObjectClass (obj : jobject)
  | GetMethodID (clazz : jclass) (name sig : String)
  | GetStaticMethodID (clazz : jclass) (name sig : String)
  | GetFieldID (clazz : jclass) (name sig : String)
  | GetStaticFieldID (clazz : jclass) (name sig : String)
  | NewObjectV (clazz : jclass) (methodID : jmethodID) (args : List VaArg)
  | CallMethodV (t : TypeName) (obj : jobject) (methodID : jmethodID) (args : List VaArg)
  | CallStaticMethodV (t : TypeName) (clazz : jclass) (methodID : jmethodID) (args : List VaArg)
  | GetField (t : TypeName) (obj : jobject) (fieldID : jfieldID)
  | GetStaticField (t : TypeName) (clazz : jclass) (fieldID : jfieldID)
  | NewStringUTF (bytes : String)
  | NewByteArray (len : Int)
  | SetByteArrayRegion (array : jobject) (start len : Int) (buf : String)
  | GetStringUTFChars (str : jstring)
  | ReleaseStringUTFChars (str : jstring) (chars : String)
deriving DecidableEq

/-- What a JNI entry point answers: the reference or identifier it returns
(`0` is `NULL`), the primitive it returns, the characters it returns
(`GetStringUTFChars`), and whether it leaves a Java exception pending. -/
structure JniReply where
  ref : Nat
  val : Int
  chars : Option String
  throws : Bool
deriving DecidableEq

/-- The managed runtime, external to the library: whether `Jni::getEnv()`
yields an environment on this thread, and how the runtime answers a JNI call
in a given state. -/
structure Runtime (σ : Type) where
  hasEnv : Bool
  step : σ → JniCall → JniReply × σ

/-- The state the library runs in. -/
structure World (σ : Type) where
  /-- state of the managed runtime -/
  heap : σ
  /-- a Java exception is pending: what `env->ExceptionCheck()` returns -/
  pending : Bool
  /-- number of `env->ExceptionDescribe()` reports -/
  described : Nat
  /-- the JNI calls issued so far, oldest first -/
  calls : List JniCall
  /-- the messages written by `JniException::log`, oldest first -/
  logged : List String
  /-- a null `JNIEnv *` was dereferenced (undefined behaviour) -/
  fault : Bool

variable {σ : Type}

/-- The result of `Jni::getEnv()`: a non-null pointer when the runtime has an
environment for the thread, `nullptr` otherwise.  What `Jni::getEnv()` asks
the virtual machine in order to obtain it is `Jni.getEnv_full`; the calls of
the invocation interface are not among the calls through `JNIEnv` that
`World.calls` records. -/
def Jni.getEnv (rt : Runtime σ) : Nat := if rt.hasEnv then 1 else nullptr

/-- A call `env->F(...)` of a JNI entry point: the runtime answers, its state
advances, an exception it throws becomes pending, and the call is recorded.
Through a null `env` the call is undefined behaviour, recorded in `fault`. -/
def JNIEnv.invoke (rt : Runtime σ) (w : World σ) (c : JniCall) : JniReply × World σ :=
  if Jni.getEnv rt = nullptr then
    (⟨0, 0, none, false⟩, { w with fault := true })
  else
    let r := rt.step w.heap c
    (r.1, { w with heap := r.2, pending := w.pending || r.1.throws, calls := w.calls ++ [c] })

def JNIEnv.FindClass (rt : Runtime σ) (w : World σ) (name : String) : jclass × World σ :=
  let r := JNIEnv.invoke rt w (.FindClass name)
  (r.1.ref, r.2)

def JNIEnv.NewGlobalRef (rt : Runtime σ) (w : World σ) (ref : jobject) : jobject × World σ :=
  let r := JNIEnv.invoke rt w (.NewGlobalRef ref)
  (r.1.ref, r.2)

def JNIEnv.NewLocalRef (rt : Runtime σ) (w : World σ) (ref : jobject) : jobject × World σ :=
  let r := JNIEnv.invoke rt w (.NewLocalRef ref)
  (r.1.ref, r.2)

def JNIEnv.DeleteLocalRef (rt : Runtime σ) (w : World σ) (ref : jobject) : World σ :=
  (JNIEnv.invoke rt w (.DeleteLocalRef ref)).2

def JNIEnv.GetObjectClass (rt : Runtime σ) (w : World σ) (obj : jobject) : jclass × World σ :=
  let r := JNIEnv.invoke rt w (.GetObjectClass obj)
  (r.1.ref, r.2)

def JNIEnv.ExceptionCheck (w : World σ) : Bool := w.pending

def JNIEnv.ExceptionDescribe (w : World σ) : World σ :=
  { w with described := w.described + 1 }

def JNIEnv.ExceptionClear (w : World σ) : World σ :=
  { w with pending := false }

/-! ## JniException (JniCpp11.cpp, lines 336-348) -/

/-- Class `JniException`: the data member `_message`. -/
structure JniException where
  _message : String
deriving DecidableEq

/-- `JniException::log`: `LOGE("%s", _message.c_str())`. -/
def JniException.log (e : JniException) (w : World σ) : World σ :=
  { w with logged := w.logged ++ [e._message] }

/-- `JniException::checkException`. -/
def JniException.checkException (w : World σ) : Except JniException Unit × World σ :=
  if JNIEnv.ExceptionCheck w then
    let w := JNIEnv.ExceptionDescribe w
    let w := JNIEnv.ExceptionClear w
    (.error ⟨"JNI ExceptionCheck found exception."⟩, w)
  else
    (.ok (), w)

/-! ## env_util (JniCpp11.cpp, lines 533-576) -/

/-- `env_util::findClass`. -/
def env_util.findClass (rt : Runtime σ) (w : World σ) (classPath : String) :
    Except JniException jclass × World σ :=
  let (clazz, w) := JNIEnv.FindClass rt w classPath
  if clazz = nullptr then
    (.error ⟨"Class not found: " ++ classPath⟩, w)
  else
    match JniException.checkException w with
    | (.error e, w) => (.error e, w)
    | (.ok _, w) => (.ok clazz, w)

/-- `env_util::getMethodId`. -/
def env_util.getMethodId (rt : Runtime σ) (w : World σ) (clazz : jclass)
    (methodName signature : String) (isStatic : Bool) :
    Except JniException jmethodID × World σ :=
  let r :=
    if isStatic then JNIEnv.invoke rt w (.GetStaticMethodID clazz methodName signature)
    else JNIEnv.invoke rt w (.GetMethodID clazz methodName signature)
  let methodId := r.1.ref
  let w := r.2
  if methodId = nullptr then
    (.error ⟨"Method `" ++ methodName ++ "` for `" ++ signature ++ "` not found."⟩, w)
  else
    match JniException.checkException w with
    | (.error e, w) => (.error e, w)
    | (.ok _, w) => (.ok methodId, w)

/-- `env_util::getFieldId`. -/
def env_util.getFieldId (rt : Runtime σ) (w : World σ) (clazz : jclass)
    (fieldName signature : String) (isStatic : Bool) :
    Except JniException jfieldID × World σ :=
  let r :=
    if isStatic then JNIEnv.invoke rt w (.GetStaticFieldID clazz fieldName signature)
    else JNIEnv.invoke rt w (.GetFieldID clazz fieldName signature)
  let fieldId := r.1.ref
  let w := r.2
  if fieldId = nullptr then
    (.error ⟨"Field `" ++ fieldName ++ "` for `" ++ signature ++ "` not found."⟩, w)
  else
    match JniException.checkException w with
    | (.error e, w) => (.error e, w)
    | (.ok _, w) => (.ok fieldId, w)

/-! ## Reference holders (JniCpp11.cpp, lines 124-146) -/

/-- `toGlobalRefSharedPtr`: the global reference the returned `shared_ptr`
holds (`nullptr` for an empty one). -/
def toGlobalRefSharedPtr (rt : Runtime σ) (w : World σ) (localRef : jobject) : jobject × World σ :=
  if localRef = nullptr then
    (nullptr, w)
  else if Jni.getEnv rt = nullptr then
    (nullptr, w)
  else
    let (globalRef, w) := JNIEnv.NewGlobalRef rt w localRef
    match JniException.checkException w with
    | (.ok _, w) => (globalRef, w)
    | (.error e, w) => (nullptr, e.log w)

/-- `toLocalRefSharedPtr`: the reference the returned `shared_ptr` holds. -/
def toLocalRefSharedPtr (localRef : jobject) : jobject := localRef

/-! ## JavaClass (JniCpp11.cpp, lines 150-242) -/

/-- The constructor `JavaClass(jclass clazz)`. -/
def JavaClass.ofJClass (rt : Runtime σ) (w : World σ) (clazz : jclass) : JavaClass × World σ :=
  let (g, w) := toGlobalRefSharedPtr rt w clazz
  ({ _classPath := "", _jclazz := g }, w)

/-- The constructor `JavaClass(const std::string &classPath)`. -/
def JavaClass.ofPath (classPath : String) : JavaClass :=
  { _classPath := classPath, _jclazz := nullptr }

/-- The constructor `JavaClass(jclass clazz, const std::string &classPath)`. -/
def JavaClass.ofJClassPath (rt : Runtime σ) (w : World σ) (clazz : jclass) (classPath : String) :
    JavaClass × World σ :=
  let (g, w) := toGlobalRefSharedPtr rt w clazz
  ({ _classPath := classPath, _jclazz := g }, w)

/-- The wrapper a `nullptr` converts to: `JavaClass(jclass)` at a null
handle, where `toGlobalRefSharedPtr` returns at once. -/
def JavaClass.null : JavaClass := { _classPath := "", _jclazz := nullptr }

/-- `JavaClass::getClass`. -/
def JavaClass.getClass (rt : Runtime σ) (w : World σ) (classPath : String) : JavaClass × World σ :=
  if Jni.getEnv rt = nullptr then
    (JavaClass.null, w)
  else
    match env_util.findClass rt w classPath with
    | (.ok clazz, w) => JavaClass.ofJClassPath rt w clazz classPath
    | (.error e, w) => (JavaClass.null, e.log w)

/-- `JavaClass::getJClass`. -/
def JavaClass.getJClass (rt : Runtime σ) (w : World σ) (this : JavaClass) :
    jclass × JavaClass × World σ :=
  if this._jclazz = nullptr then
    if this._classPath ≠ "" then
      if Jni.getEnv rt = nullptr then
        (nullptr, this, w)
      else
        match env_util.findClass rt w this._classPath with
        | (.ok clazz, w) =>
          let (g, w) := toGlobalRefSharedPtr rt w clazz
          let this := { this with _jclazz := g }
          let w := JNIEnv.DeleteLocalRef rt w clazz
          (this._jclazz, this, w)
        | (.error e, w) => (this._jclazz, this, e.log w)
    else
      (this._jclazz, this, w)
  else
    (this._jclazz, this, w)

/-- `JavaClass::operator bool`. -/
def JavaClass.toBool (this : JavaClass) : Bool := decide (this._jclazz ≠ nullptr)

/-- `JavaClass::operator==(const std::nullptr_t &)`. -/
def JavaClass.eqNull (this : JavaClass) : Bool := decide (this._jclazz = nullptr)

/-- `JavaClass::checkAndGetEnv`. -/
def JavaClass.checkAndGetEnv (rt : Runtime σ) (w : World σ) (this : JavaClass) :
    Except JniException Unit × JavaClass × World σ :=
  if Jni.getEnv rt = nullptr then
    (.error ⟨"Failed to get JNIEnv. "⟩, this, w)
  else
    let (jclazz, this, w) := JavaClass.getJClass rt w this
    if jclazz = nullptr then
      (.error ⟨"Failed to get jclass."⟩, this, w)
    else
      (.ok (), this, w)

/-! ## JavaObject (JniCpp11.cpp, lines 245-316) -/

/-- The constructor `JavaObject(jobject obj)`; `_javaClass(nullptr)` is
`JavaClass.null`. -/
def JavaObject.ofJObject (obj : jobject) : JavaObject :=
  { _jobject := toLocalRefSharedPtr obj, _javaClass := JavaClass.null }

/-- The constructor `JavaObject(jobject obj, jclass clazz)`. -/
def JavaObject.ofJObjectJClass (rt : Runtime σ) (w : World σ) (obj : jobject) (clazz : jclass) :
    JavaObject × World σ :=
  let (c, w) := JavaClass.ofJClass rt w clazz
  ({ _jobject := toLocalRefSharedPtr obj, _javaClass := c }, w)

/-- The constructor `JavaObject(jobject obj, const JavaClass &clazz)`. -/
def JavaObject.ofJObjectClass (obj : jobject) (clazz : JavaClass) : JavaObject :=
  { _jobject := toLocalRefSharedPtr obj, _javaClass := clazz }

/-- The constructor `JavaObject(jobject obj, const std::string &classPath)`. -/
def JavaObject.ofJObjectPath (obj : jobject) (classPath : String) : JavaObject :=
  { _jobject := toLocalRefSharedPtr obj, _javaClass := JavaClass.ofPath classPath }

/-- `JavaObject::null`. -/
def JavaObject.null (classPath : String) : JavaObject :=
  JavaObject.ofJObjectPath nullptr classPath

/-- `JavaObject::getJObject`. -/
def JavaObject.getJObject (this : JavaObject) : jobject := this._jobject

/-- `JavaObject::operator bool`. -/
def JavaObject.toBool (this : JavaObject) : Bool := decide (this._jobject ≠ nullptr)

/-- `JavaObject::operator==(const std::nullptr_t &)`. -/
def JavaObject.eqNull (this : JavaObject) : Bool := decide (this._jobject = nullptr)

/-- The last statement of `JavaObject::getJClass`:
`return _javaClass.getJClass();`. -/
def JavaObject.returnJClass (rt : Runtime σ) (w : World σ) (this : JavaObject) :
    jclass × JavaObject × World σ :=
  let (clazz, c, w) := JavaClass.getJClass rt w this._javaClass
  (clazz, { this with _javaClass := c }, w)

/-- `JavaObject::getJClass`. -/
def JavaObject.getJClass (rt : Runtime σ) (w : World σ) (this : JavaObject) :
    jclass × JavaObject × World σ :=
  if this._javaClass.eqNull then
    if this._jobject ≠ nullptr then
      if Jni.getEnv rt = nullptr then
        (nullptr, this, w)
      else
        let (clazz, w) := JNIEnv.GetObjectClass rt w this._jobject
        if clazz = nullptr then
          JavaObject.returnJClass rt (JniException.log ⟨"GetObjectClass failed."⟩ w) this
        else
          match JniException.checkException w with
          | (.error e, w) => JavaObject.returnJClass rt (e.log w) this
          | (.ok _, w) =>
            let (c, w) := JavaClass.ofJClass rt w clazz
            let this := { this with _javaClass := c }
            let w := JNIEnv.DeleteLocalRef rt w clazz
            JavaObject.returnJClass rt w this
    else
      JavaObject.returnJClass rt w this
  else
    JavaObject.returnJClass rt w this

/-- `JavaObject::asType`. -/
def JavaObject.asType (this : JavaObject) (clazz : JavaClass) : JavaObject :=
  let ret := JavaObject.ofJObjectClass nullptr clazz
  { ret with _jobject := this._jobject }

/-- `JavaObject::checkAndGetEnv`. -/
def JavaObject.checkAndGetEnv (rt : Runtime σ) (w : World σ) (this : JavaObject) :
    Except JniException Unit × JavaObject × World σ :=
  if Jni.getEnv rt = nullptr then
    (.error ⟨"Failed to get JNIEnv."⟩, this, w)
  else
    let (jclazz, this, w) := JavaObject.getJClass rt w this
    if jclazz = nullptr then
      (.error ⟨"Failed to get jclass. "⟩, this, w)
    else
      let jobj := this.getJObject
      if jobj = nullptr then
        (.error ⟨"Failed to get jobject. "⟩, this, w)
      else
        (.ok (), this, w)

/-! ## fromJString (JniCpp11.cpp, lines 418-434) -/

/-- `fromJString(jstring jstr, const std::string &defaultValue, bool deleteLocalRef)`. -/
def fromJString (rt : Runtime σ) (w : World σ) (jstr : jstring) (defaultValue : String)
    (deleteLocalRef : Bool) : String × World σ :=
  let r := JNIEnv.invoke rt w (.GetStringUTFChars jstr)
  match r.1.chars with
  | none => (defaultValue, r.2)
  | some chars =>
    let ret := chars
    let w := (JNIEnv.invoke rt r.2 (.ReleaseStringUTFChars jstr chars)).2
    let w := if deleteLocalRef then JNIEnv.DeleteLocalRef rt w jstr else w
    (ret, w)

/-- `fromJString(const JavaObject &jstr, const std::string &defaultValue)`. -/
def fromJStringObject (rt : Runtime σ) (w : World σ) (jstr : JavaObject) (defaultValue : String) :
    String × World σ :=
  fromJString rt w jstr.getJObject defaultValue false

/-! ## JavaArray<JavaObject> (JniCpp11.cpp, lines 319-332) -/

/-- The constructor `JavaArray(jobject obj)`. -/
def JavaArray.ofJObject (obj : jobject) : JavaArray :=
  { toJavaObject := JavaObject.ofJObject obj, _elementClassPath := "" }

/-- The constructor `JavaArray(jobject obj, const std::string &elementClassPath)`. -/
def JavaArray.ofJObjectPath (obj : jobject) (elementClassPath : String) : JavaArray :=
  { toJavaObject := JavaObject.ofJObject obj, _elementClassPath := elementClassPath }

/-- `JavaArray<JavaObject>::null`. -/
def JavaArray.null (elementClassPath : String) : JavaArray :=
  JavaArray.ofJObjectPath nullptr elementClassPath

/-- `JavaArray<JavaObject>::getElementClassPath`. -/
def JavaArray.getElementClassPath (this : JavaArray) : String := this._elementClassPath

/-- `JavaArray<JavaObject>::getTypeSignature`. -/
def JavaArray.getTypeSignature (this : JavaArray) : String :=
  "[L" ++ this.getElementClassPath ++ ";"

/-! ## The specialisations of TEMPLATE_SPEC (JniCpp11.cpp, lines 438-526) -/

def PrimType.typeName : PrimType → TypeName
  | .jboolean => .Boolean
  | .jbyte => .Byte
  | .jchar => .Char
  | .jshort => .Short
  | .jint => .Int
  | .long => .Long
  | .jlong => .Long
  | .jfloat => .Float
  | .jdouble => .Double

/-- The `TYPE_NAME` that `TEMPLATE_SPEC(TYPE, TYPE_NAME)` pairs with `TYPE`;
the specialisations for `std::string` use the `Object` functions. -/
def ReturnType.typeName : ReturnType → TypeName
  | .JavaObject => .Object
  | .JavaArray => .Object
  | .jobject => .Object
  | .bool => .Boolean
  | .prim t => t.typeName
  | .string => .Object

/-- The end of a specialisation, after the JNI function answered `r`:
`return ret;` converts the value to `TYPE`; the specialisations for
`std::string` return `fromJString(jret, "", true)`. -/
def ReturnType.finish (rt : Runtime σ) (R : ReturnType) (r : JniReply × World σ) : Value × World σ :=
  match R with
  | .JavaObject => (.JavaObject (JavaObject.ofJObject r.1.ref), r.2)
  | .JavaArray => (.JavaArray (JavaArray.ofJObject r.1.ref), r.2)
  | .jobject => (.jobject r.1.ref, r.2)
  | .bool => (.bool (decide (r.1.val ≠ 0)), r.2)
  | .prim t => (.prim t r.1.val, r.2)
  | .string =>
    let (s, w) := fromJString rt r.2 r.1.ref "" true
    (.string s, w)

/-- `JavaObject::__call<TYPE>`. -/
def JavaObject.__call (rt : Runtime σ) (w : World σ) (this : JavaObject) (R : ReturnType)
    (methodId : jmethodID) (args : List VaArg) : Value × World σ :=
  R.finish rt (JNIEnv.invoke rt w (.CallMethodV R.typeName this._jobject methodId args))

/-- `JavaObject::__call<void>`. -/
def JavaObject.__callVoid (rt : Runtime σ) (w : World σ) (this : JavaObject)
    (methodId : jmethodID) (args : List VaArg) : World σ :=
  (JNIEnv.invoke rt w (.CallMethodV .Void this._jobject methodId args)).2

/-- `JavaObject::_field<TYPE>`. -/
def JavaObject._field (rt : Runtime σ) (w : World σ) (this : JavaObject) (R : ReturnType)
    (fieldId : jfieldID) : Value × World σ :=
  R.finish rt (JNIEnv.invoke rt w (.GetField R.typeName this._jobject fieldId))

/-- `JavaClass::__staticCall<TYPE>`. -/
def JavaClass.__staticCall (rt : Runtime σ) (w : World σ) (this : JavaClass) (R : ReturnType)
    (methodId : jmethodID) (args : List VaArg) : Value × World σ :=
  R.finish rt (JNIEnv.invoke rt w (.CallStaticMethodV R.typeName this._jclazz methodId args))

/-- `JavaClass::__staticCall<void>`. -/
def JavaClass.__staticCallVoid (rt : Runtime σ) (w : World σ) (this : JavaClass)
    (methodId : jmethodID) (args : List VaArg) : World σ :=
  (JNIEnv.invoke rt w (.CallStaticMethodV .Void this._jclazz methodId args)).2

/-- `JavaClass::_staticField<TYPE>`. -/
def JavaClass._staticField (rt : Runtime σ) (w : World σ) (this : JavaClass) (R : ReturnType)
    (fieldId : jfieldID) : Value × World σ :=
  R.finish rt (JNIEnv.invoke rt w (.GetStaticField R.typeName this._jclazz fieldId))

/-- `JavaClass::_newObject`. -/
def JavaClass._newObject (rt : Runtime σ) (w : World σ) (this : JavaClass)
    (methodId : jmethodID) (args : List VaArg) : JavaObject × World σ :=
  let r := JNIEnv.invoke rt w (.NewObjectV this._jclazz methodId args)
  (JavaObject.ofJObjectClass r.1.ref this, r.2)

/-! ## The instance of `JavaObject::call` that `JavaClass::getClassPath` uses -/

/-- `JavaObject::call<std::string>(methodName, defaultValue)` with an empty
argument pack (JniCpp11.h, lines 298-312): `MethodSignature::get(defaultValue)`
is `"(" + ")" + TypeSignature::get<std::string>()`.  The result comes with
the wrapper as the call leaves it. -/
def JavaObject.call_string (rt : Runtime σ) (w : World σ) (this : JavaObject)
    (methodName : String) (defaultValue : String) : String × JavaObject × World σ :=
  match JavaObject.checkAndGetEnv rt w this with
  | (.error e, this, w) => (defaultValue, this, e.log w)
  | (.ok _, this, w) =>
    let signature := "" ++ "(" ++ ")" ++ TypeSignature.get_T .string
    let (clazz, this, w) := JavaObject.getJClass rt w this
    match env_util.getMethodId rt w clazz methodName signature false with
    | (.error e, w) => (defaultValue, this, e.log w)
    | (.ok methodId, w) =>
      let r := JNIEnv.invoke rt w (.CallMethodV .Object this._jobject methodId [])
      let (s, w) := fromJString rt r.2 r.1.ref "" true
      match JniException.checkException w with
      | (.error e, w) => (defaultValue, this, e.log w)
      | (.ok _, w) => (s, this, w)

/-! ## Class path and type signature (JniCpp11.cpp, lines 203-230, 304-312) -/

/-- `JavaClass::getClassPath`. -/
def JavaClass.getClassPath (rt : Runtime σ) (w : World σ) (this : JavaClass) :
    String × JavaClass × World σ :=
  let defaultRet := "java/lang/Object"
  if this._classPath = "" then
    if Jni.getEnv rt = nullptr then
      (defaultRet, this, w)
    else
      let (clazz, this, w) := JavaClass.getJClass rt w this
      if clazz = nullptr then
        (defaultRet, this, w)
      else
        let (clazzRet, w) := JNIEnv.NewLocalRef rt w clazz
        if clazzRet = nullptr then
          (defaultRet, this, w)
        else
          let classObject := JavaObject.ofJObjectPath clazz "java/lang/Class"
          let (name, _, w) := JavaObject.call_string rt w classObject "getName" ""
          let this := { this with _classPath := name }
          (this._classPath, this, w)
  else
    (this._classPath, this, w)

/-- `JavaClass::getTypeSignature`. -/
def JavaClass.getTypeSignature (rt : Runtime σ) (w : World σ) (this : JavaClass) :
    String × JavaClass × World σ :=
  let (path, this, w) := JavaClass.getClassPath rt w this
  ("L" ++ path ++ ";", this, w)

/-- `JavaObject::getClassPath`. -/
def JavaObject.getClassPath (rt : Runtime σ) (w : World σ) (this : JavaObject) :
    String × JavaObject × World σ :=
  let (_, this, w) := JavaObject.getJClass rt w this
  let (path, c, w) := JavaClass.getClassPath rt w this._javaClass
  (path, { this with _javaClass := c }, w)

/-- `JavaObject::getTypeSignature`. -/
def JavaObject.getTypeSignature (rt : Runtime σ) (w : World σ) (this : JavaObject) :
    String × JavaObject × World σ :=
  let (_, this, w) := JavaObject.getJClass rt w this
  let (sig, c, w) := JavaClass.getTypeSignature rt w this._javaClass
  (sig, { this with _javaClass := c }, w)

/-! ## TypeSignature and MethodSignature (JniCpp11.h, lines 168-200) -/

/-- `TypeSignature::get(const T &)` at a value of a return type, bound by
reference: the wrapper is returned as the call leaves it. -/
def TypeSignature.get (rt : Runtime σ) (w : World σ) : Value → String × Value × World σ
  | .JavaObject o =>
    let (sig, o, w) := JavaObject.getTypeSignature rt w o
    (sig, .JavaObject o, w)
  | .JavaArray a => (a.getTypeSignature, .JavaArray a, w)
  | .jobject h => (TypeSignature.get_T .jobject, .jobject h, w)
  | .bool b => (TypeSignature.get_T .bool, .bool b, w)
  | .prim t v => (TypeSignature.get_T t.toNative, .prim t v, w)
  | .string s => (TypeSignature.get_T .string, .string s, w)

/-- `TypeSignature::get(std::forward<T>(first))` at an element of an argument
pack.  The element is a copy of what the caller passed, so what the call
caches in it is dropped. -/
def TypeSignature.getArg (rt : Runtime σ) (w : World σ) : Arg → String × World σ
  | .value v =>
    let r := TypeSignature.get rt w v
    (r.1, r.2.2)
  | .jstring _ => (TypeSignature.get_T .jstring, w)
  | .unsigned_int _ => (TypeSignature.get_T .unsigned_int, w)
  | .primArray t _ => (TypeSignature.get_T t.toNative, w)

/-- `MethodSignature::build`: `os` is the text written to the stream so far. -/
def MethodSignature.build (rt : Runtime σ) (w : World σ) (os : String) :
    List Arg → String × World σ
  | [] => (os, w)
  | first :: args =>
    let r := TypeSignature.getArg rt w first
    MethodSignature.build rt r.2 (os ++ r.1) args

/-- `MethodSignature::getSigned`. -/
def MethodSignature.getSigned (rt : Runtime σ) (w : World σ) (returnTypeSignature : String)
    (args : List Arg) : String × World σ :=
  let os := ""
  let os := os ++ "("
  let (os, w) := MethodSignature.build rt w os args
  let os := os ++ ")" ++ returnTypeSignature
  (os, w)

/-- `MethodSignature::get`: `ret` is bound by reference and returned as the
call leaves it. -/
def MethodSignature.get (rt : Runtime σ) (w : World σ) (ret : Value) (args : List Arg) :
    String × Value × World σ :=
  let (r, ret, w) := TypeSignature.get rt w ret
  let (sig, w) := MethodSignature.getSigned rt w r args
  (sig, ret, w)

/-- `MethodSignature::getVoid`. -/
def MethodSignature.getVoid (rt : Runtime σ) (w : World σ) (args : List Arg) : String × World σ :=
  MethodSignature.getSigned rt w (TypeSignature.get_T .void) args

/-! ## Arguments: adaptArg (JniCpp11.h, lines 162-164; JniCpp11.cpp, line 529) -/

/-- An argument handed to a C variadic list as it is: a pointer or a
primitive goes through as a word, a C++ object as the object. -/
def passArg : Arg → VaArg
  | .value (.JavaObject o) => .object (.JavaObject o)
  | .value (.JavaArray a) => .object (.JavaArray a)
  | .value (.jobject h) => .ref h
  | .value (.bool b) => .prim (if b then 1 else 0)
  | .value (.prim _ v) => .prim v
  | .value (.string s) => .object (.string s)
  | .jstring h => .ref h
  | .unsigned_int v => .prim v
  | .primArray _ h => .ref h

/-- `adaptArg`: `jobject adaptArg(const JavaObject &)` for an argument of type
`JavaObject`, the generic `const T &adaptArg(const T &)` for every other type
(for `JavaArray<JavaObject>` too, where it is the better match). -/
def adaptArg : Arg → VaArg
  | .value (.JavaObject o) => .ref o.getJObject
  | a => passArg a

/-! ## toJString (JniCpp11.cpp, lines 382-416) -/

/-- The conversion `(jsize)str.size()` to a signed 32-bit integer. -/
def jsize.ofSize (n : Nat) : Int :=
  if n % 2 ^ 32 < 2 ^ 31 then (n % 2 ^ 32 : Nat) else (n % 2 ^ 32 : Nat) - 2 ^ 32

/-- `JavaClass::newObject(byteArray)` at a `jbyteArray`, the instance
`toJString` uses (JniCpp11.h, lines 215-229): `makeArg` and `adaptArg` are the
generic ones, `MethodSignature::getVoid(byteArray)` needs no wrapper. -/
def JavaClass.newObject_jbyteArray (rt : Runtime σ) (w : World σ) (this : JavaClass)
    (byteArray : jobject) : JavaObject × JavaClass × World σ :=
  match JavaClass.checkAndGetEnv rt w this with
  | (.error e, this, w) => (JavaObject.ofJObject nullptr, this, e.log w)
  | (.ok _, this, w) =>
    let (signature, w) := MethodSignature.getVoid rt w [.primArray .jbyteArray byteArray]
    let (clazz, this, w) := JavaClass.getJClass rt w this
    match env_util.getMethodId rt w clazz "<init>" signature false with
    | (.error e, w) => (JavaObject.ofJObject nullptr, this, e.log w)
    | (.ok methodId, w) =>
      let (jinstance, w) := JavaClass._newObject rt w this methodId [.ref byteArray]
      match JniException.checkException w with
      | (.error e, w) => (JavaObject.ofJObject nullptr, this, e.log w)
      | (.ok _, w) => (jinstance, this, w)

/-- `toJString`. -/
def toJString (rt : Runtime σ) (w : World σ) (str : String) : JavaObject × World σ :=
  let strLen := jsize.ofSize str.utf8ByteSize
  if strLen = 0 then
    let r := JNIEnv.invoke rt w (.NewStringUTF "")
    (JavaObject.ofJObject r.1.ref, r.2)
  else
    let (clazz, w) := JavaClass.getClass rt w "java/lang/String"
    let r := JNIEnv.invoke rt w (.NewByteArray strLen)
    let byteArray := r.1.ref
    let w := r.2
    if byteArray = nullptr then
      (JavaObject.ofJObject nullptr, JniException.log ⟨"NewByteArray failed."⟩ w)
    else
      let r := JNIEnv.invoke rt w (.NewStringUTF "UTF-8")
      let charsetName := r.1.ref
      let w := r.2
      if charsetName = nullptr then
        let w := JniException.log ⟨"NewStringUTF failed."⟩ w
        let w := JNIEnv.DeleteLocalRef rt w byteArray
        (JavaObject.ofJObject nullptr, w)
      else
        let w := (JNIEnv.invoke rt w (.SetByteArrayRegion byteArray 0 strLen str)).2
        match JniException.checkException w with
        | (.error e, w) =>
          let w := e.log w
          let w := JNIEnv.DeleteLocalRef rt w byteArray
          let w := JNIEnv.DeleteLocalRef rt w charsetName
          (JavaObject.ofJObject nullptr, w)
        | (.ok _, w) =>
          let (jstr, _, w) := JavaClass.newObject_jbyteArray rt w clazz byteArray
          let w := JNIEnv.DeleteLocalRef rt w charsetName
          let w := JNIEnv.DeleteLocalRef rt w byteArray
          (jstr, w)

/-! ## Arguments: makeArg (JniCpp11.h, lines 161-162; JniCpp11.cpp, line 531) -/

/-- `makeArg`: `toJString(str)` for a `std::string`, the argument itself for
every other type. -/
def makeArg (rt : Runtime σ) (w : World σ) : Arg → Arg × World σ
  | .value (.string str) =>
    let (o, w) := toJString rt w str
    (.value (.JavaObject o), w)
  | a => (a, w)

/-- The pack expansion `makeArg(args)...`, evaluated from left to right (the
order in which C++ evaluates function arguments is unspecified). -/
def makeArgs (rt : Runtime σ) (w : World σ) : List Arg → List Arg × World σ
  | [] => ([], w)
  | a :: args =>
    let (a, w) := makeArg rt w a
    let (args, w) := makeArgs rt w args
    (a :: args, w)

/-- The pack expansion `adaptArg(args)...`. -/
def adaptArgs (args : List Arg) : List VaArg := args.map adaptArg

/-! ## The typed accessors of JavaClass (JniCpp11.h, lines 215-279)

Each accessor returns its result, then (for those that take one) the
caller's `defaultValue` as the call leaves it (it is bound by reference, and
deriving its signature resolves the class of a wrapper), then the wrapper
`*this` as the call leaves it, then the state. -/

/-- `JavaClass::_staticCall<ReturnType>`. -/
def JavaClass._staticCall (rt : Runtime σ) (w : World σ) (this : JavaClass) (R : ReturnType)
    (methodId : jmethodID) (args : List Arg) : Value × World σ :=
  JavaClass.__staticCall rt w this R methodId (adaptArgs args)

/-- `JavaClass::_staticCall<void>`. -/
def JavaClass._staticCallVoid (rt : Runtime σ) (w : World σ) (this : JavaClass)
    (methodId : jmethodID) (args : List Arg) : World σ :=
  JavaClass.__staticCallVoid rt w this methodId (adaptArgs args)

/-- `JavaClass::newObject`; `_newObject(env, methodId, makeArg(args)...)` hands
the arguments to the variadic list without `adaptArg`. -/
def JavaClass.newObject (rt : Runtime σ) (w : World σ) (this : JavaClass) (args : List Arg) :
    JavaObject × JavaClass × World σ :=
  match JavaClass.checkAndGetEnv rt w this with
  | (.error e, this, w) => (JavaObject.ofJObject nullptr, this, e.log w)
  | (.ok _, this, w) =>
    let (signature, w) := MethodSignature.getVoid rt w args
    let (clazz, this, w) := JavaClass.getJClass rt w this
    match env_util.getMethodId rt w clazz "<init>" signature false with
    | (.error e, w) => (JavaObject.ofJObject nullptr, this, e.log w)
    | (.ok methodId, w) =>
      let (margs, w) := makeArgs rt w args
      let (jinstance, w) := JavaClass._newObject rt w this methodId (margs.map passArg)
      match JniException.checkException w with
      | (.error e, w) => (JavaObject.ofJObject nullptr, this, e.log w)
      | (.ok _, w) => (jinstance, this, w)

/-- `JavaClass::staticField`. -/
def JavaClass.staticField (rt : Runtime σ) (w : World σ) (this : JavaClass) (fieldName : String)
    (defaultValue : Value) : Value × Value × JavaClass × World σ :=
  match JavaClass.checkAndGetEnv rt w this with
  | (.error e, this, w) => (defaultValue, defaultValue, this, e.log w)
  | (.ok _, this, w) =>
    let (signature, defaultValue, w) := TypeSignature.get rt w defaultValue
    let (clazz, this, w) := JavaClass.getJClass rt w this
    match env_util.getFieldId rt w clazz fieldName signature true with
    | (.error e, w) => (defaultValue, defaultValue, this, e.log w)
    | (.ok fieldId, w) =>
      let (result, w) := JavaClass._staticField rt w this defaultValue.type fieldId
      match JniException.checkException w with
      | (.error e, w) => (defaultValue, defaultValue, this, e.log w)
      | (.ok _, w) => (result, defaultValue, this, w)

/-- `JavaClass::staticCall`. -/
def JavaClass.staticCall (rt : Runtime σ) (w : World σ) (this : JavaClass) (methodName : String)
    (defaultValue : Value) (args : List Arg) : Value × Value × JavaClass × World σ :=
  match JavaClass.checkAndGetEnv rt w this with
  | (.error e, this, w) => (defaultValue, defaultValue, this, e.log w)
  | (.ok _, this, w) =>
    let (signature, defaultValue, w) := MethodSignature.get rt w defaultValue args
    let (clazz, this, w) := JavaClass.getJClass rt w this
    match env_util.getMethodId rt w clazz methodName signature true with
    | (.error e, w) => (defaultValue, defaultValue, this, e.log w)
    | (.ok methodId, w) =>
      let (margs, w) := makeArgs rt w args
      let (result, w) := JavaClass._staticCall rt w this defaultValue.type methodId margs
      match JniException.checkException w with
      | (.error e, w) => (defaultValue, defaultValue, this, e.log w)
      | (.ok _, w) => (result, defaultValue, this, w)

/-- `JavaClass::staticCallVoid`. -/
def JavaClass.staticCallVoid (rt : Runtime σ) (w : World σ) (this : JavaClass)
    (methodName : String) (args : List Arg) : JavaClass × World σ :=
  match JavaClass.checkAndGetEnv rt w this with
  | (.error e, this, w) => (this, e.log w)
  | (.ok _, this, w) =>
    let (signature, w) := MethodSignature.getVoid rt w args
    let (clazz, this, w) := JavaClass.getJClass rt w this
    match env_util.getMethodId rt w clazz methodName signature true with
    | (.error e, w) => (this, e.log w)
    | (.ok methodId, w) =>
      let (margs, w) := makeArgs rt w args
      let w := JavaClass._staticCallVoid rt w this methodId margs
      match JniException.checkException w with
      | (.error e, w) => (this, e.log w)
      | (.ok _, w) => (this, w)

/-! ## The typed accessors of JavaObject (JniCpp11.h, lines 283-330) -/

/-- `JavaObject::_call<ReturnType>`. -/
def JavaObject._call (rt : Runtime σ) (w : World σ) (this : JavaObject) (R : ReturnType)
    (methodId : jmethodID) (args : List Arg) : Value × World σ :=
  JavaObject.__call rt w this R methodId (adaptArgs args)

/-- `JavaObject::_call<void>`. -/
def JavaObject._callVoid (rt : Runtime σ) (w : World σ) (this : JavaObject)
    (methodId : jmethodID) (args : List Arg) : World σ :=
  JavaObject.__callVoid rt w this methodId (adaptArgs args)

/-- `JavaObject::field`. -/
def JavaObject.field (rt : Runtime σ) (w : World σ) (this : JavaObject) (fieldName : String)
    (defaultValue : Value) : Value × Value × JavaObject × World σ :=
  match JavaObject.checkAndGetEnv rt w this with
  | (.error e, this, w) => (defaultValue, defaultValue, this, e.log w)
  | (.ok _, this, w) =>
    let (signature, defaultValue, w) := TypeSignature.get rt w defaultValue
    let (clazz, this, w) := JavaObject.getJClass rt w this
    match env_util.getFieldId rt w clazz fieldName signature false with
    | (.error e, w) => (defaultValue, defaultValue, this, e.log w)
    | (.ok fieldId, w) =>
      let (result, w) := JavaObject._field rt w this defaultValue.type fieldId
      match JniException.checkException w with
      | (.error e, w) => (defaultValue, defaultValue, this, e.log w)
      | (.ok _, w) => (result, defaultValue, this, w)

/-- `JavaObject::call`. -/
def JavaObject.call (rt : Runtime σ) (w : World σ) (this : JavaObject) (methodName : String)
    (defaultValue : Value) (args : List Arg) : Value × Value × JavaObject × World σ :=
  match JavaObject.checkAndGetEnv rt w this with
  | (.error e, this, w) => (defaultValue, defaultValue, this, e.log w)
  | (.ok _, this, w) =>
    let (signature, defaultValue, w) := MethodSignature.get rt w defaultValue args
    let (clazz, this, w) := JavaObject.getJClass rt w this
    match env_util.getMethodId rt w clazz methodName signature false with
    | (.error e, w) => (defaultValue, defaultValue, this, e.log w)
    | (.ok methodId, w) =>
      let (margs, w) := makeArgs rt w args
      let (result, w) := JavaObject._call rt w this defaultValue.type methodId margs
      match JniException.checkException w with
      | (.error e, w) => (defaultValue, defaultValue, this, e.log w)
      | (.ok _, w) => (result, defaultValue, this, w)

/-- `JavaObject::callVoid`. -/
def JavaObject.callVoid (rt : Runtime σ) (w : World σ) (this : JavaObject)
    (methodName : String) (args : List Arg) : JavaObject × World σ :=
  match JavaObject.checkAndGetEnv rt w this with
  | (.error e, this, w) => (this, e.log w)
  | (.ok _, this, w) =>
    let (signature, w) := MethodSignature.getVoid rt w args
    let (clazz, this, w) := JavaObject.getJClass rt w this
    match env_util.getMethodId rt w clazz methodName signature false with
    | (.error e, w) => (this, e.log w)
    | (.ok methodId, w) =>
      let (margs, w) := makeArgs rt w args
      let w := JavaObject._callVoid rt w this methodId margs
      match JniException.checkException w with
      | (.error e, w) => (this, e.log w)
      | (.ok _, w) => (this, w)

/-! ## A small managed runtime, to run the library on concrete inputs

The classes `java/lang/Object`, `java/lang/Class`, `java/lang/String` and
`java/lang/Integer` with a few of their members, as the Java platform
documents them: `Class.getName()` returns the binary name of the class (with
dots), `new String(byte[])` decodes with the default charset of the platform,
`new String(byte[], String)` with the named charset. -/

/-- The default charset of the platform. -/
inductive Charset
  | utf8 | latin1
deriving DecidableEq

/-- The state of the small runtime: the next fresh reference, the
`java.lang.String` instances with their text, and the `byte[]` instances with
their bytes (held as the text whose UTF-8 encoding they are). -/
structure MiniHeap where
  next : Nat
  strings : List (Nat × String)
  arrays : List (Nat × String)
deriving DecidableEq

/-- The classes of the small runtime: class path and reference. -/
def MiniJvm.classes : List (String × Nat) :=
  [("java/lang/Object", 1), ("java/lang/Class", 2), ("java/lang/String", 3),
   ("java/lang/Integer", 4)]

/-- The instance methods of the small runtime: class, name, signature, identifier. -/
def MiniJvm.methods : List (Nat × String × String × Nat) :=
  [(2, "getName", "()Ljava/lang/String;", 20),
   (3, "<init>", "([B)V", 30),
   (3, "<init>", "([BLjava/lang/String;)V", 31),
   (3, "length", "()I", 32),
   (3, "charAt", "(I)C", 33)]

/-- The static methods of the small runtime. -/
def MiniJvm.staticMethods : List (Nat × String × String × Nat) :=
  [(4, "parseInt", "(Ljava/lang/String;)I", 41)]

/-- The static fields of the small runtime. -/
def MiniJvm.staticFields : List (Nat × String × String × Nat) :=
  [(4, "MAX_VALUE", "I", 40)]

/-- The UTF-8 encoding of a character. -/
def MiniJvm.utf8Bytes (c : Char) : List Nat :=
  let n := c.toNat
  if n < 128 then [n]
  else if n < 2048 then [192 + n / 64, 128 + n % 64]
  else if n < 65536 then [224 + n / 4096, 128 + n / 64 % 64, 128 + n % 64]
  else [240 + n / 262144, 128 + n / 4096 % 64, 128 + n / 64 % 64, 128 + n % 64]

/-- Decoding the bytes of `buf` with a charset: every byte is a character in
ISO-8859-1. -/
def MiniJvm.decode (cs : Charset) (buf : String) : String :=
  match cs with
  | .utf8 => buf
  | .latin1 => String.mk ((buf.data.flatMap MiniJvm.utf8Bytes).map Char.ofNat)

/-- `Class.getName()`: the binary name, with `.` for `/`. -/
def MiniJvm.binaryName (path : String) : String :=
  String.mk (path.data.map fun c => if c = '/' then '.' else c)

/-- `Integer.parseInt` on decimal digits; anything else throws
(`NumberFormatException`). -/
def MiniJvm.parseNat (acc : Nat) : List Char → Option Nat
  | [] => some acc
  | c :: cs =>
    if '0'.toNat ≤ c.toNat ∧ c.toNat ≤ '9'.toNat then
      MiniJvm.parseNat (10 * acc + (c.toNat - '0'.toNat)) cs
    else none

def MiniJvm.lookup (table : List (Nat × String × String × Nat)) (clazz : Nat) (name sig : String) :
    Nat :=
  match table.find? fun e => e.1 = clazz ∧ e.2.1 = name ∧ e.2.2.1 = sig with
  | some e => e.2.2.2
  | none => 0

def MiniJvm.reply (ref : Nat) : JniReply := ⟨ref, 0, none, false⟩

def MiniJvm.thrown : JniReply := ⟨0, 0, none, true⟩

/-- A fresh `java.lang.String` with the given text. -/
def MiniJvm.newString (h : MiniHeap) (text : String) : JniReply × MiniHeap :=
  (MiniJvm.reply h.next, { h with next := h.next + 1, strings := (h.next, text) :: h.strings })

/-- How the small runtime answers a JNI call. -/
def MiniJvm.step (cs : Charset) (h : MiniHeap) : JniCall → JniReply × MiniHeap
  | .FindClass name =>
    match MiniJvm.classes.lookup name with
    | some c => (MiniJvm.reply c, h)
    | none => (MiniJvm.thrown, h)
  | .NewGlobalRef ref => (MiniJvm.reply ref, h)
  | .NewLocalRef ref => (MiniJvm.reply ref, h)
  | .DeleteLocalRef _ => (MiniJvm.reply 0, h)
  | .GetObjectClass obj =>
    if (MiniJvm.classes.map Prod.snd).contains obj then (MiniJvm.reply 2, h)
    else if (h.strings.lookup obj).isSome then (MiniJvm.reply 3, h)
    else (MiniJvm.reply 1, h)
  | .GetMethodID clazz name sig =>
    if MiniJvm.lookup MiniJvm.methods clazz name sig = 0 then (MiniJvm.thrown, h)
    else (MiniJvm.reply (MiniJvm.lookup MiniJvm.methods clazz name sig), h)
  | .GetStaticMethodID clazz name sig =>
    if MiniJvm.lookup MiniJvm.staticMethods clazz name sig = 0 then (MiniJvm.thrown, h)
    else (MiniJvm.reply (MiniJvm.lookup MiniJvm.staticMethods clazz name sig), h)
  | .GetFieldID _ _ _ => (MiniJvm.thrown, h)
  | .GetStaticFieldID clazz name sig =>
    if MiniJvm.lookup MiniJvm.staticFields clazz name sig = 0 then (MiniJvm.thrown, h)
    else (MiniJvm.reply (MiniJvm.lookup MiniJvm.staticFields clazz name sig), h)
  | .NewObjectV 3 30 [.ref array] =>
    match h.arrays.lookup array with
    | some buf => MiniJvm.newString h (MiniJvm.decode cs buf)
    | none => (MiniJvm.thrown, h)
  | .NewObjectV 3 31 [.ref array, .ref charsetName] =>
    match h.arrays.lookup array, h.strings.lookup charsetName with
    | some buf, some "UTF-8" => MiniJvm.newString h (MiniJvm.decode .utf8 buf)
    | some buf, some "ISO-8859-1" => MiniJvm.newString h (MiniJvm.decode .latin1 buf)
    | _, _ => (MiniJvm.thrown, h)
  | .NewObjectV _ _ _ => (MiniJvm.thrown, h)
  | .CallMethodV .Object obj 20 [] =>
    match MiniJvm.classes.find? fun c => c.2 = obj with
    | some c => MiniJvm.newString h (MiniJvm.binaryName c.1)
    | none => (MiniJvm.thrown, h)
  | .CallMethodV .Int obj 32 [] =>
    match h.strings.lookup obj with
    | some text => (⟨0, text.length, none, false⟩, h)
    | none => (MiniJvm.thrown, h)
  | .CallMethodV .Char obj 33 [.prim i] =>
    match h.strings.lookup obj with
    | some text =>
      if 0 ≤ i ∧ i.toNat < text.length then (⟨0, (text.data.getD i.toNat 'a').toNat, none, false⟩, h)
      else (MiniJvm.thrown, h)
    | none => (MiniJvm.thrown, h)
  | .CallMethodV _ _ _ _ => (MiniJvm.thrown, h)
  | .CallStaticMethodV .Int 4 41 [.ref str] =>
    match h.strings.lookup str with
    | some text =>
      match MiniJvm.parseNat 0 text.data with
      | some n => (⟨0, n, none, false⟩, h)
      | none => (MiniJvm.thrown, h)
    | none => (MiniJvm.thrown, h)
  | .CallStaticMethodV _ _ _ _ => (MiniJvm.thrown, h)
  | .GetField _ _ _ => (MiniJvm.thrown, h)
  | .GetStaticField .Int 4 40 => (⟨0, 2147483647, none, false⟩, h)
  | .GetStaticField _ _ _ => (MiniJvm.thrown, h)
  | .NewStringUTF bytes => MiniJvm.newString h bytes
  | .NewByteArray _ =>
    (MiniJvm.reply h.next, { h with next := h.next + 1, arrays := (h.next, "") :: h.arrays })
  | .SetByteArrayRegion array _ _ buf =>
    (MiniJvm.reply 0, { h with arrays := (array, buf) :: h.arrays })
  | .GetStringUTFChars str => (⟨0, 0, h.strings.lookup str, false⟩, h)
  | .ReleaseStringUTFChars _ _ => (MiniJvm.reply 0, h)

/-- The small runtime with an environment for the calling thread. -/
def MiniJvm.runtime (cs : Charset) : Runtime MiniHeap :=
  { hasEnv := true, step := MiniJvm.step cs }

/-- The small runtime without an environment (`Jni::getEnv()` is null). -/
def MiniJvm.detached : Runtime MiniHeap :=
  { hasEnv := false, step := MiniJvm.step .utf8 }

/-- The state before the library ran: nothing pending, nothing called, nothing
logged; references from 100 on are fresh. -/
def MiniJvm.start : World MiniHeap :=
  { heap := { next := 100, strings := [], arrays := [] },
    pending := false, described := 0, calls := [], logged := [], fault := false }

/-- The small runtime with UTF-8 as default charset. -/
def MiniJvm.rt : Runtime MiniHeap := MiniJvm.runtime .utf8

/-- A live `java.lang.String` instance with the text `hi`, as `toJString`
builds it, and the state it leaves. -/
def MiniJvm.hi : JavaObject × World MiniHeap := toJString MiniJvm.rt MiniJvm.start "hi"

/-- The class wrapper `JavaClass::getClass("java/lang/Integer")` returns, and
the state it leaves. -/
def MiniJvm.integer : JavaClass × World MiniHeap :=
  JavaClass.getClass MiniJvm.rt MiniJvm.start "java/lang/Integer"

/-- The class wrapper `JavaClass::getClass("java/lang/String")` returns, and
the state it leaves. -/
def MiniJvm.stringClass : JavaClass × World MiniHeap :=
  JavaClass.getClass MiniJvm.rt MiniJvm.start "java/lang/String"

/-- The class wrapper built only from the handle that `java/lang/String`
resolves to (the constructor `JavaClass(jclass)`), and the state it leaves. -/
def MiniJvm.stringClassOfHandle : JavaClass × World MiniHeap :=
  JavaClass.ofJClass MiniJvm.rt MiniJvm.stringClass.2 MiniJvm.stringClass.1._jclazz

/-- The small runtime of a platform whose default charset is ISO-8859-1. -/
def MiniJvm.rtLatin1 : Runtime MiniHeap := MiniJvm.runtime .latin1

/-- The small runtime when no global reference can be created any more:
`NewGlobalRef` returns `NULL`, as JNI documents it for a system out of
memory. -/
def MiniJvm.exhausted : Runtime MiniHeap :=
  { hasEnv := true,
    step := fun h c =>
      match c with
      | .NewGlobalRef _ => (MiniJvm.reply 0, h)
      | c => MiniJvm.step .utf8 h c }

/-- The live string `hi` wrapped with the declared class `java/lang/Object`
through the constructor `JavaObject(jobject, const std::string &)`. -/
def MiniJvm.hiAsObject : JavaObject :=
  JavaObject.ofJObjectPath MiniJvm.hi.1._jobject "java/lang/Object"

/-- The small runtime with `String.substring(int)` added to the members of
`java/lang/String`: the method returns the text from the given index on and
throws (`StringIndexOutOfBoundsException`) when the index is beyond the end;
a method that throws returns `NULL` and leaves the failure pending. -/
def MiniJvm.withSubstring : Runtime MiniHeap :=
  { hasEnv := true,
    step := fun h c =>
      match c with
      | .GetMethodID 3 "substring" "(I)Ljava/lang/String;" => (MiniJvm.reply 34, h)
      | .CallMethodV .Object obj 34 [.prim i] =>
        match h.strings.lookup obj with
        | some text =>
          if 0 ≤ i ∧ i.toNat ≤ text.length then
            MiniJvm.newString h (String.mk (text.data.drop i.toNat))
          else (MiniJvm.thrown, h)
        | none => (MiniJvm.thrown, h)
      | c => MiniJvm.step .utf8 h c }

/-- The small runtime when global references run out for a while: the first
`n` requests of `NewGlobalRef` return `NULL` (`n` is the first component of
the state), the later ones succeed. -/
def MiniJvm.recovering : Runtime (Nat × MiniHeap) :=
  { hasEnv := true,
    step := fun s c =>
      match c, s.1 with
      | .NewGlobalRef _, n + 1 => (MiniJvm.reply 0, (n, s.2))
      | c, n => ((MiniJvm.step .utf8 s.2 c).1, (n, (MiniJvm.step .utf8 s.2 c).2)) }

/-- The start state of `MiniJvm.recovering` with one failing request ahead. -/
def MiniJvm.startRecovering : World (Nat × MiniHeap) :=
  { heap := (1, { next := 100, strings := [], arrays := [] }),
    pending := false, described := 0, calls := [], logged := [], fault := false }

/-- The class wrapper `JavaClass::getClass("java/lang/Integer")` returns when
the class is found and its handle cannot be pinned, and the state it
leaves. -/
def MiniJvm.integerUnpinned : JavaClass × World (Nat × MiniHeap) :=
  JavaClass.getClass MiniJvm.recovering MiniJvm.startRecovering "java/lang/Integer"

/-- The virtual machine of the small runtime; its state is whether the
calling thread is attached.  `GetEnv` answers `JNI_EDETACHED` for a thread
that is not, `AttachCurrentThread` attaches it. -/
def MiniJvm.vm : JavaVM Bool :=
  { step := fun attached c =>
      match c with
      | .GetEnv _ => if attached then (⟨JNI_OK, 1⟩, attached) else (⟨JNI_EDETACHED, 0⟩, attached)
      | .AttachCurrentThread => (⟨JNI_OK, 1⟩, true)
      | .DetachCurrentThread => (⟨JNI_OK, 0⟩, false) }

/-- A thread the virtual machine does not know yet, after `Jni::setJvm`:
nothing is stored under `g_key`. -/
def MiniJvm.newThread : Jni Bool :=
  Jni.setJvm { _jvm := nullptr, g_key := nullptr, vm := false, vmCalls := [] } 1

/-! ## Specification-side definitions -/

/-- Following the specification's words ("each argument's descriptor in
positional order"): the descriptors of the arguments, first to last, each
computed in the state the previous one left. -/
def argDescriptors (rt : Runtime σ) (w : World σ) : List Arg → List String
  | [] => []
  | a :: args =>
    (TypeSignature.getArg rt w a).1 :: argDescriptors rt (TypeSignature.getArg rt w a).2 args

/-- What `TypeSignature::get` leaves of the value it is given: the value
itself, except that an object wrapper may have its class resolved; the
handle of its instance stays. -/
def Value.sameUpToClass : Value → Value → Prop
  | .JavaObject o, .JavaObject o' => o._jobject = o'._jobject
  | v, v' => v = v'

/-- The value is an object wrapper (`JavaObject`), the one kind of value whose
descriptor is derived through the runtime. -/
def Value.isJavaObject : Value → Bool
  | .JavaObject _ => true
  | _ => false

/-- The argument is an object wrapper. -/
def Arg.isJavaObject : Arg → Bool
  | .value v => v.isJavaObject
  | _ => false

/-! # Theorems -/

/-! ## Helper lemmas -/

theorem string_join_cons (s : String) (ss : List String) :
    String.join (s :: ss) = s ++ String.join ss := by
  apply String.ext
  simp [String.data_join]

theorem string_join_nil : String.join [] = "" := rfl

theorem build_eq (rt : Runtime σ) (args : List Arg) :
    ∀ (w : World σ) (os : String),
      (MethodSignature.build rt w os args).1 = os ++ String.join (argDescriptors rt w args) := by
  induction args with
  | nil =>
    intro w os
    simp [MethodSignature.build, argDescriptors, string_join_nil]
  | cons a args ih =>
    intro w os
    simp only [MethodSignature.build, argDescriptors, string_join_cons]
    rw [ih, String.append_assoc]

/-! ## C3 -/

/-- C3: `TypeSignature::get<Kind>()` returns the fixed JVM descriptor of every
recognised kind, under each of its native spellings; the descriptor of a
primitive-array kind is `[` followed by the letter of its element; two native
types get the same descriptor exactly when they spell the same kind, so
distinct kinds get distinct descriptors. -/
theorem TypeSignature_get_T_table :
    (TypeSignature.get_T .bool = "Z" ∧ TypeSignature.get_T .jboolean = "Z" ∧
      TypeSignature.get_T .jbyte = "B" ∧ TypeSignature.get_T .jchar = "C" ∧
      TypeSignature.get_T .jshort = "S" ∧ TypeSignature.get_T .jint = "I" ∧
      TypeSignature.get_T .unsigned_int = "I" ∧
      TypeSignature.get_T .jlong = "J" ∧ TypeSignature.get_T .long = "J" ∧
      TypeSignature.get_T .jfloat = "F" ∧ TypeSignature.get_T .jdouble = "D" ∧
      TypeSignature.get_T .void = "V" ∧
      TypeSignature.get_T .jobject = "Ljava/lang/Object;" ∧
      TypeSignature.get_T .string = "Ljava/lang/String;" ∧
      TypeSignature.get_T .jstring = "Ljava/lang/String;" ∧
      TypeSignature.get_T .jbooleanArray = "[Z" ∧ TypeSignature.get_T .jbyteArray = "[B" ∧
      TypeSignature.get_T .jcharArray = "[C" ∧ TypeSignature.get_T .jshortArray = "[S" ∧
      TypeSignature.get_T .jintArray = "[I" ∧ TypeSignature.get_T .jlongArray = "[J" ∧
      TypeSignature.get_T .jfloatArray = "[F" ∧ TypeSignature.get_T .jdoubleArray = "[D") ∧
    (∀ t : ArrayType,
      TypeSignature.get_T t.toNative = "[" ++ TypeSignature.get_T t.element) ∧
    (∀ a b : NativeType,
      TypeSignature.get_T a = TypeSignature.get_T b ↔ a.specKind = b.specKind) := by
  refine ⟨by simp [TypeSignature.get_T], ?_, ?_⟩
  · intro t
    cases t <;> rfl
  · intro a b
    cases a <;> cases b <;> simp [TypeSignature.get_T, NativeType.specKind]

/-! ## C2 -/

/-- C2: `MethodSignature::getSigned(r, a1..an)` is `(` followed by the
descriptors `TypeSignature::get(ai)` of the arguments in positional order,
followed by `)` and `r`; it is `"()" + r` for no arguments;
`MethodSignature::get(ret, args)` is `getSigned` at `r = TypeSignature::get(ret)`
and `MethodSignature::getVoid(args)` is `getSigned` at `r = "V"`. -/
theorem MethodSignature_getSigned_spec (rt : Runtime σ) (w : World σ) (r : String)
    (ret : Value) (args : List Arg) :
    (MethodSignature.getSigned rt w r args).1
        = "(" ++ String.join (argDescriptors rt w args) ++ ")" ++ r ∧
    MethodSignature.getSigned rt w r [] = ("()" ++ r, w) ∧
    (MethodSignature.get rt w ret args).1
        = "(" ++ String.join (argDescriptors rt (TypeSignature.get rt w ret).2.2 args) ++ ")"
            ++ (TypeSignature.get rt w ret).1 ∧
    (MethodSignature.getVoid rt w args).1
        = "(" ++ String.join (argDescriptors rt w args) ++ ")" ++ "V" := by
  have h : ∀ (w : World σ) (r : String), (MethodSignature.getSigned rt w r args).1
      = "(" ++ String.join (argDescriptors rt w args) ++ ")" ++ r := by
    intro w r
    simp only [MethodSignature.getSigned, build_eq]
    rfl
  refine ⟨h w r, ?_, ?_, ?_⟩
  · simp only [MethodSignature.getSigned, MethodSignature.build]
    rfl
  · simp only [MethodSignature.get]
    exact h _ _
  · simp only [MethodSignature.getVoid]
    exact h _ _

/-! ## Helper lemmas on the wrappers -/

theorem except_ok_eta {α β : Type} (c : Except JniException Unit × α × β) (h : c.1 = .ok ()) :
    c = (.ok (), c.2.1, c.2.2) := by
  rw [← h]

theorem except_ok_eta2 {α β : Type} (c : Except JniException α × β) (a : α) (h : c.1 = .ok a) :
    c = (.ok a, c.2) := by
  rw [← h]

theorem JavaObject_returnJClass_jobject (rt : Runtime σ) (w : World σ) (this : JavaObject) :
    (JavaObject.returnJClass rt w this).2.1._jobject = this._jobject := rfl

theorem JavaObject_getJClass_jobject (rt : Runtime σ) (w : World σ) (this : JavaObject) :
    (JavaObject.getJClass rt w this).2.1._jobject = this._jobject := by
  unfold JavaObject.getJClass
  repeat' split
  all_goals simp only [JavaObject_returnJClass_jobject]

/-- A class wrapper that holds a handle returns it and stays as it is. -/
theorem JavaClass_getJClass_of_handle (rt : Runtime σ) (w : World σ) (this : JavaClass)
    (h : this._jclazz ≠ nullptr) :
    JavaClass.getJClass rt w this = (this._jclazz, this, w) := by
  simp [JavaClass.getJClass, h]

/-- Resolving the handle never touches the stored class path. -/
theorem JavaClass_getJClass_classPath (rt : Runtime σ) (w : World σ) (this : JavaClass) :
    (JavaClass.getJClass rt w this).2.1._classPath = this._classPath := by
  unfold JavaClass.getJClass
  repeat' split
  all_goals rfl

/-- A class wrapper that stores a path reports it and stays as it is. -/
theorem JavaClass_getClassPath_of_path (rt : Runtime σ) (w : World σ) (this : JavaClass)
    (h : this._classPath ≠ "") :
    JavaClass.getClassPath rt w this = (this._classPath, this, w) := by
  simp [JavaClass.getClassPath, h]

/-- The null class wrapper has no handle to give and asks the runtime nothing. -/
theorem JavaClass_getJClass_null (rt : Runtime σ) (w : World σ) :
    JavaClass.getJClass rt w JavaClass.null = (nullptr, JavaClass.null, w) := by
  simp [JavaClass.getJClass, JavaClass.null]

/-- The null class wrapper reports the default class path and asks the runtime nothing. -/
theorem JavaClass_getClassPath_null (rt : Runtime σ) (w : World σ) :
    JavaClass.getClassPath rt w JavaClass.null = ("java/lang/Object", JavaClass.null, w) := by
  simp only [JavaClass.getClassPath, JavaClass_getJClass_null]
  simp [JavaClass.null]

theorem JavaObject_getTypeSignature_jobject (rt : Runtime σ) (w : World σ) (this : JavaObject) :
    (JavaObject.getTypeSignature rt w this).2.1._jobject = this._jobject := by
  simp only [JavaObject.getTypeSignature]
  exact JavaObject_getJClass_jobject rt w this

theorem TypeSignature_get_sameUpToClass (rt : Runtime σ) (w : World σ) (v : Value) :
    Value.sameUpToClass v (TypeSignature.get rt w v).2.1 := by
  cases v with
  | JavaObject o =>
    simp only [TypeSignature.get, Value.sameUpToClass]
    exact (JavaObject_getTypeSignature_jobject rt w o).symm
  | _ => simp [TypeSignature.get, Value.sameUpToClass]

theorem MethodSignature_get_sameUpToClass (rt : Runtime σ) (w : World σ) (v : Value)
    (args : List Arg) : Value.sameUpToClass v (MethodSignature.get rt w v args).2.1 := by
  simp only [MethodSignature.get]
  exact TypeSignature_get_sameUpToClass rt w v

/-! ## The accessors fall back to the default -/

theorem JavaObject_checkAndGetEnv_noEnv (rt : Runtime σ) (w : World σ) (this : JavaObject)
    (h : Jni.getEnv rt = nullptr) :
    JavaObject.checkAndGetEnv rt w this = (.error ⟨"Failed to get JNIEnv."⟩, this, w) := by
  simp [JavaObject.checkAndGetEnv, h]

theorem JavaObject_checkAndGetEnv_nullClass (rt : Runtime σ) (w : World σ) (this : JavaObject)
    (h : (JavaObject.getJClass rt w this).1 = nullptr) :
    ∃ e, (JavaObject.checkAndGetEnv rt w this).1 = .error e := by
  simp only [JavaObject.checkAndGetEnv]
  split_ifs <;> simp [h]

theorem JavaObject_checkAndGetEnv_nullObject (rt : Runtime σ) (w : World σ) (this : JavaObject)
    (h : this._jobject = nullptr) :
    ∃ e, (JavaObject.checkAndGetEnv rt w this).1 = .error e := by
  have := JavaObject_getJClass_jobject rt w this
  simp only [JavaObject.checkAndGetEnv, JavaObject.getJObject]
  split_ifs <;> simp_all

theorem JavaClass_checkAndGetEnv_noEnv (rt : Runtime σ) (w : World σ) (this : JavaClass)
    (h : Jni.getEnv rt = nullptr) :
    JavaClass.checkAndGetEnv rt w this = (.error ⟨"Failed to get JNIEnv. "⟩, this, w) := by
  simp [JavaClass.checkAndGetEnv, h]

theorem JavaClass_checkAndGetEnv_nullClass (rt : Runtime σ) (w : World σ) (this : JavaClass)
    (h : (JavaClass.getJClass rt w this).1 = nullptr) :
    ∃ e, (JavaClass.checkAndGetEnv rt w this).1 = .error e := by
  simp only [JavaClass.checkAndGetEnv]
  split_ifs <;> simp [h]

theorem getMethodId_notFound (rt : Runtime σ) (w : World σ) (clazz : jclass)
    (name sig : String) (isStatic : Bool)
    (h : (JNIEnv.invoke rt w
      (if isStatic then .GetStaticMethodID clazz name sig else .GetMethodID clazz name sig)).1.ref
        = nullptr) :
    ∃ e, (env_util.getMethodId rt w clazz name sig isStatic).1 = .error e := by
  cases isStatic <;> simp_all [env_util.getMethodId]

theorem getFieldId_notFound (rt : Runtime σ) (w : World σ) (clazz : jclass)
    (name sig : String) (isStatic : Bool)
    (h : (JNIEnv.invoke rt w
      (if isStatic then .GetStaticFieldID clazz name sig else .GetFieldID clazz name sig)).1.ref
        = nullptr) :
    ∃ e, (env_util.getFieldId rt w clazz name sig isStatic).1 = .error e := by
  cases isStatic <;> simp_all [env_util.getFieldId]

theorem checkException_pending (w : World σ) (h : w.pending = true) :
    (JniException.checkException w).1 = .error ⟨"JNI ExceptionCheck found exception."⟩ := by
  simp [JniException.checkException, JNIEnv.ExceptionCheck, h]

/-- `JavaObject::call`: a throw of the first statement gives the default. -/
theorem JavaObject_call_of_check_error (rt : Runtime σ) (w : World σ) (this : JavaObject)
    (name : String) (d : Value) (args : List Arg) (e : JniException)
    (h : (JavaObject.checkAndGetEnv rt w this).1 = .error e) :
    (JavaObject.call rt w this name d args).1 = d ∧
    (JavaObject.call rt w this name d args).2.1 = d := by
  rcases hc : JavaObject.checkAndGetEnv rt w this with ⟨r, t, w'⟩
  rw [hc] at h
  simp only at h
  subst h
  simp [JavaObject.call, hc]

theorem JavaObject_call_failsoft (rt : Runtime σ) (w : World σ) (this : JavaObject)
    (name : String) (d : Value) (args : List Arg) (id : jmethodID) :
    let c := JavaObject.checkAndGetEnv rt w this
    let s := MethodSignature.get rt c.2.2 d args
    let j := JavaObject.getJClass rt s.2.2 c.2.1
    let m := env_util.getMethodId rt j.2.2 j.1 name s.1 false
    let a := makeArgs rt m.2 args
    let r := JavaObject._call rt a.2 j.2.1 s.2.1.type id a.1
    let out := JavaObject.call rt w this name d args
    (Jni.getEnv rt = nullptr ∨ (JavaObject.getJClass rt w this).1 = nullptr
        ∨ this._jobject = nullptr → out.1 = d ∧ out.2.1 = d) ∧
    (c.1 = .ok () →
      (JNIEnv.invoke rt j.2.2 (.GetMethodID j.1 name s.1)).1.ref = nullptr
        ∨ (m.1 = .ok id ∧ r.2.pending = true) →
      out.1 = s.2.1 ∧ out.2.1 = s.2.1 ∧ Value.sameUpToClass d s.2.1) := by
  intro c s j m a r out
  constructor
  · intro h
    have he : ∃ e, (JavaObject.checkAndGetEnv rt w this).1 = .error e := by
      rcases h with h | h | h
      · exact ⟨_, by rw [JavaObject_checkAndGetEnv_noEnv rt w this h]⟩
      · exact JavaObject_checkAndGetEnv_nullClass rt w this h
      · exact JavaObject_checkAndGetEnv_nullObject rt w this h
    rcases he with ⟨e, he⟩
    exact JavaObject_call_of_check_error rt w this name d args e he
  · intro hc h
    have hc' := except_ok_eta c hc
    have hout : out = JavaObject.call rt w this name d args := rfl
    refine ⟨?_, ?_, MethodSignature_get_sameUpToClass rt _ d args⟩ <;>
    · rcases h with h | ⟨h1, h2⟩
      · obtain ⟨e, he⟩ := getMethodId_notFound rt j.2.2 j.1 name s.1 false (by simpa using h)
        have hm : m = (.error e, m.2) := by rw [← he]
        rw [hout]
        unfold JavaObject.call
        rw [show JavaObject.checkAndGetEnv rt w this = c from rfl, hc']
        simp only []
        rw [show MethodSignature.get rt c.2.2 d args = s from rfl]
        rw [show JavaObject.getJClass rt s.2.2 c.2.1 = j from rfl]
        rw [show env_util.getMethodId rt j.2.2 j.1 name s.1 false = m from rfl, hm]
      · have hm := except_ok_eta2 m id h1
        rw [hout]
        unfold JavaObject.call
        rw [show JavaObject.checkAndGetEnv rt w this = c from rfl, hc']
        simp only []
        rw [show MethodSignature.get rt c.2.2 d args = s from rfl]
        rw [show JavaObject.getJClass rt s.2.2 c.2.1 = j from rfl]
        rw [show env_util.getMethodId rt j.2.2 j.1 name s.1 false = m from rfl, hm]
        simp only []
        rw [show makeArgs rt m.2 args = a from rfl]
        rw [show JavaObject._call rt a.2 j.2.1 s.2.1.type id a.1 = r from rfl]
        simp [JniException.checkException, JNIEnv.ExceptionCheck, h2]

theorem JavaObject_field_of_check_error (rt : Runtime σ) (w : World σ) (this : JavaObject)
    (name : String) (d : Value) (e : JniException)
    (h : (JavaObject.checkAndGetEnv rt w this).1 = .error e) :
    (JavaObject.field rt w this name d).1 = d ∧ (JavaObject.field rt w this name d).2.1 = d := by
  rcases hc : JavaObject.checkAndGetEnv rt w this with ⟨r, t, w'⟩
  rw [hc] at h
  simp only at h
  subst h
  simp [JavaObject.field, hc]

theorem JavaObject_field_failsoft (rt : Runtime σ) (w : World σ) (this : JavaObject)
    (name : String) (d : Value) (id : jfieldID) :
    let c := JavaObject.checkAndGetEnv rt w this
    let s := TypeSignature.get rt c.2.2 d
    let j := JavaObject.getJClass rt s.2.2 c.2.1
    let m := env_util.getFieldId rt j.2.2 j.1 name s.1 false
    let r := JavaObject._field rt m.2 j.2.1 s.2.1.type id
    let out := JavaObject.field rt w this name d
    (Jni.getEnv rt = nullptr ∨ (JavaObject.getJClass rt w this).1 = nullptr
        ∨ this._jobject = nullptr → out.1 = d ∧ out.2.1 = d) ∧
    (c.1 = .ok () →
      (JNIEnv.invoke rt j.2.2 (.GetFieldID j.1 name s.1)).1.ref = nullptr
        ∨ (m.1 = .ok id ∧ r.2.pending = true) →
      out.1 = s.2.1 ∧ out.2.1 = s.2.1 ∧ Value.sameUpToClass d s.2.1) := by
  intro c s j m r out
  constructor
  · intro h
    have he : ∃ e, (JavaObject.checkAndGetEnv rt w this).1 = .error e := by
      rcases h with h | h | h
      · exact ⟨_, by rw [JavaObject_checkAndGetEnv_noEnv rt w this h]⟩
      · exact JavaObject_checkAndGetEnv_nullClass rt w this h
      · exact JavaObject_checkAndGetEnv_nullObject rt w this h
    rcases he with ⟨e, he⟩
    exact JavaObject_field_of_check_error rt w this name d e he
  · intro hc h
    have hc' := except_ok_eta c hc
    have hout : out = JavaObject.field rt w this name d := rfl
    refine ⟨?_, ?_, TypeSignature_get_sameUpToClass rt _ d⟩ <;>
    · rcases h with h | ⟨h1, h2⟩
      · obtain ⟨e, he⟩ := getFieldId_notFound rt j.2.2 j.1 name s.1 false (by simpa using h)
        have hm : m = (.error e, m.2) := by rw [← he]
        rw [hout]
        unfold JavaObject.field
        rw [show JavaObject.checkAndGetEnv rt w this = c from rfl, hc']
        simp only []
        rw [show TypeSignature.get rt c.2.2 d = s from rfl]
        rw [show JavaObject.getJClass rt s.2.2 c.2.1 = j from rfl]
        rw [show env_util.getFieldId rt j.2.2 j.1 name s.1 false = m from rfl, hm]
      · have hm := except_ok_eta2 m id h1
        rw [hout]
        unfold JavaObject.field
        rw [show JavaObject.checkAndGetEnv rt w this = c from rfl, hc']
        simp only []
        rw [show TypeSignature.get rt c.2.2 d = s from rfl]
        rw [show JavaObject.getJClass rt s.2.2 c.2.1 = j from rfl]
        rw [show env_util.getFieldId rt j.2.2 j.1 name s.1 false = m from rfl, hm]
        simp only []
        rw [show JavaObject._field rt m.2 j.2.1 s.2.1.type id = r from rfl]
        simp [JniException.checkException, JNIEnv.ExceptionCheck, h2]

theorem JavaClass_staticCall_of_check_error (rt : Runtime σ) (w : World σ) (this : JavaClass)
    (name : String) (d : Value) (args : List Arg) (e : JniException)
    (h : (JavaClass.checkAndGetEnv rt w this).1 = .error e) :
    (JavaClass.staticCall rt w this name d args).1 = d ∧
    (JavaClass.staticCall rt w this name d args).2.1 = d := by
  rcases hc : JavaClass.checkAndGetEnv rt w this with ⟨r, t, w'⟩
  rw [hc] at h
  simp only at h
  subst h
  simp [JavaClass.staticCall, hc]

theorem JavaClass_staticCall_failsoft (rt : Runtime σ) (w : World σ) (this : JavaClass)
    (name : String) (d : Value) (args : List Arg) (id : jmethodID) :
    let c := JavaClass.checkAndGetEnv rt w this
    let s := MethodSignature.get rt c.2.2 d args
    let j := JavaClass.getJClass rt s.2.2 c.2.1
    let m := env_util.getMethodId rt j.2.2 j.1 name s.1 true
    let a := makeArgs rt m.2 args
    let r := JavaClass._staticCall rt a.2 j.2.1 s.2.1.type id a.1
    let out := JavaClass.staticCall rt w this name d args
    (Jni.getEnv rt = nullptr ∨ (JavaClass.getJClass rt w this).1 = nullptr →
      out.1 = d ∧ out.2.1 = d) ∧
    (c.1 = .ok () →
      (JNIEnv.invoke rt j.2.2 (.GetStaticMethodID j.1 name s.1)).1.ref = nullptr
        ∨ (m.1 = .ok id ∧ r.2.pending = true) →
      out.1 = s.2.1 ∧ out.2.1 = s.2.1 ∧ Value.sameUpToClass d s.2.1) := by
  intro c s j m a r out
  constructor
  · intro h
    have he : ∃ e, (JavaClass.checkAndGetEnv rt w this).1 = .error e := by
      rcases h with h | h
      · exact ⟨_, by rw [JavaClass_checkAndGetEnv_noEnv rt w this h]⟩
      · exact JavaClass_checkAndGetEnv_nullClass rt w this h
    rcases he with ⟨e, he⟩
    exact JavaClass_staticCall_of_check_error rt w this name d args e he
  · intro hc h
    have hc' := except_ok_eta c hc
    have hout : out = JavaClass.staticCall rt w this name d args := rfl
    refine ⟨?_, ?_, MethodSignature_get_sameUpToClass rt _ d args⟩ <;>
    · rcases h with h | ⟨h1, h2⟩
      · obtain ⟨e, he⟩ := getMethodId_notFound rt j.2.2 j.1 name s.1 true (by simpa using h)
        have hm : m = (.error e, m.2) := by rw [← he]
        rw [hout]
        unfold JavaClass.staticCall
        rw [show JavaClass.checkAndGetEnv rt w this = c from rfl, hc']
        simp only []
        rw [show MethodSignature.get rt c.2.2 d args = s from rfl]
        rw [show JavaClass.getJClass rt s.2.2 c.2.1 = j from rfl]
        rw [show env_util.getMethodId rt j.2.2 j.1 name s.1 true = m from rfl, hm]
      · have hm := except_ok_eta2 m id h1
        rw [hout]
        unfold JavaClass.staticCall
        rw [show JavaClass.checkAndGetEnv rt w this = c from rfl, hc']
        simp only []
        rw [show MethodSignature.get rt c.2.2 d args = s from rfl]
        rw [show JavaClass.getJClass rt s.2.2 c.2.1 = j from rfl]
        rw [show env_util.getMethodId rt j.2.2 j.1 name s.1 true = m from rfl, hm]
        simp only []
        rw [show makeArgs rt m.2 args = a from rfl]
        rw [show JavaClass._staticCall rt a.2 j.2.1 s.2.1.type id a.1 = r from rfl]
        simp [JniException.checkException, JNIEnv.ExceptionCheck, h2]

theorem JavaClass_staticField_of_check_error (rt : Runtime σ) (w : World σ) (this : JavaClass)
    (name : String) (d : Value) (e : JniException)
    (h : (JavaClass.checkAndGetEnv rt w this).1 = .error e) :
    (JavaClass.staticField rt w this name d).1 = d ∧
    (JavaClass.staticField rt w this name d).2.1 = d := by
  rcases hc : JavaClass.checkAndGetEnv rt w this with ⟨r, t, w'⟩
  rw [hc] at h
  simp only at h
  subst h
  simp [JavaClass.staticField, hc]

theorem JavaClass_staticField_failsoft (rt : Runtime σ) (w : World σ) (this : JavaClass)
    (name : String) (d : Value) (id : jfieldID) :
    let c := JavaClass.checkAndGetEnv rt w this
    let s := TypeSignature.get rt c.2.2 d
    let j := JavaClass.getJClass rt s.2.2 c.2.1
    let m := env_util.getFieldId rt j.2.2 j.1 name s.1 true
    let r := JavaClass._staticField rt m.2 j.2.1 s.2.1.type id
    let out := JavaClass.staticField rt w this name d
    (Jni.getEnv rt = nullptr ∨ (JavaClass.getJClass rt w this).1 = nullptr →
      out.1 = d ∧ out.2.1 = d) ∧
    (c.1 = .ok () →
      (JNIEnv.invoke rt j.2.2 (.GetStaticFieldID j.1 name s.1)).1.ref = nullptr
        ∨ (m.1 = .ok id ∧ r.2.pending = true) →
      out.1 = s.2.1 ∧ out.2.1 = s.2.1 ∧ Value.sameUpToClass d s.2.1) := by
  intro c s j m r out
  constructor
  · intro h
    have he : ∃ e, (JavaClass.checkAndGetEnv rt w this).1 = .error e := by
      rcases h with h | h
      · exact ⟨_, by rw [JavaClass_checkAndGetEnv_noEnv rt w this h]⟩
      · exact JavaClass_checkAndGetEnv_nullClass rt w this h
    rcases he with ⟨e, he⟩
    exact JavaClass_staticField_of_check_error rt w this name d e he
  · intro hc h
    have hc' := except_ok_eta c hc
    have hout : out = JavaClass.staticField rt w this name d := rfl
    refine ⟨?_, ?_, TypeSignature_get_sameUpToClass rt _ d⟩ <;>
    · rcases h with h | ⟨h1, h2⟩
      · obtain ⟨e, he⟩ := getFieldId_notFound rt j.2.2 j.1 name s.1 true (by simpa using h)
        have hm : m = (.error e, m.2) := by rw [← he]
        rw [hout]
        unfold JavaClass.staticField
        rw [show JavaClass.checkAndGetEnv rt w this = c from rfl, hc']
        simp only []
        rw [show TypeSignature.get rt c.2.2 d = s from rfl]
        rw [show JavaClass.getJClass rt s.2.2 c.2.1 = j from rfl]
        rw [show env_util.getFieldId rt j.2.2 j.1 name s.1 true = m from rfl, hm]
      · have hm := except_ok_eta2 m id h1
        rw [hout]
        unfold JavaClass.staticField
        rw [show JavaClass.checkAndGetEnv rt w this = c from rfl, hc']
        simp only []
        rw [show TypeSignature.get rt c.2.2 d = s from rfl]
        rw [show JavaClass.getJClass rt s.2.2 c.2.1 = j from rfl]
        rw [show env_util.getFieldId rt j.2.2 j.1 name s.1 true = m from rfl, hm]
        simp only []
        rw [show JavaClass._staticField rt m.2 j.2.1 s.2.1.type id = r from rfl]
        simp [JniException.checkException, JNIEnv.ExceptionCheck, h2]

/-- The fallback of the typed accessors `JavaObject::call`,
`JavaObject::field`, `JavaClass::staticCall` and `JavaClass::staticField` to
the caller's default value, stage by stage, on a runtime that answers every
call put to it (for a `std::string` result this includes the
`GetStringUTFChars` that precedes the failure check).  In each block `c` is the environment
check, `s` the derived signature, `j` the class handle passed to the lookup,
`m` the identifier lookup, `r` the underlying JNI call, and `out` what the
accessor returns: its result (`out.1`) and the caller's `defaultValue` as the
call leaves it (`out.2.1`).  When the environment is unavailable, the class
handle is null or the instance handle is null, the result is the default
untouched.  When the runtime finds no identifier for the derived signature, or
an exception is pending after the underlying call, the value the call
produced is discarded and the result is the caller's default, which deriving
the signature has left the same value (an object wrapper keeps its instance
handle and may have its class resolved).  The accessors have no error result:
nothing is raised. -/
theorem typed_accessors_return_default (rt : Runtime σ) (w : World σ) (name : String)
    (d : Value) (args : List Arg) (obj : JavaObject) (cls : JavaClass) (id : Nat) :
    (let c := JavaObject.checkAndGetEnv rt w obj
     let s := MethodSignature.get rt c.2.2 d args
     let j := JavaObject.getJClass rt s.2.2 c.2.1
     let m := env_util.getMethodId rt j.2.2 j.1 name s.1 false
     let a := makeArgs rt m.2 args
     let r := JavaObject._call rt a.2 j.2.1 s.2.1.type id a.1
     let out := JavaObject.call rt w obj name d args
     (Jni.getEnv rt = nullptr ∨ (JavaObject.getJClass rt w obj).1 = nullptr
         ∨ obj._jobject = nullptr → out.1 = d ∧ out.2.1 = d) ∧
     (c.1 = .ok () →
       (JNIEnv.invoke rt j.2.2 (.GetMethodID j.1 name s.1)).1.ref = nullptr
         ∨ (m.1 = .ok id ∧ r.2.pending = true) →
       out.1 = s.2.1 ∧ out.2.1 = s.2.1 ∧ Value.sameUpToClass d s.2.1)) ∧
    (let c := JavaObject.checkAndGetEnv rt w obj
     let s := TypeSignature.get rt c.2.2 d
     let j := JavaObject.getJClass rt s.2.2 c.2.1
     let m := env_util.getFieldId rt j.2.2 j.1 name s.1 false
     let r := JavaObject._field rt m.2 j.2.1 s.2.1.type id
     let out := JavaObject.field rt w obj name d
     (Jni.getEnv rt = nullptr ∨ (JavaObject.getJClass rt w obj).1 = nullptr
         ∨ obj._jobject = nullptr → out.1 = d ∧ out.2.1 = d) ∧
     (c.1 = .ok () →
       (JNIEnv.invoke rt j.2.2 (.GetFieldID j.1 name s.1)).1.ref = nullptr
         ∨ (m.1 = .ok id ∧ r.2.pending = true) →
       out.1 = s.2.1 ∧ out.2.1 = s.2.1 ∧ Value.sameUpToClass d s.2.1)) ∧
    (let c := JavaClass.checkAndGetEnv rt w cls
     let s := MethodSignature.get rt c.2.2 d args
     let j := JavaClass.getJClass rt s.2.2 c.2.1
     let m := env_util.getMethodId rt j.2.2 j.1 name s.1 true
     let a := makeArgs rt m.2 args
     let r := JavaClass._staticCall rt a.2 j.2.1 s.2.1.type id a.1
     let out := JavaClass.staticCall rt w cls name d args
     (Jni.getEnv rt = nullptr ∨ (JavaClass.getJClass rt w cls).1 = nullptr →
       out.1 = d ∧ out.2.1 = d) ∧
     (c.1 = .ok () →
       (JNIEnv.invoke rt j.2.2 (.GetStaticMethodID j.1 name s.1)).1.ref = nullptr
         ∨ (m.1 = .ok id ∧ r.2.pending = true) →
       out.1 = s.2.1 ∧ out.2.1 = s.2.1 ∧ Value.sameUpToClass d s.2.1)) ∧
    (let c := JavaClass.checkAndGetEnv rt w cls
     let s := TypeSignature.get rt c.2.2 d
     let j := JavaClass.getJClass rt s.2.2 c.2.1
     let m := env_util.getFieldId rt j.2.2 j.1 name s.1 true
     let r := JavaClass._staticField rt m.2 j.2.1 s.2.1.type id
     let out := JavaClass.staticField rt w cls name d
     (Jni.getEnv rt = nullptr ∨ (JavaClass.getJClass rt w cls).1 = nullptr →
       out.1 = d ∧ out.2.1 = d) ∧
     (c.1 = .ok () →
       (JNIEnv.invoke rt j.2.2 (.GetStaticFieldID j.1 name s.1)).1.ref = nullptr
         ∨ (m.1 = .ok id ∧ r.2.pending = true) →
       out.1 = s.2.1 ∧ out.2.1 = s.2.1 ∧ Value.sameUpToClass d s.2.1)) :=
  ⟨JavaObject_call_failsoft rt w obj name d args id,
   JavaObject_field_failsoft rt w obj name d id,
   JavaClass_staticCall_failsoft rt w cls name d args id,
   JavaClass_staticField_failsoft rt w cls name d id⟩

/-- The fallback on the small runtime: `call` on a thread without
environment, on a wrapper without class and instance, on a null instance,
with a method name that does not exist (`size`), and with a call that throws
(`charAt(7)` on `hi`); `field` with a field that does not exist; `staticCall`
with a method that does not exist and with a call that throws
(`parseInt("x")`); `staticField` with a field that does not exist for the
derived signature (`MAX_VALUE` as a `long`). -/
theorem typed_accessors_return_default_witness :
    (JavaObject.call MiniJvm.detached MiniJvm.start MiniJvm.hi.1 "length"
        (.prim .jint (-1)) []).1 = .prim .jint (-1) ∧
    (JavaObject.call MiniJvm.rt MiniJvm.start (JavaObject.ofJObject nullptr) "length"
        (.prim .jint (-1)) []).1 = .prim .jint (-1) ∧
    (JavaObject.call MiniJvm.rt MiniJvm.start (JavaObject.null "java/lang/String") "length"
        (.prim .jint (-1)) []).1 = .prim .jint (-1) ∧
    (JavaObject.call MiniJvm.rt MiniJvm.hi.2 MiniJvm.hi.1 "size"
        (.prim .jint (-1)) []).1 = .prim .jint (-1) ∧
    (JavaObject.call MiniJvm.rt MiniJvm.hi.2 MiniJvm.hi.1 "charAt"
        (.prim .jchar 63) [.value (.prim .jint 7)]).1 = .prim .jchar 63 ∧
    (JavaObject.field MiniJvm.rt MiniJvm.hi.2 MiniJvm.hi.1 "count"
        (.string "none")).1 = .string "none" ∧
    (JavaClass.staticCall MiniJvm.rt MiniJvm.integer.2 MiniJvm.integer.1 "parse"
        (.prim .jint (-1)) [.value (.string "12")]).1 = .prim .jint (-1) ∧
    (JavaClass.staticCall MiniJvm.rt MiniJvm.integer.2 MiniJvm.integer.1 "parseInt"
        (.prim .jint (-1)) [.value (.string "x")]).1 = .prim .jint (-1) ∧
    (JavaClass.staticField MiniJvm.rt MiniJvm.integer.2 MiniJvm.integer.1 "MAX_VALUE"
        (.prim .jlong 0)).1 = .prim .jlong 0 :=
  ⟨((typed_accessors_return_default MiniJvm.detached MiniJvm.start "length"
      (.prim .jint (-1)) [] MiniJvm.hi.1 JavaClass.null 0).1.1 (Or.inl (by decide))).1,
   ((typed_accessors_return_default MiniJvm.rt MiniJvm.start "length"
      (.prim .jint (-1)) [] (JavaObject.ofJObject nullptr) JavaClass.null 0).1.1
      (Or.inr (Or.inl (by decide)))).1,
   ((typed_accessors_return_default MiniJvm.rt MiniJvm.start "length"
      (.prim .jint (-1)) [] (JavaObject.null "java/lang/String") JavaClass.null 0).1.1
      (Or.inr (Or.inr (by decide)))).1,
   ((typed_accessors_return_default MiniJvm.rt MiniJvm.hi.2 "size"
      (.prim .jint (-1)) [] MiniJvm.hi.1 JavaClass.null 0).1.2 (by rfl) (Or.inl (by decide))).1,
   ((typed_accessors_return_default MiniJvm.rt MiniJvm.hi.2 "charAt"
      (.prim .jchar 63) [.value (.prim .jint 7)] MiniJvm.hi.1 JavaClass.null 33).1.2 (by rfl)
      (Or.inr ⟨by rfl, by decide⟩)).1,
   ((typed_accessors_return_default MiniJvm.rt MiniJvm.hi.2 "count"
      (.string "none") [] MiniJvm.hi.1 JavaClass.null 0).2.1.2 (by rfl) (Or.inl (by decide))).1,
   ((typed_accessors_return_default MiniJvm.rt MiniJvm.integer.2 "parse"
      (.prim .jint (-1)) [.value (.string "12")] MiniJvm.hi.1 MiniJvm.integer.1 0).2.2.1.2 (by rfl)
      (Or.inl (by decide))).1,
   ((typed_accessors_return_default MiniJvm.rt MiniJvm.integer.2 "parseInt"
      (.prim .jint (-1)) [.value (.string "x")] MiniJvm.hi.1 MiniJvm.integer.1 41).2.2.1.2 (by rfl)
      (Or.inr ⟨by rfl, by decide⟩)).1,
   ((typed_accessors_return_default MiniJvm.rt MiniJvm.integer.2 "MAX_VALUE"
      (.prim .jlong 0) [] MiniJvm.hi.1 MiniJvm.integer.1 0).2.2.2.2 (by rfl) (Or.inl (by decide))).1⟩

/-! ## C4: null wrappers -/

theorem invoke_calls (rt : Runtime σ) (w : World σ) (c : JniCall)
    (h : ¬ Jni.getEnv rt = nullptr) :
    (JNIEnv.invoke rt w c).2.calls = w.calls ++ [c] := by
  simp [JNIEnv.invoke, h]

theorem checkException_calls (w : World σ) :
    (JniException.checkException w).2.calls = w.calls := by
  unfold JniException.checkException
  split <;> rfl

theorem log_calls (e : JniException) (w : World σ) : (e.log w).calls = w.calls := rfl

theorem findClass_calls (rt : Runtime σ) (w : World σ) (classPath : String)
    (h : ¬ Jni.getEnv rt = nullptr) :
    (env_util.findClass rt w classPath).2.calls = w.calls ++ [.FindClass classPath] := by
  unfold env_util.findClass JNIEnv.FindClass
  simp only []
  split
  · exact invoke_calls rt w _ h
  · split <;> rename_i heq <;>
    · have := congrArg (fun r => r.2.calls) heq
      simp only [checkException_calls] at this
      rw [← this]
      exact invoke_calls rt w _ h

theorem findClass_ok_ne (rt : Runtime σ) (w w1 : World σ) (classPath : String) (clazz : jclass)
    (h : env_util.findClass rt w classPath = (.ok clazz, w1)) : clazz ≠ nullptr := by
  unfold env_util.findClass JNIEnv.FindClass at h
  simp only [] at h
  split at h
  · simp at h
  · rename_i hne
    split at h
    · simp at h
    · simp only [Prod.mk.injEq, Except.ok.injEq] at h
      rw [← h.1]
      exact hne

theorem toGlobalRefSharedPtr_calls (rt : Runtime σ) (w : World σ) (localRef : jobject)
    (h : ¬ Jni.getEnv rt = nullptr) (hl : localRef ≠ nullptr) :
    (toGlobalRefSharedPtr rt w localRef).2.calls = w.calls ++ [.NewGlobalRef localRef] := by
  unfold toGlobalRefSharedPtr JNIEnv.NewGlobalRef
  simp only [hl, h, if_false]
  split <;> rename_i heq <;>
  · have := congrArg (fun r => r.2.calls) heq
    simp only [checkException_calls] at this
    simp only [log_calls]
    rw [← this]
    exact invoke_calls rt w _ h

/-- What `JavaClass::getJClass` asks the runtime: nothing, or the class lookup
of the stored path, followed (when the class is found) by pinning and
releasing the handle found. -/
theorem JavaClass_getJClass_calls (rt : Runtime σ) (w : World σ) (this : JavaClass) :
    (JavaClass.getJClass rt w this).2.2.calls = w.calls ∨
    (JavaClass.getJClass rt w this).2.2.calls = w.calls ++ [.FindClass this._classPath] ∨
    ∃ h, (JavaClass.getJClass rt w this).2.2.calls
      = w.calls ++ [.FindClass this._classPath, .NewGlobalRef h, .DeleteLocalRef h] := by
  unfold JavaClass.getJClass
  by_cases h1 : this._jclazz = nullptr
  · by_cases h2 : this._classPath = ""
    · simp [h1, h2]
    · by_cases h3 : Jni.getEnv rt = nullptr
      · simp [h1, h2, h3]
      · simp only [h1, h2, h3, if_true, if_false, ne_eq, not_false_eq_true]
        have hf := findClass_calls rt w this._classPath h3
        rcases hfc : env_util.findClass rt w this._classPath with ⟨e | clazz, w1⟩
        · right; left
          rw [hfc] at hf
          simpa [log_calls] using hf
        · right; right
          have hne := findClass_ok_ne rt w w1 _ clazz hfc
          rw [hfc] at hf
          refine ⟨clazz, ?_⟩
          simp only [JNIEnv.DeleteLocalRef, invoke_calls _ _ _ h3,
            toGlobalRefSharedPtr_calls rt w1 clazz h3 hne]
          simp only [] at hf
          rw [hf]
          simp
  · simp [h1]

theorem JavaObject_call_check_error (rt : Runtime σ) (w w1 : World σ) (this t : JavaObject)
    (name : String) (d : Value) (args : List Arg) (e : JniException)
    (h : JavaObject.checkAndGetEnv rt w this = (.error e, t, w1)) :
    JavaObject.call rt w this name d args = (d, d, t, e.log w1) := by
  simp [JavaObject.call, h]

theorem JavaObject_field_check_error (rt : Runtime σ) (w w1 : World σ) (this t : JavaObject)
    (name : String) (d : Value) (e : JniException)
    (h : JavaObject.checkAndGetEnv rt w this = (.error e, t, w1)) :
    JavaObject.field rt w this name d = (d, d, t, e.log w1) := by
  simp [JavaObject.field, h]

theorem JavaObject_callVoid_check_error (rt : Runtime σ) (w w1 : World σ) (this t : JavaObject)
    (name : String) (args : List Arg) (e : JniException)
    (h : JavaObject.checkAndGetEnv rt w this = (.error e, t, w1)) :
    JavaObject.callVoid rt w this name args = (t, e.log w1) := by
  simp [JavaObject.callVoid, h]

theorem JavaClass_staticCall_check_error (rt : Runtime σ) (w w1 : World σ) (this t : JavaClass)
    (name : String) (d : Value) (args : List Arg) (e : JniException)
    (h : JavaClass.checkAndGetEnv rt w this = (.error e, t, w1)) :
    JavaClass.staticCall rt w this name d args = (d, d, t, e.log w1) := by
  simp [JavaClass.staticCall, h]

theorem JavaClass_staticField_check_error (rt : Runtime σ) (w w1 : World σ) (this t : JavaClass)
    (name : String) (d : Value) (e : JniException)
    (h : JavaClass.checkAndGetEnv rt w this = (.error e, t, w1)) :
    JavaClass.staticField rt w this name d = (d, d, t, e.log w1) := by
  simp [JavaClass.staticField, h]

theorem JavaClass_staticCallVoid_check_error (rt : Runtime σ) (w w1 : World σ)
    (this t : JavaClass) (name : String) (args : List Arg) (e : JniException)
    (h : JavaClass.checkAndGetEnv rt w this = (.error e, t, w1)) :
    JavaClass.staticCallVoid rt w this name args = (t, e.log w1) := by
  simp [JavaClass.staticCallVoid, h]

theorem JavaClass_newObject_check_error (rt : Runtime σ) (w w1 : World σ) (this t : JavaClass)
    (args : List Arg) (e : JniException)
    (h : JavaClass.checkAndGetEnv rt w this = (.error e, t, w1)) :
    JavaClass.newObject rt w this args = (JavaObject.ofJObject nullptr, t, e.log w1) := by
  simp [JavaClass.newObject, h]

/-- The environment check of the null class wrapper throws and asks the
runtime nothing. -/
theorem JavaClass_checkAndGetEnv_null (rt : Runtime σ) (w : World σ) :
    ∃ e, JavaClass.checkAndGetEnv rt w JavaClass.null = (.error e, JavaClass.null, w) := by
  unfold JavaClass.checkAndGetEnv
  by_cases h : Jni.getEnv rt = nullptr
  · exact ⟨⟨"Failed to get JNIEnv. "⟩, by simp [h]⟩
  · exact ⟨⟨"Failed to get jclass."⟩, by simp [h, JavaClass_getJClass_null]⟩

/-- With a null instance handle `JavaObject::getJClass` goes straight to the
class wrapper. -/
theorem JavaObject_getJClass_nullObject (rt : Runtime σ) (w : World σ) (c : JavaClass) :
    JavaObject.getJClass rt w ⟨nullptr, c⟩ = JavaObject.returnJClass rt w ⟨nullptr, c⟩ := by
  simp [JavaObject.getJClass]

/-- The environment check of an object wrapper with a null instance handle
throws; the state it leaves is the one it found, or the one the class wrapper
left when asked for its handle. -/
theorem JavaObject_checkAndGetEnv_null (rt : Runtime σ) (w : World σ) (c : JavaClass) :
    ∃ e t w1, JavaObject.checkAndGetEnv rt w ⟨nullptr, c⟩ = (.error e, t, w1) ∧
      (w1 = w ∨ w1 = (JavaClass.getJClass rt w c).2.2) := by
  unfold JavaObject.checkAndGetEnv
  by_cases h : Jni.getEnv rt = nullptr
  · exact ⟨⟨"Failed to get JNIEnv."⟩, ⟨nullptr, c⟩, w, by simp [h], Or.inl rfl⟩
  · simp only [h, if_false, JavaObject_getJClass_nullObject, JavaObject.returnJClass,
      JavaObject.getJObject]
    by_cases h2 : (JavaClass.getJClass rt w c).1 = nullptr
    · exact ⟨⟨"Failed to get jclass. "⟩, ⟨nullptr, (JavaClass.getJClass rt w c).2.1⟩,
        (JavaClass.getJClass rt w c).2.2, by simp only [h2, if_true], Or.inr rfl⟩
    · refine ⟨⟨"Failed to get jobject. "⟩, ⟨nullptr, (JavaClass.getJClass rt w c).2.1⟩,
        (JavaClass.getJClass rt w c).2.2, ?_, Or.inr rfl⟩
      simp only [h2, if_false]
      rfl

/-- The state an object accessor leaves on a wrapper with a null instance
handle: it has asked the runtime nothing, or only to look the class of the
wrapper up (and to pin and release the handle found). -/
theorem nullObject_accessor_calls (rt : Runtime σ) (w w1 : World σ) (c : JavaClass)
    (e : JniException) (h : w1 = w ∨ w1 = (JavaClass.getJClass rt w c).2.2) :
    (e.log w1).calls = w.calls ∨
    (e.log w1).calls = w.calls ++ [.FindClass c._classPath] ∨
    ∃ r, (e.log w1).calls
      = w.calls ++ [.FindClass c._classPath, .NewGlobalRef r, .DeleteLocalRef r] := by
  rw [log_calls]
  rcases h with h | h
  · exact Or.inl (by rw [h])
  · rw [h]
    exact JavaClass_getJClass_calls rt w c

/-- The environment check of a class wrapper whose handle cannot be resolved
throws; the state it leaves is the one it found, or the one the wrapper left
when asked for its handle. -/
theorem JavaClass_checkAndGetEnv_unresolved (rt : Runtime σ) (w : World σ) (c : JavaClass)
    (h : (JavaClass.getJClass rt w c).1 = nullptr) :
    ∃ e t w1, JavaClass.checkAndGetEnv rt w c = (.error e, t, w1) ∧
      (w1 = w ∨ w1 = (JavaClass.getJClass rt w c).2.2) := by
  unfold JavaClass.checkAndGetEnv
  by_cases henv : Jni.getEnv rt = nullptr
  · exact ⟨⟨"Failed to get JNIEnv. "⟩, c, w, by simp [henv], Or.inl rfl⟩
  · exact ⟨⟨"Failed to get jclass."⟩, (JavaClass.getJClass rt w c).2.1,
      (JavaClass.getJClass rt w c).2.2, by simp [henv, h], Or.inr rfl⟩

/-- What `JavaClass::getClass` returns when it fails: the null class wrapper,
or, when the class was found and its handle could not be pinned, a wrapper
that holds no handle and keeps the path. -/
theorem JavaClass_getClass_falsy (rt : Runtime σ) (w : World σ) (P : String) :
    ((JavaClass.getClass rt w P).1.toBool = false →
      (JavaClass.getClass rt w P).1 = JavaClass.null
        ∨ (JavaClass.getClass rt w P).1 = ⟨P, nullptr⟩) ∧
    (Jni.getEnv rt = nullptr → (JavaClass.getClass rt w P).1 = JavaClass.null) ∧
    (∀ e, (env_util.findClass rt w P).1 = .error e →
      (JavaClass.getClass rt w P).1 = JavaClass.null) ∧
    (∀ clazz, ¬ Jni.getEnv rt = nullptr → (env_util.findClass rt w P).1 = .ok clazz →
      (toGlobalRefSharedPtr rt (env_util.findClass rt w P).2 clazz).1 = nullptr →
      (JavaClass.getClass rt w P).1 = ⟨P, nullptr⟩) := by
  refine ⟨?_, ?_, ?_, ?_⟩
  · unfold JavaClass.getClass
    by_cases henv : Jni.getEnv rt = nullptr
    · intro _
      exact Or.inl (by simp [henv])
    · rcases hf : env_util.findClass rt w P with ⟨e | clazz, w1⟩
      · intro _
        exact Or.inl (by simp [henv])
      · simp only [henv, if_false, JavaClass.ofJClassPath, JavaClass.toBool, decide_eq_false_iff_not,
          not_not]
        intro hg
        right
        rw [hg]
  · intro h
    simp [JavaClass.getClass, h]
  · intro e h
    unfold JavaClass.getClass
    split
    · rfl
    · rcases hf : env_util.findClass rt w P with ⟨r, w1⟩
      rw [hf] at h
      simp only at h
      subst h
      rfl
  · intro clazz henv hf hg
    rcases hfc : env_util.findClass rt w P with ⟨r, w1⟩
    rw [hfc] at hf hg
    simp only at hf hg
    subst hf
    simp [JavaClass.getClass, henv, hfc, JavaClass.ofJClassPath, hg]

/-- `Jni::getEnv` on a thread that holds its environment under `g_key`
returns it and asks the virtual machine nothing; when no virtual machine is
installed it returns null and asks nothing; and once it has returned an
environment, the environment is held under `g_key`, so that every later call
returns the same pointer and asks nothing. -/
theorem Jni_getEnv_full_settled {τ : Type} (vm : JavaVM τ) (j : Jni τ) :
    (j.g_key ≠ nullptr → Jni.getEnv_full vm j = (j.g_key, j)) ∧
    (j.g_key = nullptr → j._jvm = nullptr → Jni.getEnv_full vm j = (nullptr, j)) ∧
    ((Jni.getEnv_full vm j).1 ≠ nullptr →
      (Jni.getEnv_full vm j).2.g_key = (Jni.getEnv_full vm j).1 ∧
      Jni.getEnv_full vm (Jni.getEnv_full vm j).2 = Jni.getEnv_full vm j) := by
  have h1 : ∀ k : Jni τ, k.g_key ≠ nullptr → Jni.getEnv_full vm k = (k.g_key, k) := by
    intro k hk
    simp [Jni.getEnv_full, hk]
  have h3 : (Jni.getEnv_full vm j).1 ≠ nullptr →
      (Jni.getEnv_full vm j).2.g_key = (Jni.getEnv_full vm j).1 := by
    unfold Jni.getEnv_full
    simp only []
    split_ifs <;> simp_all
  refine ⟨h1 j, ?_, ?_⟩
  · intro hk hj
    simp [Jni.getEnv_full, hk, Jni.getJvm, hj]
  · intro h
    refine ⟨h3 h, ?_⟩
    rw [h1 _ (by rw [h3 h]; exact h), h3 h]

/-- What `Jni::getEnv` asks the virtual machine: nothing, or `GetEnv`, or
`GetEnv` followed by `AttachCurrentThread`. -/
theorem Jni_getEnv_full_vmCalls {τ : Type} (vm : JavaVM τ) (j : Jni τ) :
    (Jni.getEnv_full vm j).2.vmCalls = j.vmCalls ∨
    (Jni.getEnv_full vm j).2.vmCalls = j.vmCalls ++ [.GetEnv JNI_VERSION_1_4] ∨
    (Jni.getEnv_full vm j).2.vmCalls
      = j.vmCalls ++ [.GetEnv JNI_VERSION_1_4, .AttachCurrentThread] := by
  unfold Jni.getEnv_full
  simp only []
  split_ifs <;> simp [JavaVM.invoke]

/-- C4 (counterexample): three runs on the small runtime.  `field` on
`JavaObject::null("java/lang/String")` returns the default, but not without
an operation on the runtime: it looks the class up (`FindClass`), pins the
handle found and releases the local reference.  `JavaClass::getClass` of
`java/lang/Integer`, when the class is found and its handle cannot be pinned,
returns a class wrapper that tests false and compares equal to null but keeps
the path; `staticField` on it looks the class up again and, the handle now
being pinned, reads the field: it returns `Integer.MAX_VALUE`, not the
default.  And `Jni::getEnv`, the first statement of every accessor, on a
thread the virtual machine does not know yet, calls `JavaVM::GetEnv` and
`JavaVM::AttachCurrentThread`: the thread is attached. -/
theorem null_wrapper_counterexample :
    ((JavaObject.field MiniJvm.rt MiniJvm.start (JavaObject.null "java/lang/String") "count"
        (.prim .jint 0)).1 = .prim .jint 0 ∧
    (JavaObject.field MiniJvm.rt MiniJvm.start (JavaObject.null "java/lang/String") "count"
        (.prim .jint 0)).2.2.2.calls
      = [.FindClass "java/lang/String", .NewGlobalRef 3, .DeleteLocalRef 3] ∧
    ¬ (JavaObject.field MiniJvm.rt MiniJvm.start (JavaObject.null "java/lang/String") "count"
        (.prim .jint 0)).2.2.2.calls = MiniJvm.start.calls) ∧
    (MiniJvm.integerUnpinned.1 = ⟨"java/lang/Integer", nullptr⟩ ∧
      MiniJvm.integerUnpinned.1.toBool = false ∧
      MiniJvm.integerUnpinned.1.eqNull = true ∧
      (JavaClass.staticField MiniJvm.recovering MiniJvm.integerUnpinned.2
          MiniJvm.integerUnpinned.1 "MAX_VALUE" (.prim .jint 0)).1 = .prim .jint 2147483647 ∧
      ¬ (JavaClass.staticField MiniJvm.recovering MiniJvm.integerUnpinned.2
          MiniJvm.integerUnpinned.1 "MAX_VALUE" (.prim .jint 0)).1 = .prim .jint 0 ∧
      (JavaClass.staticField MiniJvm.recovering MiniJvm.integerUnpinned.2
          MiniJvm.integerUnpinned.1 "MAX_VALUE" (.prim .jint 0)).2.2.2.calls
        = MiniJvm.integerUnpinned.2.calls
            ++ [.FindClass "java/lang/Integer", .NewGlobalRef 4, .DeleteLocalRef 4,
                .GetStaticFieldID 4 "MAX_VALUE" "I", .GetStaticField .Int 4 40]) ∧
    (MiniJvm.newThread = ⟨1, nullptr, false, []⟩ ∧
      Jni.getEnv_full MiniJvm.vm MiniJvm.newThread
        = (1, ⟨1, 1, true, [.GetEnv JNI_VERSION_1_4, .AttachCurrentThread]⟩)) := by
  decide

/-- C4 (amended): every typed accessor on an object wrapper of a null handle
returns the supplied default, and so does every typed accessor on a class
wrapper that holds no handle as long as its class cannot be resolved (the
default of `newObject` is the null object wrapper); none of them performs an
identifier lookup or a call.  The statement is about the calls through
`JNIEnv` (`JniCall`); how `Jni::getEnv` obtains the environment beforehand is
`Jni.getEnv_full`.

* The null-constructed wrappers: `JavaArray<JavaObject>::null(E)` is built on
  the object wrapper of a null handle without class, `JavaObject::null(P)` on
  the one with the class wrapper of the path `P`; a `JavaClass::getClass`
  that fails returns the null class wrapper (no environment, class not
  found) or, when the class was found and could not be pinned, the wrapper
  without handle that keeps the path `P`; this wrapper too tests false and
  compares equal to null.
* An object wrapper of a null handle without class, and the null class
  wrapper, issue no call at all.
* An object wrapper of a null handle that carries a class `c`, such as
  `JavaObject::null(P)`, may look the class path up and pin and release the
  handle found, and nothing else.
* A class wrapper `k` without handle whose class cannot be resolved (the null
  class wrapper always; the one that keeps its path when the lookup or the
  pinning fails again) may do the same, and nothing else.
* `Jni::getEnv`, which every accessor calls first, asks the virtual machine
  nothing when the thread holds its environment or no virtual machine is
  installed, and otherwise `GetEnv` and at most `AttachCurrentThread`; once it
  has returned an environment the thread holds it. -/
theorem null_wrappers_return_default {τ : Type} (rt : Runtime σ) (w : World σ)
    (name : String) (d : Value) (args : List Arg) (E P : String) (c k : JavaClass)
    (vm : JavaVM τ) (j : Jni τ) :
    ((JavaArray.null E).toJavaObject = JavaObject.ofJObject nullptr ∧
      JavaObject.null P = JavaObject.ofJObjectClass nullptr (JavaClass.ofPath P) ∧
      (Jni.getEnv rt = nullptr → (JavaClass.getClass rt w P).1 = JavaClass.null) ∧
      (∀ e, (env_util.findClass rt w P).1 = .error e →
        (JavaClass.getClass rt w P).1 = JavaClass.null) ∧
      (∀ clazz, ¬ Jni.getEnv rt = nullptr → (env_util.findClass rt w P).1 = .ok clazz →
        (toGlobalRefSharedPtr rt (env_util.findClass rt w P).2 clazz).1 = nullptr →
        (JavaClass.getClass rt w P).1 = ⟨P, nullptr⟩) ∧
      ((JavaClass.getClass rt w P).1.toBool = false →
        (JavaClass.getClass rt w P).1 = JavaClass.null
          ∨ (JavaClass.getClass rt w P).1 = ⟨P, nullptr⟩) ∧
      (JavaClass.mk P nullptr).toBool = false ∧
      (JavaClass.mk P nullptr).eqNull = true) ∧
    ((JavaObject.field rt w (JavaObject.ofJObject nullptr) name d).1 = d ∧
      (JavaObject.field rt w (JavaObject.ofJObject nullptr) name d).2.2.2.calls = w.calls ∧
      (JavaObject.call rt w (JavaObject.ofJObject nullptr) name d args).1 = d ∧
      (JavaObject.call rt w (JavaObject.ofJObject nullptr) name d args).2.2.2.calls = w.calls ∧
      (JavaObject.callVoid rt w (JavaObject.ofJObject nullptr) name args).2.calls = w.calls) ∧
    ((JavaClass.staticField rt w JavaClass.null name d).1 = d ∧
      (JavaClass.staticField rt w JavaClass.null name d).2.2.2.calls = w.calls ∧
      (JavaClass.staticCall rt w JavaClass.null name d args).1 = d ∧
      (JavaClass.staticCall rt w JavaClass.null name d args).2.2.2.calls = w.calls ∧
      (JavaClass.staticCallVoid rt w JavaClass.null name args).2.calls = w.calls ∧
      (JavaClass.newObject rt w JavaClass.null args).1 = JavaObject.ofJObject nullptr ∧
      (JavaClass.newObject rt w JavaClass.null args).2.2.calls = w.calls) ∧
    ((JavaObject.field rt w (JavaObject.ofJObjectClass nullptr c) name d).1 = d ∧
      (JavaObject.call rt w (JavaObject.ofJObjectClass nullptr c) name d args).1 = d ∧
      (∀ calls, calls = (JavaObject.field rt w (JavaObject.ofJObjectClass nullptr c) name d).2.2.2.calls
          ∨ calls = (JavaObject.call rt w (JavaObject.ofJObjectClass nullptr c) name d args).2.2.2.calls
          ∨ calls = (JavaObject.callVoid rt w (JavaObject.ofJObjectClass nullptr c) name args).2.calls →
        calls = w.calls ∨ calls = w.calls ++ [.FindClass c._classPath] ∨
        ∃ r, calls = w.calls ++ [.FindClass c._classPath, .NewGlobalRef r, .DeleteLocalRef r])) ∧
    ((JavaClass.getJClass rt w k).1 = nullptr →
      (JavaClass.staticField rt w k name d).1 = d ∧
      (JavaClass.staticCall rt w k name d args).1 = d ∧
      (JavaClass.newObject rt w k args).1 = JavaObject.ofJObject nullptr ∧
      (∀ calls, calls = (JavaClass.staticField rt w k name d).2.2.2.calls
          ∨ calls = (JavaClass.staticCall rt w k name d args).2.2.2.calls
          ∨ calls = (JavaClass.staticCallVoid rt w k name args).2.calls
          ∨ calls = (JavaClass.newObject rt w k args).2.2.calls →
        calls = w.calls ∨ calls = w.calls ++ [.FindClass k._classPath] ∨
        ∃ r, calls = w.calls ++ [.FindClass k._classPath, .NewGlobalRef r, .DeleteLocalRef r])) ∧
    ((j.g_key ≠ nullptr → Jni.getEnv_full vm j = (j.g_key, j)) ∧
      (j.g_key = nullptr → j._jvm = nullptr → Jni.getEnv_full vm j = (nullptr, j)) ∧
      ((Jni.getEnv_full vm j).1 ≠ nullptr →
        (Jni.getEnv_full vm j).2.g_key = (Jni.getEnv_full vm j).1 ∧
        Jni.getEnv_full vm (Jni.getEnv_full vm j).2 = Jni.getEnv_full vm j) ∧
      ((Jni.getEnv_full vm j).2.vmCalls = j.vmCalls ∨
        (Jni.getEnv_full vm j).2.vmCalls = j.vmCalls ++ [.GetEnv JNI_VERSION_1_4] ∨
        (Jni.getEnv_full vm j).2.vmCalls
          = j.vmCalls ++ [.GetEnv JNI_VERSION_1_4, .AttachCurrentThread])) := by
  have hg := JavaClass_getClass_falsy rt w P
  have hs := Jni_getEnv_full_settled vm j
  refine ⟨⟨rfl, rfl, hg.2.1, hg.2.2.1, hg.2.2.2, hg.1, rfl, rfl⟩, ?_, ?_, ?_, ?_,
    hs.1, hs.2.1, hs.2.2, Jni_getEnv_full_vmCalls vm j⟩
  · obtain ⟨e, t, w1, hc, hw⟩ := JavaObject_checkAndGetEnv_null rt w JavaClass.null
    have hw1 : w1 = w := by
      rcases hw with hw | hw
      · exact hw
      · rw [hw, JavaClass_getJClass_null]
    subst hw1
    have hc' : JavaObject.checkAndGetEnv rt w1 (JavaObject.ofJObject nullptr)
        = (.error e, t, w1) := hc
    rw [JavaObject_field_check_error rt w1 w1 _ t name d e hc',
      JavaObject_call_check_error rt w1 w1 _ t name d args e hc',
      JavaObject_callVoid_check_error rt w1 w1 _ t name args e hc']
    exact ⟨rfl, rfl, rfl, rfl, rfl⟩
  · obtain ⟨e, hc⟩ := JavaClass_checkAndGetEnv_null rt w
    rw [JavaClass_staticField_check_error rt w w _ _ name d e hc,
      JavaClass_staticCall_check_error rt w w _ _ name d args e hc,
      JavaClass_staticCallVoid_check_error rt w w _ _ name args e hc,
      JavaClass_newObject_check_error rt w w _ _ args e hc]
    exact ⟨rfl, rfl, rfl, rfl, rfl, rfl, rfl⟩
  · obtain ⟨e, t, w1, hc, hw⟩ := JavaObject_checkAndGetEnv_null rt w c
    have hc' : JavaObject.checkAndGetEnv rt w (JavaObject.ofJObjectClass nullptr c)
        = (.error e, t, w1) := hc
    rw [JavaObject_field_check_error rt w w1 _ t name d e hc',
      JavaObject_call_check_error rt w w1 _ t name d args e hc',
      JavaObject_callVoid_check_error rt w w1 _ t name args e hc']
    refine ⟨rfl, rfl, ?_⟩
    intro calls hcalls
    have := nullObject_accessor_calls rt w w1 c e hw
    rcases hcalls with h | h | h <;> (rw [h]; exact this)
  · intro hk
    obtain ⟨e, t, w1, hc, hw⟩ := JavaClass_checkAndGetEnv_unresolved rt w k hk
    rw [JavaClass_staticField_check_error rt w w1 _ t name d e hc,
      JavaClass_staticCall_check_error rt w w1 _ t name d args e hc,
      JavaClass_staticCallVoid_check_error rt w w1 _ t name args e hc,
      JavaClass_newObject_check_error rt w w1 _ t args e hc]
    refine ⟨rfl, rfl, rfl, ?_⟩
    intro calls hcalls
    have := nullObject_accessor_calls rt w w1 k e hw
    rcases hcalls with h | h | h | h <;> (rw [h]; exact this)

/-- Witness of C4 (amended) on the small runtime: `getClass` without an
environment and `getClass` of a class that does not exist return the null
class wrapper; `getClass` of `java/lang/Integer` where no global reference
can be created returns the wrapper without handle that keeps the path, and
`staticField` on it, the class still being impossible to pin, returns the
default; on the thread that `Jni::getEnv` has attached, a second `Jni::getEnv`
returns the environment held and leaves everything as it is. -/
theorem null_wrappers_return_default_witness :
    (JavaClass.getClass MiniJvm.detached MiniJvm.start "java/lang/String").1 = JavaClass.null ∧
    (JavaClass.getClass MiniJvm.rt MiniJvm.start "no/such/Class").1 = JavaClass.null ∧
    (JavaClass.getClass MiniJvm.exhausted MiniJvm.start "java/lang/Integer").1
      = ⟨"java/lang/Integer", nullptr⟩ ∧
    (JavaClass.staticField MiniJvm.exhausted
        (JavaClass.getClass MiniJvm.exhausted MiniJvm.start "java/lang/Integer").2
        ⟨"java/lang/Integer", nullptr⟩ "MAX_VALUE" (.prim .jint 0)).1 = .prim .jint 0 ∧
    Jni.getEnv_full MiniJvm.vm (Jni.getEnv_full MiniJvm.vm MiniJvm.newThread).2
      = ((Jni.getEnv_full MiniJvm.vm MiniJvm.newThread).2.g_key,
          (Jni.getEnv_full MiniJvm.vm MiniJvm.newThread).2) :=
  ⟨(null_wrappers_return_default MiniJvm.detached MiniJvm.start "" (.bool false) [] ""
      "java/lang/String" JavaClass.null JavaClass.null MiniJvm.vm MiniJvm.newThread).1.2.2.1
      (by decide),
   (null_wrappers_return_default MiniJvm.rt MiniJvm.start "" (.bool false) [] ""
      "no/such/Class" JavaClass.null JavaClass.null MiniJvm.vm MiniJvm.newThread).1.2.2.2.1
      ⟨"Class not found: no/such/Class"⟩ (by rfl),
   (null_wrappers_return_default MiniJvm.exhausted MiniJvm.start "" (.bool false) [] ""
      "java/lang/Integer" JavaClass.null JavaClass.null MiniJvm.vm
      MiniJvm.newThread).1.2.2.2.2.1 4 (by decide) (by rfl) (by decide),
   ((null_wrappers_return_default MiniJvm.exhausted
      (JavaClass.getClass MiniJvm.exhausted MiniJvm.start "java/lang/Integer").2
      "MAX_VALUE" (.prim .jint 0) [] "" "" JavaClass.null
      ⟨"java/lang/Integer", nullptr⟩ MiniJvm.vm MiniJvm.newThread).2.2.2.2.1 (by decide)).1,
   ((null_wrappers_return_default MiniJvm.rt MiniJvm.start "" (.bool false) [] "" ""
      JavaClass.null JavaClass.null MiniJvm.vm
      (Jni.getEnv_full MiniJvm.vm MiniJvm.newThread).2).2.2.2.2.2.1 (by decide))⟩

/-! ## C5: class path from a handle -/

/-- C5 (the code at the failing input): on the small runtime the class
wrapper that `getClass("java/lang/String")` returns reports the descriptor
`Ljava/lang/String;`, while the class wrapper built only from the handle this
path resolves to takes its path from `Class.getName()`, the binary name with
dots, unchanged: it reports the path `java.lang.String` and the descriptor
`Ljava.lang.String;`. -/
theorem class_path_from_handle_has_dots :
    MiniJvm.stringClass.1 = ⟨"java/lang/String", 3⟩ ∧
    MiniJvm.stringClassOfHandle.1 = ⟨"", 3⟩ ∧
    (JavaClass.getTypeSignature MiniJvm.rt MiniJvm.stringClassOfHandle.2
        MiniJvm.stringClass.1).1 = "Ljava/lang/String;" ∧
    (JavaClass.getClassPath MiniJvm.rt MiniJvm.stringClassOfHandle.2
        MiniJvm.stringClassOfHandle.1).1 = "java.lang.String" ∧
    (JavaClass.getTypeSignature MiniJvm.rt MiniJvm.stringClassOfHandle.2
        MiniJvm.stringClassOfHandle.1).1 = "Ljava.lang.String;" ∧
    (JavaClass.getTypeSignature MiniJvm.rt MiniJvm.stringClassOfHandle.2
        MiniJvm.stringClassOfHandle.1).2.2.logged = [] := by
  decide

/-! ## C6: the constructor toJString uses -/

/-- C6 (the code at the failing input): the JNI calls of `toJString("hello")`
on the small runtime.  The charset name `UTF-8` is created (`NewStringUTF`)
and released (`DeleteLocalRef 101`), but the constructor looked up is
`<init>` with the signature `([B)V`, and `NewObjectV` receives the byte array
alone.  For the empty text the only call is `NewStringUTF("")`.  In every
state of every runtime the signature that `newObject(byteArray)` derives is
`([B)V`. -/
theorem toJString_calls :
    (toJString MiniJvm.rt MiniJvm.start "hello").2.calls =
      [.FindClass "java/lang/String", .NewGlobalRef 3, .NewByteArray 5,
       .NewStringUTF "UTF-8", .SetByteArrayRegion 100 0 5 "hello",
       .GetMethodID 3 "<init>" "([B)V", .NewObjectV 3 30 [.ref 100],
       .DeleteLocalRef 101, .DeleteLocalRef 100] ∧
    (toJString MiniJvm.rt MiniJvm.start "").2.calls = [.NewStringUTF ""] ∧
    (∀ (rt : Runtime σ) (w : World σ) (byteArray : jobject),
      MethodSignature.getVoid rt w [.primArray .jbyteArray byteArray] = ("([B)V", w)) := by
  refine ⟨by decide, by decide, ?_⟩
  intro rt w byteArray
  rfl

/-! ## C7: round trip of a text -/

/-- C7 (the code at the failing input): on a platform whose default charset
is ISO-8859-1 the text `é` (the bytes C3 A9) does not come back from
`fromJString(toJString(s))`: the string is built with `new String(byte[])`,
which decodes the two bytes as two characters, and the runtime reports no
failure.  The same text comes back where the default charset is UTF-8, and
ASCII text comes back on both. -/
theorem round_trip_depends_on_default_charset :
    (fromJStringObject MiniJvm.rtLatin1 (toJString MiniJvm.rtLatin1 MiniJvm.start "é").2
        (toJString MiniJvm.rtLatin1 MiniJvm.start "é").1 "").1 = "Ã©" ∧
    (fromJStringObject MiniJvm.rtLatin1 (toJString MiniJvm.rtLatin1 MiniJvm.start "é").2
        (toJString MiniJvm.rtLatin1 MiniJvm.start "é").1 "").1 ≠ "é" ∧
    (fromJStringObject MiniJvm.rtLatin1 (toJString MiniJvm.rtLatin1 MiniJvm.start "é").2
        (toJString MiniJvm.rtLatin1 MiniJvm.start "é").1 "").2.pending = false ∧
    (fromJStringObject MiniJvm.rtLatin1 (toJString MiniJvm.rtLatin1 MiniJvm.start "é").2
        (toJString MiniJvm.rtLatin1 MiniJvm.start "é").1 "").2.logged = [] ∧
    (fromJStringObject MiniJvm.rt (toJString MiniJvm.rt MiniJvm.start "é").2
        (toJString MiniJvm.rt MiniJvm.start "é").1 "").1 = "é" ∧
    (fromJStringObject MiniJvm.rtLatin1 (toJString MiniJvm.rtLatin1 MiniJvm.start "hello").2
        (toJString MiniJvm.rtLatin1 MiniJvm.start "hello").1 "").1 = "hello" ∧
    (fromJStringObject MiniJvm.rtLatin1 (toJString MiniJvm.rtLatin1 MiniJvm.start "").2
        (toJString MiniJvm.rtLatin1 MiniJvm.start "").1 "").1 = "" := by
  decide

/-! ## C8: what newObject returns on failure -/

/-- The object wrapper of a null handle has no class: it reports the default
class path and asks the runtime nothing. -/
theorem JavaObject_getClassPath_nullptr (rt : Runtime σ) (w : World σ) :
    JavaObject.getClassPath rt w (JavaObject.ofJObject nullptr)
      = ("java/lang/Object", JavaObject.ofJObject nullptr, w) := by
  have h : JavaObject.getJClass rt w (JavaObject.ofJObject nullptr)
      = (nullptr, JavaObject.ofJObject nullptr, w) := by
    have := JavaObject_getJClass_nullObject rt w JavaClass.null
    simp only [JavaObject.returnJClass, JavaClass_getJClass_null] at this
    exact this
  simp only [JavaObject.getClassPath, h]
  simp only [JavaObject.ofJObject, JavaClass_getClassPath_null]

theorem JavaObject_getTypeSignature_nullptr (rt : Runtime σ) (w : World σ) :
    JavaObject.getTypeSignature rt w (JavaObject.ofJObject nullptr)
      = ("Ljava/lang/Object;", JavaObject.ofJObject nullptr, w) := by
  have h : JavaObject.getJClass rt w (JavaObject.ofJObject nullptr)
      = (nullptr, JavaObject.ofJObject nullptr, w) := by
    have := JavaObject_getJClass_nullObject rt w JavaClass.null
    simp only [JavaObject.returnJClass, JavaClass_getJClass_null] at this
    exact this
  simp only [JavaObject.getTypeSignature, h, JavaClass.getTypeSignature]
  simp only [JavaObject.ofJObject, JavaClass_getClassPath_null]
  rfl

theorem JavaClass_newObject_failsoft (rt : Runtime σ) (w : World σ) (this : JavaClass)
    (args : List Arg) (id : jmethodID) :
    let c := JavaClass.checkAndGetEnv rt w this
    let s := MethodSignature.getVoid rt c.2.2 args
    let j := JavaClass.getJClass rt s.2 c.2.1
    let m := env_util.getMethodId rt j.2.2 j.1 "<init>" s.1 false
    let a := makeArgs rt m.2 args
    let r := JavaClass._newObject rt a.2 j.2.1 id (a.1.map passArg)
    let out := JavaClass.newObject rt w this args
    (Jni.getEnv rt = nullptr ∨ (JavaClass.getJClass rt w this).1 = nullptr →
      out.1 = JavaObject.ofJObject nullptr) ∧
    (c.1 = .ok () →
      (JNIEnv.invoke rt j.2.2 (.GetMethodID j.1 "<init>" s.1)).1.ref = nullptr
        ∨ (m.1 = .ok id ∧ r.2.pending = true) →
      out.1 = JavaObject.ofJObject nullptr) := by
  intro c s j m a r out
  constructor
  · intro h
    have he : ∃ e, (JavaClass.checkAndGetEnv rt w this).1 = .error e := by
      rcases h with h | h
      · exact ⟨_, by rw [JavaClass_checkAndGetEnv_noEnv rt w this h]⟩
      · exact JavaClass_checkAndGetEnv_nullClass rt w this h
    rcases he with ⟨e, he⟩
    rcases hc : JavaClass.checkAndGetEnv rt w this with ⟨r1, t, w1⟩
    rw [hc] at he
    simp only at he
    subst he
    have hout : out = JavaClass.newObject rt w this args := rfl
    rw [hout, JavaClass_newObject_check_error rt w w1 this t args e hc]
  · intro hc h
    have hc' := except_ok_eta c hc
    have hout : out = JavaClass.newObject rt w this args := rfl
    rcases h with h | ⟨h1, h2⟩
    · obtain ⟨e, he⟩ := getMethodId_notFound rt j.2.2 j.1 "<init>" s.1 false (by simpa using h)
      have hm : m = (.error e, m.2) := by rw [← he]
      rw [hout]
      unfold JavaClass.newObject
      rw [show JavaClass.checkAndGetEnv rt w this = c from rfl, hc']
      simp only []
      rw [show MethodSignature.getVoid rt c.2.2 args = s from rfl]
      rw [show JavaClass.getJClass rt s.2 c.2.1 = j from rfl]
      rw [show env_util.getMethodId rt j.2.2 j.1 "<init>" s.1 false = m from rfl, hm]
    · have hm := except_ok_eta2 m id h1
      rw [hout]
      unfold JavaClass.newObject
      rw [show JavaClass.checkAndGetEnv rt w this = c from rfl, hc']
      simp only []
      rw [show MethodSignature.getVoid rt c.2.2 args = s from rfl]
      rw [show JavaClass.getJClass rt s.2 c.2.1 = j from rfl]
      rw [show env_util.getMethodId rt j.2.2 j.1 "<init>" s.1 false = m from rfl, hm]
      simp only []
      rw [show makeArgs rt m.2 args = a from rfl]
      rw [show JavaClass._newObject rt a.2 j.2.1 id (a.1.map passArg) = r from rfl]
      simp [JniException.checkException, JNIEnv.ExceptionCheck, h2]

/-- C8 (counterexample): on the small runtime `newObject(5)` on the class
wrapper of `java/lang/String` fails (there is no constructor `(I)V`); the
wrapper it returns has a null handle and reports the class path
`java/lang/Object` and the descriptor `Ljava/lang/Object;`, not those of the
class. -/
theorem newObject_failure_counterexample :
    MiniJvm.stringClass.1._classPath = "java/lang/String" ∧
    (JavaClass.newObject MiniJvm.rt MiniJvm.stringClass.2 MiniJvm.stringClass.1
        [.value (.prim .jint 5)]).1._jobject = nullptr ∧
    (JavaObject.getClassPath MiniJvm.rt
        (JavaClass.newObject MiniJvm.rt MiniJvm.stringClass.2 MiniJvm.stringClass.1
          [.value (.prim .jint 5)]).2.2
        (JavaClass.newObject MiniJvm.rt MiniJvm.stringClass.2 MiniJvm.stringClass.1
          [.value (.prim .jint 5)]).1).1 = "java/lang/Object" ∧
    (JavaObject.getTypeSignature MiniJvm.rt
        (JavaClass.newObject MiniJvm.rt MiniJvm.stringClass.2 MiniJvm.stringClass.1
          [.value (.prim .jint 5)]).2.2
        (JavaClass.newObject MiniJvm.rt MiniJvm.stringClass.2 MiniJvm.stringClass.1
          [.value (.prim .jint 5)]).1).1 ≠ "Ljava/lang/String;" := by
  decide

/-- C8 (amended): when `JavaClass::newObject` fails at any stage (no
environment, null class handle, no constructor for the derived signature, an
exception pending after construction) it returns the object wrapper of a
null handle, which carries no class: whatever the class path of the class
wrapper is, its handle is null, its `getClassPath` is `java/lang/Object` and
its `getTypeSignature` is `Ljava/lang/Object;`, in every state of the
runtime. -/
theorem newObject_failure_returns_null (rt : Runtime σ) (w : World σ) (cls : JavaClass)
    (args : List Arg) (id : jmethodID) :
    (let c := JavaClass.checkAndGetEnv rt w cls
     let s := MethodSignature.getVoid rt c.2.2 args
     let j := JavaClass.getJClass rt s.2 c.2.1
     let m := env_util.getMethodId rt j.2.2 j.1 "<init>" s.1 false
     let a := makeArgs rt m.2 args
     let r := JavaClass._newObject rt a.2 j.2.1 id (a.1.map passArg)
     let out := JavaClass.newObject rt w cls args
     (Jni.getEnv rt = nullptr ∨ (JavaClass.getJClass rt w cls).1 = nullptr →
       out.1 = JavaObject.ofJObject nullptr) ∧
     (c.1 = .ok () →
       (JNIEnv.invoke rt j.2.2 (.GetMethodID j.1 "<init>" s.1)).1.ref = nullptr
         ∨ (m.1 = .ok id ∧ r.2.pending = true) →
       out.1 = JavaObject.ofJObject nullptr)) ∧
    (JavaObject.ofJObject nullptr)._jobject = nullptr ∧
    (∀ (rt' : Runtime σ) (w' : World σ),
      (JavaObject.getClassPath rt' w' (JavaObject.ofJObject nullptr)).1 = "java/lang/Object" ∧
      (JavaObject.getTypeSignature rt' w' (JavaObject.ofJObject nullptr)).1
        = "Ljava/lang/Object;") :=
  ⟨JavaClass_newObject_failsoft rt w cls args id, rfl, fun rt' w' =>
    ⟨by rw [JavaObject_getClassPath_nullptr], by rw [JavaObject_getTypeSignature_nullptr]⟩⟩

/-- Witness of C8 (amended) on the small runtime: `newObject` without an
environment, on the null class wrapper, with arguments no constructor takes,
and with a byte array that does not exist (the constructor throws). -/
theorem newObject_failure_returns_null_witness :
    (JavaClass.newObject MiniJvm.detached MiniJvm.stringClass.2 MiniJvm.stringClass.1 []).1
      = JavaObject.ofJObject nullptr ∧
    (JavaClass.newObject MiniJvm.rt MiniJvm.start JavaClass.null []).1
      = JavaObject.ofJObject nullptr ∧
    (JavaClass.newObject MiniJvm.rt MiniJvm.stringClass.2 MiniJvm.stringClass.1
      [.value (.prim .jint 5)]).1 = JavaObject.ofJObject nullptr ∧
    (JavaClass.newObject MiniJvm.rt MiniJvm.stringClass.2 MiniJvm.stringClass.1
      [.primArray .jbyteArray 77]).1 = JavaObject.ofJObject nullptr :=
  ⟨(newObject_failure_returns_null MiniJvm.detached MiniJvm.stringClass.2 MiniJvm.stringClass.1
      [] 0).1.1 (Or.inl (by decide)),
   (newObject_failure_returns_null MiniJvm.rt MiniJvm.start JavaClass.null
      [] 0).1.1 (Or.inr (by decide)),
   (newObject_failure_returns_null MiniJvm.rt MiniJvm.stringClass.2 MiniJvm.stringClass.1
      [.value (.prim .jint 5)] 0).1.2 (by rfl) (Or.inl (by decide)),
   (newObject_failure_returns_null MiniJvm.rt MiniJvm.stringClass.2 MiniJvm.stringClass.1
      [.primArray .jbyteArray 77] 30).1.2 (by rfl) (Or.inr ⟨by rfl, by decide⟩)⟩

/-! ## C9: asType -/

/-- An object wrapper whose class wrapper holds a handle takes its class from
the class wrapper and asks the runtime nothing. -/
theorem JavaObject_getJClass_of_handle (rt : Runtime σ) (w : World σ) (this : JavaObject)
    (h : this._javaClass._jclazz ≠ nullptr) :
    JavaObject.getJClass rt w this = (this._javaClass._jclazz, this, w) := by
  simp [JavaObject.getJClass, JavaClass.eqNull, h, JavaObject.returnJClass,
    JavaClass_getJClass_of_handle rt w _ h]

/-- C9 (counterexample): on the small runtime, for the live string `hi` and
the null class wrapper (which reports the class path `java/lang/Object`),
`asType` keeps the instance handle, but the wrapper it returns reports the
class path `java.lang.String` and the descriptor `Ljava.lang.String;`: its
class is resolved from the instance. -/
theorem asType_null_class_counterexample :
    (MiniJvm.hi.1.asType JavaClass.null).getJObject = MiniJvm.hi.1.getJObject ∧
    (JavaClass.getClassPath MiniJvm.rt MiniJvm.hi.2 JavaClass.null).1 = "java/lang/Object" ∧
    (JavaObject.getClassPath MiniJvm.rt MiniJvm.hi.2
        (MiniJvm.hi.1.asType JavaClass.null)).1 = "java.lang.String" ∧
    (JavaClass.getTypeSignature MiniJvm.rt MiniJvm.hi.2 JavaClass.null).1
      = "Ljava/lang/Object;" ∧
    (JavaObject.getTypeSignature MiniJvm.rt MiniJvm.hi.2
        (MiniJvm.hi.1.asType JavaClass.null)).1 = "Ljava.lang.String;" := by
  decide

/-- C9 (amended): for every object wrapper `o` and every class wrapper `c`,
`o.asType(c)` holds the instance handle of `o` and the class wrapper `c`, and
is computed without the runtime (no type check); when `c` holds a class
handle, `getClassPath` and `getTypeSignature` of `o.asType(c)` report what `c`
reports, in every state of the runtime: the stored path `P` and `L` + `P` +
`;` when `c` stores a path. -/
theorem asType_reports_class (rt : Runtime σ) (w : World σ) (o : JavaObject) (c : JavaClass) :
    (o.asType c).getJObject = o.getJObject ∧
    (o.asType c)._javaClass = c ∧
    (c._jclazz ≠ nullptr →
      (JavaObject.getClassPath rt w (o.asType c)).1 = (JavaClass.getClassPath rt w c).1 ∧
      (JavaObject.getTypeSignature rt w (o.asType c)).1
        = (JavaClass.getTypeSignature rt w c).1) ∧
    (c._jclazz ≠ nullptr → c._classPath ≠ "" →
      (JavaObject.getClassPath rt w (o.asType c)).1 = c._classPath ∧
      (JavaObject.getTypeSignature rt w (o.asType c)).1 = "L" ++ c._classPath ++ ";") := by
  have key : c._jclazz ≠ nullptr →
      (JavaObject.getClassPath rt w (o.asType c)).1 = (JavaClass.getClassPath rt w c).1 ∧
      (JavaObject.getTypeSignature rt w (o.asType c)).1
        = (JavaClass.getTypeSignature rt w c).1 := by
    intro h
    have hj : (o.asType c)._javaClass._jclazz ≠ nullptr := h
    simp only [JavaObject.getClassPath, JavaObject.getTypeSignature,
      JavaObject_getJClass_of_handle rt w _ hj]
    exact ⟨rfl, rfl⟩
  refine ⟨rfl, rfl, key, ?_⟩
  intro h hp
  rw [(key h).1, (key h).2]
  simp only [JavaClass.getTypeSignature, JavaClass_getClassPath_of_path rt w c hp]
  exact ⟨trivial, trivial⟩

/-- Witness of C9 (amended) on the small runtime: the live string `hi`
reinterpreted as `java/lang/Integer`. -/
theorem asType_reports_class_witness :
    (JavaObject.getClassPath MiniJvm.rt MiniJvm.hi.2
        (MiniJvm.hi.1.asType MiniJvm.integer.1)).1 = "java/lang/Integer" ∧
    (JavaObject.getTypeSignature MiniJvm.rt MiniJvm.hi.2
        (MiniJvm.hi.1.asType MiniJvm.integer.1)).1 = "Ljava/lang/Integer;" :=
  (asType_reports_class MiniJvm.rt MiniJvm.hi.2 MiniJvm.hi.1 MiniJvm.integer.1).2.2.2
    (by decide) (by decide)

/-! ## C10: typed null -/

/-- An object wrapper with a null instance handle and a stored class path is
a typed null and stays one: it reports the stored path, whatever the class
handle is and whatever the runtime answers. -/
theorem typedNull_getClassPath (rt : Runtime σ) (w : World σ) (P : String) (h : jclass)
    (hP : P ≠ "") :
    (JavaObject.getClassPath rt w ⟨nullptr, ⟨P, h⟩⟩).1 = P ∧
    (JavaObject.getClassPath rt w ⟨nullptr, ⟨P, h⟩⟩).2.1._jobject = nullptr ∧
    (JavaObject.getClassPath rt w ⟨nullptr, ⟨P, h⟩⟩).2.1._javaClass._classPath = P := by
  have hc := JavaClass_getJClass_classPath rt w ⟨P, h⟩
  have hne : (JavaClass.getJClass rt w ⟨P, h⟩).2.1._classPath ≠ "" := by
    rw [hc]
    exact hP
  simp only [JavaObject.getClassPath, JavaObject_getJClass_nullObject, JavaObject.returnJClass,
    JavaClass_getClassPath_of_path rt _ _ hne]
  simp [hc]

theorem typedNull_getTypeSignature (rt : Runtime σ) (w : World σ) (P : String) (h : jclass)
    (hP : P ≠ "") :
    (JavaObject.getTypeSignature rt w ⟨nullptr, ⟨P, h⟩⟩).1 = "L" ++ P ++ ";" ∧
    (JavaObject.getTypeSignature rt w ⟨nullptr, ⟨P, h⟩⟩).2.1._jobject = nullptr ∧
    (JavaObject.getTypeSignature rt w ⟨nullptr, ⟨P, h⟩⟩).2.1._javaClass._classPath = P := by
  have hc := JavaClass_getJClass_classPath rt w ⟨P, h⟩
  have hne : (JavaClass.getJClass rt w ⟨P, h⟩).2.1._classPath ≠ "" := by
    rw [hc]
    exact hP
  simp only [JavaObject.getTypeSignature, JavaObject_getJClass_nullObject,
    JavaObject.returnJClass, JavaClass.getTypeSignature,
    JavaClass_getClassPath_of_path rt _ _ hne]
  simp [hc]

/-- C10: for every non-empty class path `P`, `JavaObject::null(P)` is a typed
null: its handle is null, it converts to `false` and compares equal to
`nullptr`, and in every state of every runtime `getClassPath` returns `P` and
`getTypeSignature` returns `L` + `P` + `;`.  The wrapper these calls leave is
again a null-handle wrapper storing `P` (with whatever class handle `h` was
resolved), and such a wrapper reports `P` as well, so the answer stays after
any number of calls. -/
theorem typed_null_reports_class (rt : Runtime σ) (w : World σ) (P : String) (h : jclass)
    (hP : P ≠ "") :
    (JavaObject.null P)._jobject = nullptr ∧
    (JavaObject.null P).toBool = false ∧
    (JavaObject.null P).eqNull = true ∧
    (JavaObject.getClassPath rt w (JavaObject.null P)).1 = P ∧
    (JavaObject.getTypeSignature rt w (JavaObject.null P)).1 = "L" ++ P ++ ";" ∧
    JavaObject.null P = ⟨nullptr, ⟨P, nullptr⟩⟩ ∧
    ((JavaObject.getClassPath rt w ⟨nullptr, ⟨P, h⟩⟩).1 = P ∧
      (JavaObject.getClassPath rt w ⟨nullptr, ⟨P, h⟩⟩).2.1._jobject = nullptr ∧
      (JavaObject.getClassPath rt w ⟨nullptr, ⟨P, h⟩⟩).2.1._javaClass._classPath = P) ∧
    ((JavaObject.getTypeSignature rt w ⟨nullptr, ⟨P, h⟩⟩).1 = "L" ++ P ++ ";" ∧
      (JavaObject.getTypeSignature rt w ⟨nullptr, ⟨P, h⟩⟩).2.1._jobject = nullptr ∧
      (JavaObject.getTypeSignature rt w ⟨nullptr, ⟨P, h⟩⟩).2.1._javaClass._classPath = P) :=
  ⟨rfl, rfl, rfl, (typedNull_getClassPath rt w P nullptr hP).1,
    (typedNull_getTypeSignature rt w P nullptr hP).1, rfl,
    typedNull_getClassPath rt w P h hP, typedNull_getTypeSignature rt w P h hP⟩

/-- Witness of C10 on the small runtime: the typed null of a class that
resolves, of a class that does not, and without an environment. -/
theorem typed_null_reports_class_witness :
    (JavaObject.getClassPath MiniJvm.rt MiniJvm.start
        (JavaObject.null "java/lang/String")).1 = "java/lang/String" ∧
    (JavaObject.getTypeSignature MiniJvm.rt MiniJvm.start
        (JavaObject.null "no/such/Class")).1 = "L" ++ "no/such/Class" ++ ";" ∧
    (JavaObject.getTypeSignature MiniJvm.detached MiniJvm.start
        (JavaObject.null "java/lang/String")).1 = "L" ++ "java/lang/String" ++ ";" :=
  ⟨(typed_null_reports_class MiniJvm.rt MiniJvm.start "java/lang/String" 0 (by decide)).2.2.2.1,
   (typed_null_reports_class MiniJvm.rt MiniJvm.start "no/such/Class" 0 (by decide)).2.2.2.2.1,
   (typed_null_reports_class MiniJvm.detached MiniJvm.start "java/lang/String" 0
      (by decide)).2.2.2.2.1⟩

/-! ## The instances used inside the library agree with the templates -/

/-- `JavaObject.call_string` is `JavaObject.call` at a `std::string` default
and an empty argument pack. -/
theorem JavaObject_call_string_eq (rt : Runtime σ) (w : World σ) (this : JavaObject)
    (name d : String) :
    JavaObject.call rt w this name (.string d) []
      = (.string (JavaObject.call_string rt w this name d).1, .string d,
          (JavaObject.call_string rt w this name d).2.1,
          (JavaObject.call_string rt w this name d).2.2) := by
  unfold JavaObject.call JavaObject.call_string
  rcases JavaObject.checkAndGetEnv rt w this with ⟨_ | _, t, w1⟩
  · rfl
  · simp only [MethodSignature.get, TypeSignature.get, MethodSignature.getSigned,
      MethodSignature.build, makeArgs, JavaObject._call, JavaObject.__call, adaptArgs,
      List.map_nil, Value.type, ReturnType.typeName, ReturnType.finish]
    rcases env_util.getMethodId rt (JavaObject.getJClass rt w1 t).2.2
      (JavaObject.getJClass rt w1 t).1 name ("" ++ "(" ++ ")" ++ TypeSignature.get_T .string)
      false with ⟨_ | _, w2⟩
    · rfl
    · simp only []
      split <;> rfl

/-- `JavaClass.newObject_jbyteArray` is `JavaClass.newObject` at one argument
of type `jbyteArray`. -/
theorem JavaClass_newObject_jbyteArray_eq (rt : Runtime σ) (w : World σ) (this : JavaClass)
    (byteArray : jobject) :
    JavaClass.newObject rt w this [.primArray .jbyteArray byteArray]
      = JavaClass.newObject_jbyteArray rt w this byteArray := by
  unfold JavaClass.newObject JavaClass.newObject_jbyteArray
  rcases JavaClass.checkAndGetEnv rt w this with ⟨_ | _, t, w1⟩
  · rfl
  · simp only [makeArgs, makeArg, List.map, passArg]

/-! ## Worked signatures -/

/-- `MethodSignature::getSigned` for no argument, one argument and several
arguments, among them a typed null and a reference array. -/
theorem MethodSignature_examples :
    (MethodSignature.getSigned MiniJvm.rt MiniJvm.start "I" []).1 = "()I" ∧
    (MethodSignature.getVoid MiniJvm.rt MiniJvm.start [.value (.string "x")]).1
      = "(Ljava/lang/String;)V" ∧
    (MethodSignature.get MiniJvm.rt MiniJvm.start (.bool false)
      [.value (.prim .jint 1), .primArray .jbyteArray 0, .value (.prim .jlong 2),
       .value (.JavaObject (JavaObject.null "java/util/List")),
       .value (.JavaArray (JavaArray.null "java/lang/String"))]).1
      = "(I[BJLjava/util/List;[Ljava/lang/String;)Z" := by
  decide

/-! ## The accessors on the small runtime when nothing fails -/

/-- When no stage fails the accessors return what the runtime produced, not
the default: `hi.length()`, `hi.charAt(1)`, `Integer.parseInt("12")`,
`Integer.MAX_VALUE`, and the round trip of `hi` through `fromJString`. -/
theorem accessors_succeed_on_small_runtime :
    (JavaObject.call MiniJvm.rt MiniJvm.hi.2 MiniJvm.hi.1 "length"
        (.prim .jint (-1)) []).1 = .prim .jint 2 ∧
    (JavaObject.call MiniJvm.rt MiniJvm.hi.2 MiniJvm.hi.1 "charAt"
        (.prim .jchar 63) [.value (.prim .jint 1)]).1 = .prim .jchar 105 ∧
    (JavaClass.staticCall MiniJvm.rt MiniJvm.integer.2 MiniJvm.integer.1 "parseInt"
        (.prim .jint (-1)) [.value (.string "12")]).1 = .prim .jint 12 ∧
    (JavaClass.staticField MiniJvm.rt MiniJvm.integer.2 MiniJvm.integer.1 "MAX_VALUE"
        (.prim .jint 0)).1 = .prim .jint 2147483647 ∧
    (fromJStringObject MiniJvm.rt MiniJvm.hi.2 MiniJvm.hi.1 "").1 = "hi" := by
  decide

/-! ## C11: the descriptor of a reference array -/

theorem array_descriptor_ne_object (E : String) :
    "[L" ++ E ++ ";" ≠ TypeSignature.get_T .jobject := by
  intro h
  have := congrArg String.data h
  simp [TypeSignature.get_T] at this

/-- C11 (counterexample): the element class path `E` = `""`, which is what
the constructor `JavaArray(jobject)` stores.  The reference-array wrapper
reports `[L;`, for a live handle and for `JavaArray<JavaObject>::null("")`.
The class wrapper with the path `""` is the class wrapper without path; on
the small runtime its descriptor is `Ljava/lang/Object;`, not `L` + `E` + `;`,
and the descriptor of the array is not `[` followed by it. -/
theorem array_descriptor_empty_counterexample :
    JavaArray.ofJObject 102 = JavaArray.ofJObjectPath 102 "" ∧
    (JavaArray.ofJObjectPath 102 "").getTypeSignature = "[L;" ∧
    (JavaArray.null "").getTypeSignature = "[L;" ∧
    JavaClass.ofPath "" = JavaClass.null ∧
    (JavaClass.getTypeSignature MiniJvm.rt MiniJvm.start (JavaClass.ofPath "")).1
      = "Ljava/lang/Object;" ∧
    ¬ (JavaClass.getTypeSignature MiniJvm.rt MiniJvm.start (JavaClass.ofPath "")).1
      = "L" ++ "" ++ ";" ∧
    ¬ (JavaArray.null "").getTypeSignature
      = "[" ++ (JavaClass.getTypeSignature MiniJvm.rt MiniJvm.start (JavaClass.ofPath "")).1 := by
  decide

/-- C11 (amended): for every element class path `E` and every instance handle
(live or null) the descriptor `TypeSignature::get` computes for the
reference-array wrapper is `[L` + `E` + `;`, whether the wrapper is a default
value (bound by reference) or an element of an argument pack; for every
non-empty `E` this is `[` followed by the descriptor `L` + `E` + `;` that a
class wrapper storing the path `E` reports; it differs from the generic
object descriptor, and it is what `MethodSignature::get` and
`MethodSignature::getVoid` put into the signature for such a default value or
argument.  For the empty path, which `JavaArray(jobject)` stores, the array
reports `[L;`, while the class wrapper with the empty path reports
`Ljava/lang/Object;` in every state of every runtime. -/
theorem array_descriptor (rt : Runtime σ) (w : World σ) (E : String) (obj : jobject)
    (h : jclass) (args : List Arg) :
    (JavaArray.ofJObjectPath obj E).getTypeSignature = "[L" ++ E ++ ";" ∧
    (JavaArray.null E).getTypeSignature = "[L" ++ E ++ ";" ∧
    TypeSignature.get rt w (.JavaArray (JavaArray.ofJObjectPath obj E))
      = ("[L" ++ E ++ ";", .JavaArray (JavaArray.ofJObjectPath obj E), w) ∧
    TypeSignature.getArg rt w (.value (.JavaArray (JavaArray.ofJObjectPath obj E)))
      = ("[L" ++ E ++ ";", w) ∧
    (E ≠ "" →
      (JavaClass.getTypeSignature rt w ⟨E, h⟩).1 = "L" ++ E ++ ";" ∧
      (JavaArray.ofJObjectPath obj E).getTypeSignature
        = "[" ++ (JavaClass.getTypeSignature rt w ⟨E, h⟩).1) ∧
    "[L" ++ E ++ ";" ≠ TypeSignature.get_T .jobject ∧
    (MethodSignature.get rt w (.JavaArray (JavaArray.ofJObjectPath obj E)) args).1
      = "(" ++ String.join (argDescriptors rt w args) ++ ")" ++ ("[L" ++ E ++ ";") ∧
    (MethodSignature.getVoid rt w
        (.value (.JavaArray (JavaArray.ofJObjectPath obj E)) :: args)).1
      = "(" ++ String.join (("[L" ++ E ++ ";") :: argDescriptors rt w args) ++ ")" ++ "V" ∧
    JavaArray.ofJObject obj = JavaArray.ofJObjectPath obj "" ∧
    (JavaArray.ofJObject obj).getTypeSignature = "[L;" ∧
    (JavaClass.getTypeSignature rt w (JavaClass.ofPath "")).1 = "Ljava/lang/Object;" := by
  refine ⟨rfl, rfl, rfl, rfl, ?_, array_descriptor_ne_object E, ?_, ?_, rfl, rfl, ?_⟩
  · intro hE
    have hp : (⟨E, h⟩ : JavaClass)._classPath ≠ "" := hE
    have hs : (JavaClass.getTypeSignature rt w ⟨E, h⟩).1 = "L" ++ E ++ ";" := by
      simp only [JavaClass.getTypeSignature, JavaClass_getClassPath_of_path rt w _ hp]
    rw [hs]
    refine ⟨rfl, ?_⟩
    apply String.ext
    simp [JavaArray.getTypeSignature, JavaArray.getElementClassPath, JavaArray.ofJObjectPath]
  · simp only [MethodSignature.get, TypeSignature.get, MethodSignature.getSigned, build_eq]
    rfl
  · simp only [MethodSignature.getVoid, MethodSignature.getSigned, build_eq]
    rfl
  · have hn : JavaClass.ofPath "" = JavaClass.null := rfl
    simp only [JavaClass.getTypeSignature, hn, JavaClass_getClassPath_null]
    rfl

/-- Witness of C11 (amended) on the small runtime: the class wrapper of
`java/lang/String` and the array of strings. -/
theorem array_descriptor_witness :
    (JavaClass.getTypeSignature MiniJvm.rt MiniJvm.start ⟨"java/lang/String", 3⟩).1
      = "L" ++ "java/lang/String" ++ ";" ∧
    (JavaArray.ofJObjectPath 0 "java/lang/String").getTypeSignature
      = "[" ++ (JavaClass.getTypeSignature MiniJvm.rt MiniJvm.start
          ⟨"java/lang/String", 3⟩).1 :=
  (array_descriptor MiniJvm.rt MiniJvm.start "java/lang/String" 0 3 []).2.2.2.2.1 (by decide)

/-! ## C12: checkException -/

/-- C12: `JniException::checkException` raises exactly when a failure is
pending on entry; when it raises, the failure has been described once and
cleared and nothing else has changed; in every case no failure is pending
afterwards; when none was pending the state is left as it was. -/
theorem checkException_spec (w : World σ) :
    ((∃ e, (JniException.checkException w).1 = .error e) ↔ w.pending = true) ∧
    (w.pending = true →
      (JniException.checkException w).1 = .error ⟨"JNI ExceptionCheck found exception."⟩ ∧
      (JniException.checkException w).2
        = { w with described := w.described + 1, pending := false }) ∧
    (JniException.checkException w).2.pending = false ∧
    (w.pending = false → JniException.checkException w = (.ok (), w)) := by
  unfold JniException.checkException JNIEnv.ExceptionCheck JNIEnv.ExceptionClear
    JNIEnv.ExceptionDescribe
  cases hp : w.pending <;> simp [hp]

/-- Witness of C12 on the small runtime: the state a failed class lookup
leaves has a failure pending, the start state has none. -/
theorem checkException_spec_witness :
    ((JniException.checkException
        (env_util.findClass MiniJvm.rt MiniJvm.start "no/such/Class").2).1
      = .error ⟨"JNI ExceptionCheck found exception."⟩ ∧
     (JniException.checkException
        (env_util.findClass MiniJvm.rt MiniJvm.start "no/such/Class").2).2
      = { (env_util.findClass MiniJvm.rt MiniJvm.start "no/such/Class").2 with
          described := 1, pending := false }) ∧
    JniException.checkException MiniJvm.start = (.ok (), MiniJvm.start) :=
  ⟨(checkException_spec
      (env_util.findClass MiniJvm.rt MiniJvm.start "no/such/Class").2).2.1 (by decide),
   (checkException_spec MiniJvm.start).2.2.2 (by decide)⟩

/-! ## C14: the lookup helpers and the pending failure -/

/-- When the runtime answers a class lookup with `NULL`, `env_util::findClass`
throws before it reaches `checkException`: what the lookup left pending stays
pending, and nothing is described. -/
theorem findClass_null_keeps_pending (rt : Runtime σ) (w : World σ) (classPath : String)
    (henv : ¬ Jni.getEnv rt = nullptr)
    (h : (rt.step w.heap (.FindClass classPath)).1.ref = nullptr) :
    (env_util.findClass rt w classPath).1 = .error ⟨"Class not found: " ++ classPath⟩ ∧
    (env_util.findClass rt w classPath).2.pending
      = (w.pending || (rt.step w.heap (.FindClass classPath)).1.throws) ∧
    (env_util.findClass rt w classPath).2.described = w.described := by
  simp [env_util.findClass, JNIEnv.FindClass, JNIEnv.invoke, henv, h]

/-- The same for `env_util::getMethodId`. -/
theorem getMethodId_null_keeps_pending (rt : Runtime σ) (w : World σ) (clazz : jclass)
    (name sig : String) (henv : ¬ Jni.getEnv rt = nullptr)
    (h : (rt.step w.heap (.GetMethodID clazz name sig)).1.ref = nullptr) :
    (env_util.getMethodId rt w clazz name sig false).1
      = .error ⟨"Method `" ++ name ++ "` for `" ++ sig ++ "` not found."⟩ ∧
    (env_util.getMethodId rt w clazz name sig false).2.pending
      = (w.pending || (rt.step w.heap (.GetMethodID clazz name sig)).1.throws) ∧
    (env_util.getMethodId rt w clazz name sig false).2.described = w.described := by
  simp [env_util.getMethodId, JNIEnv.invoke, henv, h]

/-- The same for `env_util::getFieldId`. -/
theorem getFieldId_null_keeps_pending (rt : Runtime σ) (w : World σ) (clazz : jclass)
    (name sig : String) (henv : ¬ Jni.getEnv rt = nullptr)
    (h : (rt.step w.heap (.GetFieldID clazz name sig)).1.ref = nullptr) :
    (env_util.getFieldId rt w clazz name sig false).1
      = .error ⟨"Field `" ++ name ++ "` for `" ++ sig ++ "` not found."⟩ ∧
    (env_util.getFieldId rt w clazz name sig false).2.pending
      = (w.pending || (rt.step w.heap (.GetFieldID clazz name sig)).1.throws) ∧
    (env_util.getFieldId rt w clazz name sig false).2.described = w.described := by
  simp [env_util.getFieldId, JNIEnv.invoke, henv, h]

/-- C14 (the code at the failing input): on the small runtime, where a failed
lookup returns `NULL` and leaves an error pending as JNI documents it, each of
`env_util::findClass`, `env_util::getMethodId` and `env_util::getFieldId`
raises with the failure still pending and not described: the test for `NULL`
throws before `checkException` is reached.  The failure then meets the next
accessor: after `hi.call("size", -1)` failed, `hi.call("length", -1)` finds
its method, trips over the stale failure and returns the default; only the
call after that returns the length. -/
theorem lookup_failure_stays_pending :
    ((env_util.findClass MiniJvm.rt MiniJvm.start "no/such/Class").1
        = .error ⟨"Class not found: no/such/Class"⟩ ∧
      (env_util.findClass MiniJvm.rt MiniJvm.start "no/such/Class").2.pending = true ∧
      (env_util.findClass MiniJvm.rt MiniJvm.start "no/such/Class").2.described = 0) ∧
    ((env_util.getMethodId MiniJvm.rt MiniJvm.start 3 "size" "()I" false).1
        = .error ⟨"Method `size` for `()I` not found."⟩ ∧
      (env_util.getMethodId MiniJvm.rt MiniJvm.start 3 "size" "()I" false).2.pending = true ∧
      (env_util.getMethodId MiniJvm.rt MiniJvm.start 3 "size" "()I" false).2.described = 0) ∧
    ((env_util.getFieldId MiniJvm.rt MiniJvm.start 3 "count" "I" false).1
        = .error ⟨"Field `count` for `I` not found."⟩ ∧
      (env_util.getFieldId MiniJvm.rt MiniJvm.start 3 "count" "I" false).2.pending = true ∧
      (env_util.getFieldId MiniJvm.rt MiniJvm.start 3 "count" "I" false).2.described = 0) ∧
    ((JavaObject.call MiniJvm.rt MiniJvm.hi.2 MiniJvm.hi.1 "size"
        (.prim .jint (-1)) []).2.2.2.pending = true ∧
      (JavaObject.call MiniJvm.rt
        (JavaObject.call MiniJvm.rt MiniJvm.hi.2 MiniJvm.hi.1 "size"
          (.prim .jint (-1)) []).2.2.2
        MiniJvm.hi.1 "length" (.prim .jint (-1)) []).1 = .prim .jint (-1) ∧
      (JavaObject.call MiniJvm.rt
        (JavaObject.call MiniJvm.rt
          (JavaObject.call MiniJvm.rt MiniJvm.hi.2 MiniJvm.hi.1 "size"
            (.prim .jint (-1)) []).2.2.2
          MiniJvm.hi.1 "length" (.prim .jint (-1)) []).2.2.2
        MiniJvm.hi.1 "length" (.prim .jint (-1)) []).1 = .prim .jint 2) := by
  refine ⟨⟨by rfl, by decide, by decide⟩, ⟨by rfl, by decide, by decide⟩,
    ⟨by rfl, by decide, by decide⟩, by decide⟩

/-! ## C16: the declared class of a live object wrapper -/

/-- An object wrapper built from a live instance and a declared class path
loses the path at the first class resolution: the class wrapper holds no
handle, so `JavaObject::getJClass` takes it for a null class and replaces it by
the class wrapper of the runtime class of the instance, which stores no
path. -/
theorem JavaObject_getJClass_drops_declared_path (rt : Runtime σ) (w : World σ)
    (obj : jobject) (P : String) (henv : ¬ Jni.getEnv rt = nullptr) (hobj : obj ≠ nullptr)
    (hc : (rt.step w.heap (.GetObjectClass obj)).1.ref ≠ nullptr)
    (hp : (w.pending || (rt.step w.heap (.GetObjectClass obj)).1.throws) = false) :
    (JavaObject.getJClass rt w (JavaObject.ofJObjectPath obj P)).2.1._javaClass._classPath
      = "" := by
  have hpend : (JNIEnv.invoke rt w (.GetObjectClass obj)).2.pending = false := by
    simp only [JNIEnv.invoke, henv, if_false]
    exact hp
  have href : (JNIEnv.invoke rt w (.GetObjectClass obj)).1.ref ≠ nullptr := by
    simp only [JNIEnv.invoke, henv, if_false]
    exact hc
  simp only [JavaObject.getJClass, JavaObject.ofJObjectPath, JavaClass.ofPath, JavaClass.eqNull,
    toLocalRefSharedPtr, decide_True, if_true, ne_eq, hobj, not_false_eq_true, henv, if_false,
    JNIEnv.GetObjectClass, href, JniException.checkException, JNIEnv.ExceptionCheck, hpend,
    Bool.false_eq_true, JavaObject.returnJClass, JavaClass_getJClass_classPath,
    JavaClass.ofJClass]

/-- C16 (the code at the failing input): on the small runtime the live string
`hi`, wrapped with the declared class path `java/lang/Object`, does not keep
its declared class.  The first `getJClass` replaces the class wrapper by the
one of the runtime class (handle 3, no path); `getClassPath` returns
`java.lang.String` and `getTypeSignature` returns `Ljava.lang.String;`, which
is also what a method signature built from the wrapper as an argument
contains.  Without an environment the same wrapper reports the declared
path. -/
theorem declared_class_is_replaced :
    MiniJvm.hiAsObject._jobject ≠ nullptr ∧
    MiniJvm.hiAsObject._javaClass = ⟨"java/lang/Object", nullptr⟩ ∧
    (JavaObject.getJClass MiniJvm.rt MiniJvm.hi.2 MiniJvm.hiAsObject).2.1._javaClass
      = ⟨"", 3⟩ ∧
    (JavaObject.getClassPath MiniJvm.rt MiniJvm.hi.2 MiniJvm.hiAsObject).1
      = "java.lang.String" ∧
    (JavaObject.getTypeSignature MiniJvm.rt MiniJvm.hi.2 MiniJvm.hiAsObject).1
      = "Ljava.lang.String;" ∧
    (MethodSignature.getVoid MiniJvm.rt MiniJvm.hi.2
        [.value (.JavaObject MiniJvm.hiAsObject)]).1 = "(Ljava.lang.String;)V" ∧
    (JavaObject.getClassPath MiniJvm.detached MiniJvm.hi.2 MiniJvm.hiAsObject).1
      = "java/lang/Object" := by
  decide

/-! ## C15: JavaClass::getJClass caches the handle -/

/-- `JavaClass::getJClass` on a wrapper with a path and no handle, when an
environment is available: what the lookup and the pinning give. -/
theorem JavaClass_getJClass_unresolved (rt : Runtime σ) (w : World σ) (P : String)
    (henv : ¬ Jni.getEnv rt = nullptr) (hP : P ≠ "") :
    (∀ e, (env_util.findClass rt w P).1 = .error e →
      JavaClass.getJClass rt w ⟨P, nullptr⟩
        = (nullptr, ⟨P, nullptr⟩, e.log (env_util.findClass rt w P).2)) ∧
    (∀ clazz, (env_util.findClass rt w P).1 = .ok clazz →
      JavaClass.getJClass rt w ⟨P, nullptr⟩
        = ((toGlobalRefSharedPtr rt (env_util.findClass rt w P).2 clazz).1,
           ⟨P, (toGlobalRefSharedPtr rt (env_util.findClass rt w P).2 clazz).1⟩,
           JNIEnv.DeleteLocalRef rt
             (toGlobalRefSharedPtr rt (env_util.findClass rt w P).2 clazz).2 clazz)) := by
  constructor
  · intro e h
    rcases hf : env_util.findClass rt w P with ⟨r, w1⟩
    rw [hf] at h
    simp only at h
    subst h
    simp [JavaClass.getJClass, henv, hP, hf]
  · intro clazz h
    rcases hf : env_util.findClass rt w P with ⟨r, w1⟩
    rw [hf] at h
    simp only at h
    subst h
    simp [JavaClass.getJClass, henv, hP, hf]

/-- C15 (counterexample): on the small runtime that cannot create global
references the environment is available and `java/lang/String` resolves
(`FindClass` returns the class), yet the first `getJClass` of the wrapper of
this path returns null and leaves the wrapper without handle, and the second
call performs the class lookup again. -/
theorem getJClass_unpinned_counterexample :
    (env_util.findClass MiniJvm.exhausted MiniJvm.start "java/lang/String").1 = .ok 3 ∧
    (JavaClass.getJClass MiniJvm.exhausted MiniJvm.start
        (JavaClass.ofPath "java/lang/String")).1 = nullptr ∧
    (JavaClass.getJClass MiniJvm.exhausted MiniJvm.start
        (JavaClass.ofPath "java/lang/String")).2.1 = JavaClass.ofPath "java/lang/String" ∧
    (JavaClass.getJClass MiniJvm.exhausted MiniJvm.start
        (JavaClass.ofPath "java/lang/String")).2.2.calls
      = [.FindClass "java/lang/String", .NewGlobalRef 3, .DeleteLocalRef 3] ∧
    (JavaClass.getJClass MiniJvm.exhausted
        (JavaClass.getJClass MiniJvm.exhausted MiniJvm.start
          (JavaClass.ofPath "java/lang/String")).2.2
        (JavaClass.getJClass MiniJvm.exhausted MiniJvm.start
          (JavaClass.ofPath "java/lang/String")).2.1).2.2.calls
      = [.FindClass "java/lang/String", .NewGlobalRef 3, .DeleteLocalRef 3,
         .FindClass "java/lang/String", .NewGlobalRef 3, .DeleteLocalRef 3] := by
  refine ⟨by rfl, by decide, by decide, by decide, by decide⟩

/-- C15 (amended): for a class wrapper holding a path `P` and no handle,
`JavaClass::getJClass` is idempotent and cached.  With an environment, when
the lookup of `P` succeeds (`env_util::findClass` returns `clazz`) and the
handle can be pinned (`toGlobalRefSharedPtr` holds a reference), the first
call performs one class lookup (the JNI calls it adds are `FindClass(P)`,
`NewGlobalRef(clazz)`, `DeleteLocalRef(clazz)`), stores the pinned handle and
returns it, and a later call, in whatever state, returns this handle, asks the
runtime nothing and leaves the wrapper as it is.  The call returns null and
leaves the wrapper without handle when the environment is unavailable, when
the lookup fails, or when the handle cannot be pinned.  A wrapper with neither
path nor handle returns null without any lookup.  The stored path never
changes. -/
theorem getJClass_cached (rt : Runtime σ) (w w' : World σ) (P : String) (clazz : jclass)
    (this : JavaClass) :
    (¬ Jni.getEnv rt = nullptr → P ≠ "" →
      (env_util.findClass rt w P).1 = .ok clazz →
      (toGlobalRefSharedPtr rt (env_util.findClass rt w P).2 clazz).1 ≠ nullptr →
      (JavaClass.getJClass rt w ⟨P, nullptr⟩).1
        = (toGlobalRefSharedPtr rt (env_util.findClass rt w P).2 clazz).1 ∧
      (JavaClass.getJClass rt w ⟨P, nullptr⟩).2.1
        = ⟨P, (JavaClass.getJClass rt w ⟨P, nullptr⟩).1⟩ ∧
      (JavaClass.getJClass rt w ⟨P, nullptr⟩).2.2.calls
        = w.calls ++ [.FindClass P, .NewGlobalRef clazz, .DeleteLocalRef clazz] ∧
      JavaClass.getJClass rt w' (JavaClass.getJClass rt w ⟨P, nullptr⟩).2.1
        = ((JavaClass.getJClass rt w ⟨P, nullptr⟩).1,
           (JavaClass.getJClass rt w ⟨P, nullptr⟩).2.1, w')) ∧
    (Jni.getEnv rt = nullptr →
      JavaClass.getJClass rt w ⟨P, nullptr⟩ = (nullptr, ⟨P, nullptr⟩, w)) ∧
    (¬ Jni.getEnv rt = nullptr → P ≠ "" →
      (∀ e, (env_util.findClass rt w P).1 = .error e →
        (JavaClass.getJClass rt w ⟨P, nullptr⟩).1 = nullptr ∧
        (JavaClass.getJClass rt w ⟨P, nullptr⟩).2.1 = ⟨P, nullptr⟩) ∧
      ((env_util.findClass rt w P).1 = .ok clazz →
        (toGlobalRefSharedPtr rt (env_util.findClass rt w P).2 clazz).1 = nullptr →
        (JavaClass.getJClass rt w ⟨P, nullptr⟩).1 = nullptr ∧
        (JavaClass.getJClass rt w ⟨P, nullptr⟩).2.1 = ⟨P, nullptr⟩)) ∧
    JavaClass.getJClass rt w ⟨"", nullptr⟩ = (nullptr, ⟨"", nullptr⟩, w) ∧
    (JavaClass.getJClass rt w this).2.1._classPath = this._classPath := by
  refine ⟨?_, ?_, ?_, ?_, JavaClass_getJClass_classPath rt w this⟩
  · intro henv hP hf hg
    have heq := (JavaClass_getJClass_unresolved rt w P henv hP).2 clazz hf
    have hne := findClass_ok_ne rt w _ P clazz (except_ok_eta2 _ clazz hf)
    rw [heq]
    refine ⟨rfl, rfl, ?_, ?_⟩
    · have h1 := findClass_calls rt w P henv
      have h2 := toGlobalRefSharedPtr_calls rt (env_util.findClass rt w P).2 clazz henv hne
      simp only [JNIEnv.DeleteLocalRef, invoke_calls _ _ _ henv, h2, h1]
      simp
    · exact JavaClass_getJClass_of_handle rt w' _ hg
  · intro henv
    by_cases hP : P = ""
    · simp [JavaClass.getJClass, hP]
    · simp [JavaClass.getJClass, hP, henv]
  · intro henv hP
    constructor
    · intro e hf
      rw [(JavaClass_getJClass_unresolved rt w P henv hP).1 e hf]
      exact ⟨rfl, rfl⟩
    · intro hf hg
      rw [(JavaClass_getJClass_unresolved rt w P henv hP).2 clazz hf, hg]
      exact ⟨rfl, rfl⟩
  · simp [JavaClass.getJClass]

/-- Witness of C15 (amended) on the small runtime: the wrapper of the path
`java/lang/String` resolves to the handle 3 with one lookup and keeps it; the
wrapper of a path that names no class stays without handle; without an
environment nothing is asked. -/
theorem getJClass_cached_witness :
    ((JavaClass.getJClass MiniJvm.rt MiniJvm.start ⟨"java/lang/String", nullptr⟩).1
        = (toGlobalRefSharedPtr MiniJvm.rt
            (env_util.findClass MiniJvm.rt MiniJvm.start "java/lang/String").2 3).1 ∧
      (JavaClass.getJClass MiniJvm.rt MiniJvm.start ⟨"java/lang/String", nullptr⟩).2.1
        = ⟨"java/lang/String",
            (JavaClass.getJClass MiniJvm.rt MiniJvm.start ⟨"java/lang/String", nullptr⟩).1⟩ ∧
      (JavaClass.getJClass MiniJvm.rt MiniJvm.start ⟨"java/lang/String", nullptr⟩).2.2.calls
        = MiniJvm.start.calls
            ++ [.FindClass "java/lang/String", .NewGlobalRef 3, .DeleteLocalRef 3] ∧
      JavaClass.getJClass MiniJvm.rt MiniJvm.hi.2
          (JavaClass.getJClass MiniJvm.rt MiniJvm.start ⟨"java/lang/String", nullptr⟩).2.1
        = ((JavaClass.getJClass MiniJvm.rt MiniJvm.start ⟨"java/lang/String", nullptr⟩).1,
           (JavaClass.getJClass MiniJvm.rt MiniJvm.start ⟨"java/lang/String", nullptr⟩).2.1,
           MiniJvm.hi.2)) ∧
    JavaClass.getJClass MiniJvm.detached MiniJvm.start ⟨"java/lang/String", nullptr⟩
      = (nullptr, ⟨"java/lang/String", nullptr⟩, MiniJvm.start) ∧
    ((JavaClass.getJClass MiniJvm.rt MiniJvm.start ⟨"no/such/Class", nullptr⟩).1 = nullptr ∧
      (JavaClass.getJClass MiniJvm.rt MiniJvm.start ⟨"no/such/Class", nullptr⟩).2.1
        = ⟨"no/such/Class", nullptr⟩) ∧
    ((JavaClass.getJClass MiniJvm.exhausted MiniJvm.start ⟨"java/lang/String", nullptr⟩).1
        = nullptr ∧
      (JavaClass.getJClass MiniJvm.exhausted MiniJvm.start ⟨"java/lang/String", nullptr⟩).2.1
        = ⟨"java/lang/String", nullptr⟩) :=
  ⟨(getJClass_cached MiniJvm.rt MiniJvm.start MiniJvm.hi.2 "java/lang/String" 3
      JavaClass.null).1 (by decide) (by decide) (by rfl) (by decide),
   (getJClass_cached MiniJvm.detached MiniJvm.start MiniJvm.hi.2 "java/lang/String" 3
      JavaClass.null).2.1 (by decide),
   ((getJClass_cached MiniJvm.rt MiniJvm.start MiniJvm.hi.2 "no/such/Class" 3
      JavaClass.null).2.2.1 (by decide) (by decide)).1
      ⟨"Class not found: no/such/Class"⟩ (by rfl),
   ((getJClass_cached MiniJvm.exhausted MiniJvm.start MiniJvm.hi.2 "java/lang/String" 3
      JavaClass.null).2.2.1 (by decide) (by decide)).2 (by rfl) (by decide)⟩

/-! ## C13: how many diagnostics a failed lookup logs -/

theorem TypeSignature_get_of_plain (rt : Runtime σ) (w : World σ) (v : Value)
    (h : v.isJavaObject = false) : (TypeSignature.get rt w v).2 = (v, w) := by
  cases v <;> simp_all [TypeSignature.get, Value.isJavaObject]

theorem TypeSignature_getArg_of_plain (rt : Runtime σ) (w : World σ) (a : Arg)
    (h : a.isJavaObject = false) : (TypeSignature.getArg rt w a).2 = w := by
  cases a with
  | value v =>
    simp only [TypeSignature.getArg]
    rw [TypeSignature_get_of_plain rt w v h]
  | _ => rfl

theorem build_world_of_plain (rt : Runtime σ) (args : List Arg)
    (h : ∀ a ∈ args, a.isJavaObject = false) :
    ∀ (w : World σ) (os : String), (MethodSignature.build rt w os args).2 = w := by
  induction args with
  | nil =>
    intro w os
    rfl
  | cons a args ih =>
    intro w os
    simp only [MethodSignature.build]
    rw [ih (fun b hb => h b (List.mem_cons_of_mem a hb)),
      TypeSignature_getArg_of_plain rt w a (h a (List.mem_cons_self a args))]

theorem MethodSignature_get_of_plain (rt : Runtime σ) (w : World σ) (d : Value)
    (args : List Arg) (hd : d.isJavaObject = false)
    (h : ∀ a ∈ args, a.isJavaObject = false) :
    (MethodSignature.get rt w d args).2 = (d, w) := by
  simp only [MethodSignature.get, MethodSignature.getSigned, TypeSignature_get_of_plain rt w d hd,
    build_world_of_plain rt args h]

/-- The environment check of an object wrapper that has a class handle and
an instance handle passes and changes nothing. -/
theorem JavaObject_checkAndGetEnv_ok (rt : Runtime σ) (w : World σ) (this : JavaObject)
    (henv : ¬ Jni.getEnv rt = nullptr) (hc : this._javaClass._jclazz ≠ nullptr)
    (ho : this._jobject ≠ nullptr) :
    JavaObject.checkAndGetEnv rt w this = (.ok (), this, w) := by
  simp [JavaObject.checkAndGetEnv, henv, JavaObject_getJClass_of_handle rt w this hc, hc,
    JavaObject.getJObject, ho]

/-- The environment check of a class wrapper with a handle passes and changes
nothing. -/
theorem JavaClass_checkAndGetEnv_ok (rt : Runtime σ) (w : World σ) (this : JavaClass)
    (henv : ¬ Jni.getEnv rt = nullptr) (hc : this._jclazz ≠ nullptr) :
    JavaClass.checkAndGetEnv rt w this = (.ok (), this, w) := by
  simp [JavaClass.checkAndGetEnv, henv, JavaClass_getJClass_of_handle rt w this hc, hc]

theorem invoke_logged (rt : Runtime σ) (w : World σ) (c : JniCall) :
    (JNIEnv.invoke rt w c).2.logged = w.logged := by
  unfold JNIEnv.invoke
  split <;> rfl

theorem JavaObject_call_logs_once (rt : Runtime σ) (w : World σ) (this : JavaObject)
    (name : String) (d : Value) (args : List Arg)
    (henv : ¬ Jni.getEnv rt = nullptr) (hc : this._javaClass._jclazz ≠ nullptr)
    (ho : this._jobject ≠ nullptr) (hd : d.isJavaObject = false)
    (ha : ∀ a ∈ args, a.isJavaObject = false)
    (h : (JNIEnv.invoke rt w (.GetMethodID this._javaClass._jclazz name
      (MethodSignature.get rt w d args).1)).1.ref = nullptr) :
    (JavaObject.call rt w this name d args).1 = d ∧
    (JavaObject.call rt w this name d args).2.2.2.logged
      = w.logged ++ ["Method `" ++ name ++ "` for `"
          ++ (MethodSignature.get rt w d args).1 ++ "` not found."] := by
  have hs := MethodSignature_get_of_plain rt w d args hd ha
  rcases hm : MethodSignature.get rt w d args with ⟨sig, d1, w1⟩
  rw [hm] at hs h
  simp only [Prod.mk.injEq] at hs
  obtain ⟨rfl, rfl⟩ := hs
  simp only [] at h
  simp [JavaObject.call, JavaObject_checkAndGetEnv_ok rt _ this henv hc ho, hm,
    JavaObject_getJClass_of_handle rt _ this hc, env_util.getMethodId, h, JniException.log,
    invoke_logged]

theorem JavaObject_field_logs_once (rt : Runtime σ) (w : World σ) (this : JavaObject)
    (name : String) (d : Value)
    (henv : ¬ Jni.getEnv rt = nullptr) (hc : this._javaClass._jclazz ≠ nullptr)
    (ho : this._jobject ≠ nullptr) (hd : d.isJavaObject = false)
    (h : (JNIEnv.invoke rt w (.GetFieldID this._javaClass._jclazz name
      (TypeSignature.get rt w d).1)).1.ref = nullptr) :
    (JavaObject.field rt w this name d).1 = d ∧
    (JavaObject.field rt w this name d).2.2.2.logged
      = w.logged ++ ["Field `" ++ name ++ "` for `"
          ++ (TypeSignature.get rt w d).1 ++ "` not found."] := by
  have hs := TypeSignature_get_of_plain rt w d hd
  rcases hm : TypeSignature.get rt w d with ⟨sig, d1, w1⟩
  rw [hm] at hs h
  simp only [Prod.mk.injEq] at hs
  obtain ⟨rfl, rfl⟩ := hs
  simp only [] at h
  simp [JavaObject.field, JavaObject_checkAndGetEnv_ok rt _ this henv hc ho, hm,
    JavaObject_getJClass_of_handle rt _ this hc, env_util.getFieldId, h, JniException.log,
    invoke_logged]

theorem JavaClass_staticCall_logs_once (rt : Runtime σ) (w : World σ) (this : JavaClass)
    (name : String) (d : Value) (args : List Arg)
    (henv : ¬ Jni.getEnv rt = nullptr) (hc : this._jclazz ≠ nullptr)
    (hd : d.isJavaObject = false) (ha : ∀ a ∈ args, a.isJavaObject = false)
    (h : (JNIEnv.invoke rt w (.GetStaticMethodID this._jclazz name
      (MethodSignature.get rt w d args).1)).1.ref = nullptr) :
    (JavaClass.staticCall rt w this name d args).1 = d ∧
    (JavaClass.staticCall rt w this name d args).2.2.2.logged
      = w.logged ++ ["Method `" ++ name ++ "` for `"
          ++ (MethodSignature.get rt w d args).1 ++ "` not found."] := by
  have hs := MethodSignature_get_of_plain rt w d args hd ha
  rcases hm : MethodSignature.get rt w d args with ⟨sig, d1, w1⟩
  rw [hm] at hs h
  simp only [Prod.mk.injEq] at hs
  obtain ⟨rfl, rfl⟩ := hs
  simp only [] at h
  simp [JavaClass.staticCall, JavaClass_checkAndGetEnv_ok rt _ this henv hc, hm,
    JavaClass_getJClass_of_handle rt _ this hc, env_util.getMethodId, h, JniException.log,
    invoke_logged]

theorem JavaClass_staticField_logs_once (rt : Runtime σ) (w : World σ) (this : JavaClass)
    (name : String) (d : Value)
    (henv : ¬ Jni.getEnv rt = nullptr) (hc : this._jclazz ≠ nullptr)
    (hd : d.isJavaObject = false)
    (h : (JNIEnv.invoke rt w (.GetStaticFieldID this._jclazz name
      (TypeSignature.get rt w d).1)).1.ref = nullptr) :
    (JavaClass.staticField rt w this name d).1 = d ∧
    (JavaClass.staticField rt w this name d).2.2.2.logged
      = w.logged ++ ["Field `" ++ name ++ "` for `"
          ++ (TypeSignature.get rt w d).1 ++ "` not found."] := by
  have hs := TypeSignature_get_of_plain rt w d hd
  rcases hm : TypeSignature.get rt w d with ⟨sig, d1, w1⟩
  rw [hm] at hs h
  simp only [Prod.mk.injEq] at hs
  obtain ⟨rfl, rfl⟩ := hs
  simp only [] at h
  simp [JavaClass.staticField, JavaClass_checkAndGetEnv_ok rt _ this henv hc, hm,
    JavaClass_getJClass_of_handle rt _ this hc, env_util.getFieldId, h, JniException.log,
    invoke_logged]

/-- A class wrapper with a path that the runtime does not find, asked for its
handle: it logs `Class not found` and stays without handle. -/
theorem JavaClass_getJClass_notFound (rt : Runtime σ) (w : World σ) (P : String)
    (henv : ¬ Jni.getEnv rt = nullptr) (hP : P ≠ "")
    (h : (JNIEnv.invoke rt w (.FindClass P)).1.ref = nullptr) :
    (JavaClass.getJClass rt w ⟨P, nullptr⟩).1 = nullptr ∧
    (JavaClass.getJClass rt w ⟨P, nullptr⟩).2.1 = ⟨P, nullptr⟩ ∧
    (JavaClass.getJClass rt w ⟨P, nullptr⟩).2.2.logged
      = w.logged ++ ["Class not found: " ++ P] := by
  have h' : (rt.step w.heap (.FindClass P)).1.ref = nullptr := by
    simpa [JNIEnv.invoke, henv] using h
  have hf := (findClass_null_keeps_pending rt w P henv h').1
  rw [(JavaClass_getJClass_unresolved rt w P henv hP).1 _ hf]
  refine ⟨rfl, rfl, ?_⟩
  simp [JniException.log, env_util.findClass, JNIEnv.FindClass, h, invoke_logged]

/-- The environment check of the typed null of a class the runtime does not
find: one diagnostic is logged inside, and the check throws. -/
theorem JavaObject_checkAndGetEnv_classNotFound (rt : Runtime σ) (w : World σ) (P : String)
    (henv : ¬ Jni.getEnv rt = nullptr) (hP : P ≠ "")
    (h : (JNIEnv.invoke rt w (.FindClass P)).1.ref = nullptr) :
    ∃ t w1, JavaObject.checkAndGetEnv rt w (JavaObject.null P)
        = (.error ⟨"Failed to get jclass. "⟩, t, w1) ∧
      w1.logged = w.logged ++ ["Class not found: " ++ P] := by
  obtain ⟨h1, _, h3⟩ := JavaClass_getJClass_notFound rt w P henv hP h
  refine ⟨⟨nullptr, (JavaClass.getJClass rt w ⟨P, nullptr⟩).2.1⟩,
    (JavaClass.getJClass rt w ⟨P, nullptr⟩).2.2, ?_, h3⟩
  have hn : JavaObject.null P = ⟨nullptr, ⟨P, nullptr⟩⟩ := rfl
  rw [hn]
  simp only [JavaObject.checkAndGetEnv, henv, if_false, JavaObject_getJClass_nullObject,
    JavaObject.returnJClass, h1, if_true]

theorem JavaClass_checkAndGetEnv_classNotFound (rt : Runtime σ) (w : World σ) (P : String)
    (henv : ¬ Jni.getEnv rt = nullptr) (hP : P ≠ "")
    (h : (JNIEnv.invoke rt w (.FindClass P)).1.ref = nullptr) :
    ∃ t w1, JavaClass.checkAndGetEnv rt w ⟨P, nullptr⟩
        = (.error ⟨"Failed to get jclass."⟩, t, w1) ∧
      w1.logged = w.logged ++ ["Class not found: " ++ P] := by
  obtain ⟨h1, _, h3⟩ := JavaClass_getJClass_notFound rt w P henv hP h
  refine ⟨(JavaClass.getJClass rt w ⟨P, nullptr⟩).2.1,
    (JavaClass.getJClass rt w ⟨P, nullptr⟩).2.2, ?_, h3⟩
  simp only [JavaClass.checkAndGetEnv, henv, if_false, h1, if_true]

theorem getMethodId_null_eq (rt : Runtime σ) (w : World σ) (clazz : jclass)
    (name sig : String) (isStatic : Bool)
    (h : (JNIEnv.invoke rt w
      (if isStatic then .GetStaticMethodID clazz name sig else .GetMethodID clazz name sig)).1.ref
        = nullptr) :
    env_util.getMethodId rt w clazz name sig isStatic
      = (.error ⟨"Method `" ++ name ++ "` for `" ++ sig ++ "` not found."⟩,
         (JNIEnv.invoke rt w
           (if isStatic then .GetStaticMethodID clazz name sig
            else .GetMethodID clazz name sig)).2) := by
  cases isStatic <;> simp_all [env_util.getMethodId]

theorem getFieldId_null_eq (rt : Runtime σ) (w : World σ) (clazz : jclass)
    (name sig : String) (isStatic : Bool)
    (h : (JNIEnv.invoke rt w
      (if isStatic then .GetStaticFieldID clazz name sig else .GetFieldID clazz name sig)).1.ref
        = nullptr) :
    env_util.getFieldId rt w clazz name sig isStatic
      = (.error ⟨"Field `" ++ name ++ "` for `" ++ sig ++ "` not found."⟩,
         (JNIEnv.invoke rt w
           (if isStatic then .GetStaticFieldID clazz name sig
            else .GetFieldID clazz name sig)).2) := by
  cases isStatic <;> simp_all [env_util.getFieldId]

/-- `JavaObject::call` with a method name the runtime does not find: the
accessor logs one diagnostic, after what the environment check, the signature
derivation and the class resolution logged. -/
theorem JavaObject_call_notFound_logged (rt : Runtime σ) (w : World σ) (this : JavaObject)
    (name : String) (d : Value) (args : List Arg) :
    let c := JavaObject.checkAndGetEnv rt w this
    let s := MethodSignature.get rt c.2.2 d args
    let j := JavaObject.getJClass rt s.2.2 c.2.1
    c.1 = .ok () →
    (JNIEnv.invoke rt j.2.2 (.GetMethodID j.1 name s.1)).1.ref = nullptr →
    (JavaObject.call rt w this name d args).2.2.2.logged
      = j.2.2.logged ++ ["Method `" ++ name ++ "` for `" ++ s.1 ++ "` not found."] := by
  intro c s j hc h
  have hc' := except_ok_eta c hc
  have hm := getMethodId_null_eq rt j.2.2 j.1 name s.1 false (by simpa using h)
  unfold JavaObject.call
  rw [show JavaObject.checkAndGetEnv rt w this = c from rfl, hc']
  simp only []
  rw [show MethodSignature.get rt c.2.2 d args = s from rfl]
  rw [show JavaObject.getJClass rt s.2.2 c.2.1 = j from rfl]
  rw [hm]
  simp [JniException.log, invoke_logged]

theorem JavaObject_field_notFound_logged (rt : Runtime σ) (w : World σ) (this : JavaObject)
    (name : String) (d : Value) :
    let c := JavaObject.checkAndGetEnv rt w this
    let s := TypeSignature.get rt c.2.2 d
    let j := JavaObject.getJClass rt s.2.2 c.2.1
    c.1 = .ok () →
    (JNIEnv.invoke rt j.2.2 (.GetFieldID j.1 name s.1)).1.ref = nullptr →
    (JavaObject.field rt w this name d).2.2.2.logged
      = j.2.2.logged ++ ["Field `" ++ name ++ "` for `" ++ s.1 ++ "` not found."] := by
  intro c s j hc h
  have hc' := except_ok_eta c hc
  have hm := getFieldId_null_eq rt j.2.2 j.1 name s.1 false (by simpa using h)
  unfold JavaObject.field
  rw [show JavaObject.checkAndGetEnv rt w this = c from rfl, hc']
  simp only []
  rw [show TypeSignature.get rt c.2.2 d = s from rfl]
  rw [show JavaObject.getJClass rt s.2.2 c.2.1 = j from rfl]
  rw [hm]
  simp [JniException.log, invoke_logged]

theorem JavaClass_staticCall_notFound_logged (rt : Runtime σ) (w : World σ) (this : JavaClass)
    (name : String) (d : Value) (args : List Arg) :
    let c := JavaClass.checkAndGetEnv rt w this
    let s := MethodSignature.get rt c.2.2 d args
    let j := JavaClass.getJClass rt s.2.2 c.2.1
    c.1 = .ok () →
    (JNIEnv.invoke rt j.2.2 (.GetStaticMethodID j.1 name s.1)).1.ref = nullptr →
    (JavaClass.staticCall rt w this name d args).2.2.2.logged
      = j.2.2.logged ++ ["Method `" ++ name ++ "` for `" ++ s.1 ++ "` not found."] := by
  intro c s j hc h
  have hc' := except_ok_eta c hc
  have hm := getMethodId_null_eq rt j.2.2 j.1 name s.1 true (by simpa using h)
  unfold JavaClass.staticCall
  rw [show JavaClass.checkAndGetEnv rt w this = c from rfl, hc']
  simp only []
  rw [show MethodSignature.get rt c.2.2 d args = s from rfl]
  rw [show JavaClass.getJClass rt s.2.2 c.2.1 = j from rfl]
  rw [hm]
  simp [JniException.log, invoke_logged]

theorem JavaClass_staticField_notFound_logged (rt : Runtime σ) (w : World σ) (this : JavaClass)
    (name : String) (d : Value) :
    let c := JavaClass.checkAndGetEnv rt w this
    let s := TypeSignature.get rt c.2.2 d
    let j := JavaClass.getJClass rt s.2.2 c.2.1
    c.1 = .ok () →
    (JNIEnv.invoke rt j.2.2 (.GetStaticFieldID j.1 name s.1)).1.ref = nullptr →
    (JavaClass.staticField rt w this name d).2.2.2.logged
      = j.2.2.logged ++ ["Field `" ++ name ++ "` for `" ++ s.1 ++ "` not found."] := by
  intro c s j hc h
  have hc' := except_ok_eta c hc
  have hm := getFieldId_null_eq rt j.2.2 j.1 name s.1 true (by simpa using h)
  unfold JavaClass.staticField
  rw [show JavaClass.checkAndGetEnv rt w this = c from rfl, hc']
  simp only []
  rw [show TypeSignature.get rt c.2.2 d = s from rfl]
  rw [show JavaClass.getJClass rt s.2.2 c.2.1 = j from rfl]
  rw [hm]
  simp [JniException.log, invoke_logged]

/-- C13 (counterexample): on the small runtime `call` on the typed null of a
class path that names no class returns the default and logs two diagnostics,
not one: `Class not found` inside `JavaClass::getJClass`, then
`Failed to get jclass.` at the accessor. -/
theorem class_not_found_logs_twice :
    (JavaObject.call MiniJvm.rt MiniJvm.start (JavaObject.null "no/such/Class") "length"
        (.prim .jint (-1)) []).1 = .prim .jint (-1) ∧
    (JavaObject.call MiniJvm.rt MiniJvm.start (JavaObject.null "no/such/Class") "length"
        (.prim .jint (-1)) []).2.2.2.logged
      = ["Class not found: no/such/Class", "Failed to get jclass. "] ∧
    (JavaObject.call MiniJvm.rt MiniJvm.start (JavaObject.null "no/such/Class") "length"
        (.prim .jint (-1)) []).2.2.2.logged.length ≠ MiniJvm.start.logged.length + 1 := by
  decide

/-- C13 (amended): a failed lookup through a typed accessor returns the
caller's default, and the accessor has no error result.  A method or field
name that does not exist for the derived signature makes the accessor log
exactly one diagnostic, `Method ... not found.` or `Field ... not found.`,
after what the environment check `c`, the signature derivation `s` and the
class resolution `j` logged themselves; these log nothing on a wrapper whose
class handle is resolved (and whose instance handle is not null, for `call`
and `field`) with a default value and arguments that are not object wrappers,
so that the invocation logs exactly one diagnostic.  A wrapper whose class
path `P` names no existing class, so that the class lookup fails inside the
accessor (the typed null `JavaObject::null(P)`, or a class wrapper holding `P`
and no handle), produces two: `Class not found: P`, logged by
`JavaClass::getJClass`, and `Failed to get jclass.`, logged by the
accessor. -/
theorem failed_lookup_logs (rt : Runtime σ) (w : World σ) (name : String) (d : Value)
    (args : List Arg) (obj : JavaObject) (cls : JavaClass) (P : String) :
    ((let c := JavaObject.checkAndGetEnv rt w obj
      let s := MethodSignature.get rt c.2.2 d args
      let j := JavaObject.getJClass rt s.2.2 c.2.1
      c.1 = .ok () →
      (JNIEnv.invoke rt j.2.2 (.GetMethodID j.1 name s.1)).1.ref = nullptr →
      (JavaObject.call rt w obj name d args).1 = s.2.1 ∧
      (JavaObject.call rt w obj name d args).2.2.2.logged
        = j.2.2.logged ++ ["Method `" ++ name ++ "` for `" ++ s.1 ++ "` not found."]) ∧
     (let c := JavaObject.checkAndGetEnv rt w obj
      let s := TypeSignature.get rt c.2.2 d
      let j := JavaObject.getJClass rt s.2.2 c.2.1
      c.1 = .ok () →
      (JNIEnv.invoke rt j.2.2 (.GetFieldID j.1 name s.1)).1.ref = nullptr →
      (JavaObject.field rt w obj name d).1 = s.2.1 ∧
      (JavaObject.field rt w obj name d).2.2.2.logged
        = j.2.2.logged ++ ["Field `" ++ name ++ "` for `" ++ s.1 ++ "` not found."]) ∧
     (let c := JavaClass.checkAndGetEnv rt w cls
      let s := MethodSignature.get rt c.2.2 d args
      let j := JavaClass.getJClass rt s.2.2 c.2.1
      c.1 = .ok () →
      (JNIEnv.invoke rt j.2.2 (.GetStaticMethodID j.1 name s.1)).1.ref = nullptr →
      (JavaClass.staticCall rt w cls name d args).1 = s.2.1 ∧
      (JavaClass.staticCall rt w cls name d args).2.2.2.logged
        = j.2.2.logged ++ ["Method `" ++ name ++ "` for `" ++ s.1 ++ "` not found."]) ∧
     (let c := JavaClass.checkAndGetEnv rt w cls
      let s := TypeSignature.get rt c.2.2 d
      let j := JavaClass.getJClass rt s.2.2 c.2.1
      c.1 = .ok () →
      (JNIEnv.invoke rt j.2.2 (.GetStaticFieldID j.1 name s.1)).1.ref = nullptr →
      (JavaClass.staticField rt w cls name d).1 = s.2.1 ∧
      (JavaClass.staticField rt w cls name d).2.2.2.logged
        = j.2.2.logged ++ ["Field `" ++ name ++ "` for `" ++ s.1 ++ "` not found."])) ∧
    (¬ Jni.getEnv rt = nullptr →
      (d.isJavaObject = false → (∀ a ∈ args, a.isJavaObject = false) →
        (obj._javaClass._jclazz ≠ nullptr → obj._jobject ≠ nullptr →
          ((JNIEnv.invoke rt w (.GetMethodID obj._javaClass._jclazz name
              (MethodSignature.get rt w d args).1)).1.ref = nullptr →
            (JavaObject.call rt w obj name d args).1 = d ∧
            (JavaObject.call rt w obj name d args).2.2.2.logged
              = w.logged ++ ["Method `" ++ name ++ "` for `"
                  ++ (MethodSignature.get rt w d args).1 ++ "` not found."]) ∧
          ((JNIEnv.invoke rt w (.GetFieldID obj._javaClass._jclazz name
              (TypeSignature.get rt w d).1)).1.ref = nullptr →
            (JavaObject.field rt w obj name d).1 = d ∧
            (JavaObject.field rt w obj name d).2.2.2.logged
              = w.logged ++ ["Field `" ++ name ++ "` for `"
                  ++ (TypeSignature.get rt w d).1 ++ "` not found."])) ∧
        (cls._jclazz ≠ nullptr →
          ((JNIEnv.invoke rt w (.GetStaticMethodID cls._jclazz name
              (MethodSignature.get rt w d args).1)).1.ref = nullptr →
            (JavaClass.staticCall rt w cls name d args).1 = d ∧
            (JavaClass.staticCall rt w cls name d args).2.2.2.logged
              = w.logged ++ ["Method `" ++ name ++ "` for `"
                  ++ (MethodSignature.get rt w d args).1 ++ "` not found."]) ∧
          ((JNIEnv.invoke rt w (.GetStaticFieldID cls._jclazz name
              (TypeSignature.get rt w d).1)).1.ref = nullptr →
            (JavaClass.staticField rt w cls name d).1 = d ∧
            (JavaClass.staticField rt w cls name d).2.2.2.logged
              = w.logged ++ ["Field `" ++ name ++ "` for `"
                  ++ (TypeSignature.get rt w d).1 ++ "` not found."]))) ∧
      (P ≠ "" → (JNIEnv.invoke rt w (.FindClass P)).1.ref = nullptr →
        ((JavaObject.call rt w (JavaObject.null P) name d args).1 = d ∧
          (JavaObject.call rt w (JavaObject.null P) name d args).2.2.2.logged
            = w.logged ++ ["Class not found: " ++ P, "Failed to get jclass. "]) ∧
        ((JavaObject.field rt w (JavaObject.null P) name d).1 = d ∧
          (JavaObject.field rt w (JavaObject.null P) name d).2.2.2.logged
            = w.logged ++ ["Class not found: " ++ P, "Failed to get jclass. "]) ∧
        ((JavaClass.staticCall rt w ⟨P, nullptr⟩ name d args).1 = d ∧
          (JavaClass.staticCall rt w ⟨P, nullptr⟩ name d args).2.2.2.logged
            = w.logged ++ ["Class not found: " ++ P, "Failed to get jclass."]) ∧
        ((JavaClass.staticField rt w ⟨P, nullptr⟩ name d).1 = d ∧
          (JavaClass.staticField rt w ⟨P, nullptr⟩ name d).2.2.2.logged
            = w.logged ++ ["Class not found: " ++ P, "Failed to get jclass."]))) := by
  refine ⟨⟨?_, ?_, ?_, ?_⟩, ?_⟩
  · intro c s j hc h
    exact ⟨((JavaObject_call_failsoft rt w obj name d args 0).2 hc (Or.inl h)).1,
      JavaObject_call_notFound_logged rt w obj name d args hc h⟩
  · intro c s j hc h
    exact ⟨((JavaObject_field_failsoft rt w obj name d 0).2 hc (Or.inl h)).1,
      JavaObject_field_notFound_logged rt w obj name d hc h⟩
  · intro c s j hc h
    exact ⟨((JavaClass_staticCall_failsoft rt w cls name d args 0).2 hc (Or.inl h)).1,
      JavaClass_staticCall_notFound_logged rt w cls name d args hc h⟩
  · intro c s j hc h
    exact ⟨((JavaClass_staticField_failsoft rt w cls name d 0).2 hc (Or.inl h)).1,
      JavaClass_staticField_notFound_logged rt w cls name d hc h⟩
  intro henv
  constructor
  · intro hd ha
    exact ⟨fun hc ho =>
        ⟨JavaObject_call_logs_once rt w obj name d args henv hc ho hd ha,
         JavaObject_field_logs_once rt w obj name d henv hc ho hd⟩,
      fun hc =>
        ⟨JavaClass_staticCall_logs_once rt w cls name d args henv hc hd ha,
         JavaClass_staticField_logs_once rt w cls name d henv hc hd⟩⟩
  · intro hP h
    obtain ⟨t, w1, hc, hl⟩ := JavaObject_checkAndGetEnv_classNotFound rt w P henv hP h
    obtain ⟨t', w1', hc', hl'⟩ := JavaClass_checkAndGetEnv_classNotFound rt w P henv hP h
    rw [JavaObject_call_check_error rt w w1 _ t name d args _ hc,
      JavaObject_field_check_error rt w w1 _ t name d _ hc,
      JavaClass_staticCall_check_error rt w w1' _ t' name d args _ hc',
      JavaClass_staticField_check_error rt w w1' _ t' name d _ hc']
    simp [JniException.log, hl, hl']

/-- Witness of C13 (amended) on the small runtime: a method and a field that
do not exist on the live string `hi`, a static method and a static field that
do not exist on `java/lang/Integer`, the typed null of a class that does not
exist, and a method that does not exist on an object wrapper whose class is
resolved from the instance during the call. -/
theorem failed_lookup_logs_witness :
    (JavaObject.call MiniJvm.rt MiniJvm.hi.2 MiniJvm.hi.1 "size"
        (.prim .jint (-1)) []).2.2.2.logged
      = MiniJvm.hi.2.logged ++ ["Method `" ++ "size" ++ "` for `"
          ++ (MethodSignature.get MiniJvm.rt MiniJvm.hi.2 (.prim .jint (-1)) []).1
          ++ "` not found."] ∧
    (JavaObject.field MiniJvm.rt MiniJvm.hi.2 MiniJvm.hi.1 "count"
        (.prim .jint (-1))).2.2.2.logged
      = MiniJvm.hi.2.logged ++ ["Field `" ++ "count" ++ "` for `"
          ++ (TypeSignature.get MiniJvm.rt MiniJvm.hi.2 (.prim .jint (-1))).1
          ++ "` not found."] ∧
    (JavaClass.staticCall MiniJvm.rt MiniJvm.integer.2 MiniJvm.integer.1 "parse"
        (.prim .jint (-1)) [.value (.string "12")]).2.2.2.logged
      = MiniJvm.integer.2.logged ++ ["Method `" ++ "parse" ++ "` for `"
          ++ (MethodSignature.get MiniJvm.rt MiniJvm.integer.2 (.prim .jint (-1))
                [.value (.string "12")]).1
          ++ "` not found."] ∧
    (JavaClass.staticField MiniJvm.rt MiniJvm.integer.2 MiniJvm.integer.1 "MAX_VALUE"
        (.prim .jlong 0)).2.2.2.logged
      = MiniJvm.integer.2.logged ++ ["Field `" ++ "MAX_VALUE" ++ "` for `"
          ++ (TypeSignature.get MiniJvm.rt MiniJvm.integer.2 (.prim .jlong 0)).1
          ++ "` not found."] ∧
    (JavaObject.field MiniJvm.rt MiniJvm.start (JavaObject.null "no/such/Class") "count"
        (.prim .jint (-1))).2.2.2.logged
      = MiniJvm.start.logged
          ++ ["Class not found: " ++ "no/such/Class", "Failed to get jclass. "] ∧
    (JavaObject.call MiniJvm.rt MiniJvm.hi.2 (JavaObject.ofJObject MiniJvm.hi.1._jobject)
        "size" (.prim .jint (-1)) []).2.2.2.logged.length = MiniJvm.hi.2.logged.length + 1 :=
  ⟨(((((failed_lookup_logs MiniJvm.rt MiniJvm.hi.2 "size" (.prim .jint (-1)) []
        MiniJvm.hi.1 MiniJvm.integer.1 "no/such/Class").2 (by decide)).1
        (by decide) (by decide)).1 (by decide) (by decide)).1 (by decide)).2,
   (((((failed_lookup_logs MiniJvm.rt MiniJvm.hi.2 "count" (.prim .jint (-1)) []
        MiniJvm.hi.1 MiniJvm.integer.1 "no/such/Class").2 (by decide)).1
        (by decide) (by decide)).1 (by decide) (by decide)).2 (by decide)).2,
   (((((failed_lookup_logs MiniJvm.rt MiniJvm.integer.2 "parse" (.prim .jint (-1))
        [.value (.string "12")] MiniJvm.hi.1 MiniJvm.integer.1 "no/such/Class").2
        (by decide)).1 (by decide) (by decide)).2 (by decide)).1 (by decide)).2,
   (((((failed_lookup_logs MiniJvm.rt MiniJvm.integer.2 "MAX_VALUE" (.prim .jlong 0)
        [] MiniJvm.hi.1 MiniJvm.integer.1 "no/such/Class").2 (by decide)).1
        (by decide) (by decide)).2 (by decide)).2 (by decide)).2,
   ((((failed_lookup_logs MiniJvm.rt MiniJvm.start "count" (.prim .jint (-1)) []
        MiniJvm.hi.1 MiniJvm.integer.1 "no/such/Class").2 (by decide)).2
        (by decide) (by decide)).2.1).2,
   by
    have h := ((failed_lookup_logs MiniJvm.rt MiniJvm.hi.2 "size" (.prim .jint (-1)) []
      (JavaObject.ofJObject MiniJvm.hi.1._jobject) MiniJvm.integer.1 "no/such/Class").1.1
      (by rfl) (by decide)).2
    rw [h]
    decide⟩

/-! ## C1: a text result is converted before the failure check -/

/-- For every return type but `std::string` the specialisations return what
the JNI function answered and ask the runtime nothing more: the state in which
the accessor then checks for a failure is the state the underlying call
left. -/
theorem ReturnType_finish_of_not_string (rt : Runtime σ) (R : ReturnType)
    (r : JniReply × World σ) (h : R ≠ .string) : (R.finish rt r).2 = r.2 := by
  cases R <;> first | rfl | exact absurd rfl h

/-- The specialisations for `std::string` hand the reference the JNI function
answered to `fromJString` at once: the next JNI call is `GetStringUTFChars` on
that reference, whatever it is and whatever the call left pending. -/
theorem ReturnType_finish_string_calls (rt : Runtime σ) (r : JniReply × World σ)
    (henv : ¬ Jni.getEnv rt = nullptr) :
    ∃ rest, (ReturnType.finish rt .string r).2.calls
      = r.2.calls ++ .GetStringUTFChars r.1.ref :: rest := by
  simp only [ReturnType.finish, fromJString]
  split
  · exact ⟨[], by simp [invoke_calls _ _ _ henv]⟩
  · rename_i chars _
    refine ⟨[.ReleaseStringUTFChars r.1.ref chars, .DeleteLocalRef r.1.ref], ?_⟩
    simp [JNIEnv.DeleteLocalRef, invoke_calls _ _ _ henv]

/-- The four underlying accessors at `std::string`: the JNI function is called,
and its answer goes to `GetStringUTFChars` before anything checks what the
call left pending. -/
theorem string_accessors_convert_first (rt : Runtime σ) (w : World σ) (o : JavaObject)
    (c : JavaClass) (id : Nat) (args : List VaArg) (henv : ¬ Jni.getEnv rt = nullptr) :
    (∃ rest, (JavaObject.__call rt w o .string id args).2.calls
      = w.calls ++ .CallMethodV .Object o._jobject id args
          :: .GetStringUTFChars (rt.step w.heap (.CallMethodV .Object o._jobject id args)).1.ref
          :: rest) ∧
    (∃ rest, (JavaObject._field rt w o .string id).2.calls
      = w.calls ++ .GetField .Object o._jobject id
          :: .GetStringUTFChars (rt.step w.heap (.GetField .Object o._jobject id)).1.ref
          :: rest) ∧
    (∃ rest, (JavaClass.__staticCall rt w c .string id args).2.calls
      = w.calls ++ .CallStaticMethodV .Object c._jclazz id args
          :: .GetStringUTFChars
              (rt.step w.heap (.CallStaticMethodV .Object c._jclazz id args)).1.ref
          :: rest) ∧
    (∃ rest, (JavaClass._staticField rt w c .string id).2.calls
      = w.calls ++ .GetStaticField .Object c._jclazz id
          :: .GetStringUTFChars (rt.step w.heap (.GetStaticField .Object c._jclazz id)).1.ref
          :: rest) := by
  have key : ∀ call : JniCall, ∃ rest,
      (ReturnType.finish rt .string (JNIEnv.invoke rt w call)).2.calls
        = w.calls ++ call :: .GetStringUTFChars (rt.step w.heap call).1.ref :: rest := by
    intro call
    obtain ⟨rest, h⟩ := ReturnType_finish_string_calls rt (JNIEnv.invoke rt w call) henv
    refine ⟨rest, ?_⟩
    rw [h, invoke_calls _ _ _ henv]
    simp [JNIEnv.invoke, henv]
  exact ⟨key _, key _, key _, key _⟩

/-- C1 (the code at the failing input): on the small runtime with
`String.substring(int)`, `hi.call<std::string>("substring", "none", 7)` throws
in the runtime (the index is beyond the end): `CallObjectMethodV` returns
`NULL` and leaves the failure pending.  `__call<std::string>` does not discard
this value: it hands it to `GetStringUTFChars` while the failure is still
pending and not yet described, and only afterwards does the accessor check for
the failure.  With a return type that is not a text (`charAt(7)`, a `jchar`)
nothing is asked between the call that throws and the check.  The small
runtime answers `GetStringUTFChars(NULL)` with `NULL`, and there the default
comes back. -/
theorem string_result_used_before_check :
    MiniJvm.hi.1._jobject = 102 ∧
    (JavaObject.call MiniJvm.withSubstring MiniJvm.hi.2 MiniJvm.hi.1 "substring"
        (.string "none") [.value (.prim .jint 1)]).1 = .string "i" ∧
    (JNIEnv.invoke MiniJvm.withSubstring MiniJvm.hi.2
        (.CallMethodV .Object 102 34 [.prim 7])).1.ref = nullptr ∧
    (JNIEnv.invoke MiniJvm.withSubstring MiniJvm.hi.2
        (.CallMethodV .Object 102 34 [.prim 7])).2.pending = true ∧
    (JavaObject.__call MiniJvm.withSubstring MiniJvm.hi.2 MiniJvm.hi.1 .string 34
        [.prim 7]).2.calls
      = MiniJvm.hi.2.calls
          ++ [.CallMethodV .Object 102 34 [.prim 7], .GetStringUTFChars nullptr] ∧
    (JavaObject.__call MiniJvm.withSubstring MiniJvm.hi.2 MiniJvm.hi.1 .string 34
        [.prim 7]).2.pending = true ∧
    (JavaObject.__call MiniJvm.withSubstring MiniJvm.hi.2 MiniJvm.hi.1 .string 34
        [.prim 7]).2.described = 0 ∧
    (JavaObject.call MiniJvm.withSubstring MiniJvm.hi.2 MiniJvm.hi.1 "substring"
        (.string "none") [.value (.prim .jint 7)]).2.2.2.calls
      = MiniJvm.hi.2.calls
          ++ [.GetMethodID 3 "substring" "(I)Ljava/lang/String;",
              .CallMethodV .Object 102 34 [.prim 7], .GetStringUTFChars nullptr] ∧
    (JavaObject.call MiniJvm.withSubstring MiniJvm.hi.2 MiniJvm.hi.1 "substring"
        (.string "none") [.value (.prim .jint 7)]).2.2.2.described = 1 ∧
    (JavaObject.call MiniJvm.rt MiniJvm.hi.2 MiniJvm.hi.1 "charAt"
        (.prim .jchar 63) [.value (.prim .jint 7)]).2.2.2.calls
      = MiniJvm.hi.2.calls
          ++ [.GetMethodID 3 "charAt" "(I)C", .CallMethodV .Char 102 33 [.prim 7]] ∧
    (JavaObject.call MiniJvm.withSubstring MiniJvm.hi.2 MiniJvm.hi.1 "substring"
        (.string "none") [.value (.prim .jint 7)]).1 = .string "none" := by
  decide

end jnicpp11
